import Mathlib

/-!
# solokeys-openpgp: APDU executor and OpenPGP command handlers

A shallow embedding of `src/util.h` (the `bstr` byte view), `src/apduexecutor.cpp`
(`APDUExecutor::SetResultError`, `APDUExecutor::Execute`) and of the command handlers of
`src/applets/openpgp/`, followed by the theorems that settle the claims of the
specification against that code.

Conventions.
* A byte (`uint8_t`) is a `Nat`; wherever the code narrows a wider value to a byte the
  embedding writes the `% 256` explicitly.
* A `bstr` is a view `(pointer, length, max_length)`.  The pointer is embedded as the list
  `mem` of the bytes that start at that address; a byte outside the list reads as `0`.
* Stateful collaborators whose code is not part of the embedded sources (applet storage,
  applets, the random generator) are parameters that pass their state explicitly.
* The widths of `size_t` and of `int` are not fixed by the sources: where arithmetic on them
  can wrap around, the width is a parameter (`bits`, `ibits`).
* An exception that leaves a function is the result `none` of an `Option`.
-/

set_option autoImplicit false

/-! ## `src/util.h` : the byte view -/

/-- The `w_basic_string_view<uint8_t>` of `util.h` (alias `bstr`): `mem` are the bytes at
`data()`, `len` is `length()`, `max_length` is the private `_max_length`. -/
structure bstr where
  mem : List Nat
  len : Nat
  max_length : Nat
deriving DecidableEq, Repr

namespace bstr

/-- The macro `MAX(a,b)` of `util.h`. -/
def MAX (a b : Nat) : Nat := if a > b then a else b

/-- Memory of at least `n` bytes: the bytes of `m`, then zeroes for what lies outside. -/
def padTo (m : List Nat) (n : Nat) : List Nat := m ++ List.replicate (n - m.length) 0

/-- The effect of `memmove(p + off, src, |src|)` on the bytes `m` that start at `p`. -/
def write (m : List Nat) (off : Nat) (src : List Nat) : List Nat :=
  (padTo m off).take off ++ src ++ m.drop (off + src.length)

/-- The constructor `w_basic_string_view(const _CharT* __str, size_t __len, size_t maxLength)`:
`_max_length(MAX(__len, maxLength))`. -/
def mk3 (str : List Nat) (len maxLength : Nat) : bstr :=
  ⟨str, len, MAX len maxLength⟩

/-- The constructor `w_basic_string_view(basic_string_view sv, size_t maxLength = 0)`. -/
def ofView (sv : bstr) (maxLength : Nat) : bstr :=
  ⟨sv.mem, sv.len, MAX sv.len maxLength⟩

/-- The member `length()` inherited from `basic_string_view`. -/
def length (b : bstr) : Nat := b.len

/-- The bytes the view shows: the first `length()` bytes at `data()`. -/
def view (b : bstr) : List Nat := (padTo b.mem b.len).take b.len

/-- The unchecked `operator[]` inherited from `basic_string_view`. -/
def byteAt (b : bstr) (i : Nat) : Nat := b.mem.getD i 0

/-- The member `substr(pos, n)` inherited from `basic_string_view` (for `pos <= length()`):
the view of `min(n, length() - pos)` bytes that starts at `data() + pos`. -/
def substr (b : bstr) (pos n : Nat) : bstr :=
  ⟨b.mem.drop pos, min n (b.len - pos), min n (b.len - pos)⟩

/-- The member `substr(pos, n)` together with its range check: `basic_string_view::substr`
throws `std::out_of_range` when `pos > length()`, and `none` stands for that exception. -/
def substr? (b : bstr) (pos n : Nat) : Option bstr :=
  if pos > b.length then none else some (b.substr pos n)

/-- A view over exactly the bytes `l`, with no spare capacity. -/
def ofList (l : List Nat) : bstr := ⟨l, l.length, l.length⟩

/-- The member `free_space()`. -/
def free_space (b : bstr) : Nat :=
  if b.max_length > b.length then b.max_length - b.length else 0

/-- The member `set_length(len)`: a new view `(data(), len, max_length())`. -/
def set_length (b : bstr) (len : Nat) : bstr := mk3 b.mem len b.max_length

/-- The member `clear()`. -/
def clear (b : bstr) : bstr := b.set_length 0

/-- The member `append(const uint8_t *data, size_t len)`: `memmove` to `data() + length()`,
then `set_length(length() + len)`.  The sum of the source is a sum of `size_t` values; the
embedding is exact where that sum does not wrap around, that is while `length() + len` is
below two to the width of `size_t`. -/
def append (b : bstr) (data : List Nat) : bstr :=
  (⟨write b.mem b.length data, b.len, b.max_length⟩ : bstr).set_length (b.length + data.length)

/-- The member `appendAPDUres(uint16_t w)`: the bytes `(w >> 8) & 0xff` and `w & 0xff`. -/
def appendAPDUres (b : bstr) (w : Nat) : bstr :=
  b.append [(w / 256) % 256, w % 256]

/-- The member `append(basic_string_view sv)`. -/
def appendView (b : bstr) (sv : bstr) : bstr := b.append sv.view

/-- The members `set(sv)` and `set(data, len)`: `clear()` then `append`. -/
def set (b : bstr) (data : List Nat) : bstr := b.clear.append data

/-- The member `setAPDURes(uint16_t w)`: `clear()` then `appendAPDUres(w)`. -/
def setAPDURes (b : bstr) (w : Nat) : bstr := b.clear.appendAPDUres w

/-- The difference `a - b` of two `size_t` values, which wraps around below zero.  The
sources do not fix the width of `size_t`: it is the parameter `bits`. -/
def size_t_sub (bits a b : Nat) : Nat := (a + 2 ^ bits - b % 2 ^ bits) % 2 ^ bits

/-- The search of `basic_string_view::find`: the lowest position, counted from `pos`, at which
`needle` starts in `hay`. -/
def findAt (needle : List Nat) (pos : Nat) : List Nat → Option Nat
  | [] => if needle = [] then some pos else none
  | x :: t => if (x :: t).take needle.length = needle then some pos else findAt needle (pos + 1) t

/-- The member `find(sv)` inherited from `basic_string_view`: the lowest position at which the
bytes of `sv` start in the view; `none` stands for `npos`. -/
def find (b : bstr) (sv : bstr) : Option Nat := findAt sv.view 0 b.view

end bstr

/-! ## Error kinds and protocol constants -/

namespace Util

/-- Modelled from the spec: the enumeration `Util::Error` of `errors.h`, which is not among
the embedded sources; section 7 of the specification gives its closed set of kinds. -/
inductive Error where
  | NoError
  | WrongAPDUStructure
  | WrongAPDULength
  | WrongAPDUCLA
  | WrongAPDUINS
  | WrongAPDUP1P2
  | WrongAPDUDataLength
  | WrongCommand
  | AppletNotFound
  | DataNotFound
  | AccessDenied
  | WrongPassword
  | PasswordLocked
  | CryptoOperationError
  | InternalError
  | ErrorPutInData
deriving DecidableEq, Repr

end Util

namespace Applet

open Util

/-- Modelled from the spec: the status words `APDUResponse::*` of `applets/apduconst.h`,
which is not among the embedded sources; section 3 of the specification gives the values. -/
def APDUResponse.OK : Nat := 0x9000
/-- Modelled from the spec: status word `6A82`, file not found. -/
def APDUResponse.FileNotFound : Nat := 0x6A82
/-- Modelled from the spec: status word `6E00`, CLA not supported. -/
def APDUResponse.CLAnotSupported : Nat := 0x6E00
/-- Modelled from the spec: status word `6D00`, INS not supported. -/
def APDUResponse.INSnotSupported : Nat := 0x6D00
/-- Modelled from the spec: status word `6A86`, wrong parameters P1-P2. -/
def APDUResponse.WrongParametersP1orP2 : Nat := 0x6A86
/-- Modelled from the spec: status word `6F00`, internal exception. -/
def APDUResponse.InternalException : Nat := 0x6F00
/-- Modelled from the spec: status word `6700`, wrong length. -/
def APDUResponse.WrongLength : Nat := 0x6700
/-- Modelled from the spec: status word `6985`, conditions of use not satisfied. -/
def APDUResponse.ConditionsUseNotSatisfied : Nat := 0x6985

/-- Modelled from the spec: the instruction bytes `APDUcommands::*` of `applets/apduconst.h`,
which is not among the embedded sources; section 4.3 of the specification gives the values. -/
def APDUcommands.Select : Nat := 0xA4
/-- Modelled from the spec: INS of VERIFY. -/
def APDUcommands.Verify : Nat := 0x20
/-- Modelled from the spec: INS of GET CHALLENGE. -/
def APDUcommands.GetChallenge : Nat := 0x84
/-- Modelled from the spec: INS of CHANGE REFERENCE DATA. -/
def APDUcommands.ChangeReferenceData : Nat := 0x24
/-- Modelled from the spec: INS of RESET RETRY COUNTER. -/
def APDUcommands.ResetRetryCounter : Nat := 0x2C
/-- Modelled from the spec: INS of GET DATA. -/
def APDUcommands.GetData : Nat := 0xCA
/-- Modelled from the spec: the second INS of GET DATA. -/
def APDUcommands.GetData2 : Nat := 0xCB
/-- Modelled from the spec: INS of PUT DATA. -/
def APDUcommands.PutData : Nat := 0xDA
/-- Modelled from the spec: the second INS of PUT DATA, used for key import. -/
def APDUcommands.PutData2 : Nat := 0xDB
/-- Modelled from the spec: INS of GENERATE ASYMMETRIC KEY PAIR. -/
def APDUcommands.GenerateAsymmKeyPair : Nat := 0x47
/-- Modelled from the spec: INS of PERFORM SECURITY OPERATION. -/
def APDUcommands.PSO : Nat := 0x2A
/-- Modelled from the spec: INS of INTERNAL AUTHENTICATE. -/
def APDUcommands.Internalauthenticate : Nat := 0x88

/-! ## `src/apduexecutor.cpp` -/

/-- The function `APDUExecutor::SetResultError(bstr& result, Util::Error error)`. -/
def APDUExecutor.SetResultError (result : bstr) (error : Error) : bstr :=
  match error with
  | Error.NoError => result.appendAPDUres APDUResponse.OK
  | Error.AppletNotFound => result.setAPDURes APDUResponse.FileNotFound
  | Error.WrongAPDUCLA => result.setAPDURes APDUResponse.CLAnotSupported
  | Error.WrongAPDUINS => result.setAPDURes APDUResponse.INSnotSupported
  | Error.WrongAPDUP1P2 => result.setAPDURes APDUResponse.WrongParametersP1orP2
  | _ => result.setAPDURes APDUResponse.InternalException

/-- The collaborators of `APDUExecutor::Execute` whose code is not among the embedded sources:
`AppletStorage::SelectApplet(aid, result)`, `AppletStorage::GetSelectedApplet()` and
`Applet::APDUExchange(apdu, result)`.  They act on a state `σ` (the applet storage and all the
firmware state the applets reach) that is passed explicitly; `α` names an applet. -/
structure AppletStorage (σ α : Type) where
  SelectApplet : σ → bstr → bstr → Error × bstr × σ
  GetSelectedApplet : σ → Option α
  APDUExchange : α → σ → bstr → bstr → Error × bstr × σ

/-- The function `APDUExecutor::Execute(bstr apdu, bstr& result)`: the returned triple is the
error, the final `result` and the state after the call. -/
def APDUExecutor.Execute {σ α : Type} (appletStorage : AppletStorage σ α) (s : σ)
    (apdu : bstr) (result : bstr) : Error × bstr × σ :=
  let result := result.clear
  if apdu.length < 5 then
    (Error.WrongAPDUStructure, result.setAPDURes APDUResponse.WrongLength, s)
  else if apdu.length ≠ apdu.byteAt 4 + 5 ∧ apdu.length ≠ apdu.byteAt 4 + 6 then
    (Error.WrongAPDULength, result.setAPDURes APDUResponse.WrongLength, s)
  else
    let cla := apdu.byteAt 0
    let ins := apdu.byteAt 1
    let p1 := apdu.byteAt 2
    let p2 := apdu.byteAt 3
    let len := apdu.byteAt 4
    let data := bstr.ofView (apdu.substr 5 len) 0
    if ins = APDUcommands.Select then
      if cla ≠ 0 then
        (Error.WrongAPDUCLA, result.appendAPDUres APDUResponse.CLAnotSupported, s)
      else if p1 ≠ 0x04 ∨ p2 ≠ 0x00 then
        (Error.WrongAPDUP1P2, result.appendAPDUres APDUResponse.WrongParametersP1orP2, s)
      else
        match appletStorage.SelectApplet s data result with
        | (err, result, s) => (err, APDUExecutor.SetResultError result err, s)
    else
      match appletStorage.GetSelectedApplet s with
      | some applet =>
        match appletStorage.APDUExchange applet s apdu result with
        | (err, result, s) => (Error.NoError, APDUExecutor.SetResultError result err, s)
      | none =>
        (Error.NoError, result.setAPDURes APDUResponse.ConditionsUseNotSatisfied, s)

/-- One call of a collaborator of the executor, with the bytes it was given. -/
inductive Call where
  | SelectApplet (aid : List Nat)
  | APDUExchange (apdu : List Nat)
deriving DecidableEq, Repr

/-- The same collaborators, made to record every call they receive: the state is paired with
the list of the calls made so far, oldest first. -/
def AppletStorage.recording {σ α : Type} (st : AppletStorage σ α) :
    AppletStorage (σ × List Call) α where
  SelectApplet := fun s aid result =>
    match st.SelectApplet s.1 aid result with
    | (err, result, t) => (err, result, (t, s.2 ++ [Call.SelectApplet aid.view]))
  GetSelectedApplet := fun s => st.GetSelectedApplet s.1
  APDUExchange := fun a s apdu result =>
    match st.APDUExchange a s.1 apdu result with
    | (err, result, t) => (err, result, (t, s.2 ++ [Call.APDUExchange apdu.view]))

end Applet

/-! ## `src/applets/openpgp/openpgpconst.h` -/

namespace OpenPGP

open Util

/-- The enumeration `Password` of `openpgpconst.h` (`PW1`, `PW3`, `RC`), with the member
`PSOCDS` that `cryptoapdu.cpp` refers to as `OpenPGP::Password::PSOCDS`. -/
inductive Password where
  | PW1
  | PW3
  | RC
  | PSOCDS
deriving DecidableEq, Repr

/-- The constant `PGPConst::PW1MinLength`. -/
def PGPConst.PW1MinLength : Nat := 6
/-- The constant `PGPConst::PW3MinLength`. -/
def PGPConst.PW3MinLength : Nat := 8
/-- The function `PGPConst::PWMinLength(Password pwd)`. -/
def PGPConst.PWMinLength (pwd : Password) : Nat :=
  if pwd = Password.PW1 then PGPConst.PW1MinLength else PGPConst.PW3MinLength
/-- The constant `PGPConst::RCMaxLength`. -/
def PGPConst.RCMaxLength : Nat := 0x20
/-- The constant `PGPConst::PW1MaxLength`. -/
def PGPConst.PW1MaxLength : Nat := 0x20
/-- The constant `PGPConst::PW3MaxLength`. -/
def PGPConst.PW3MaxLength : Nat := 0x20
/-- The function `PGPConst::PWMaxLength(Password pwd)`. -/
def PGPConst.PWMaxLength (pwd : Password) : Nat :=
  if pwd = Password.PW1 then PGPConst.PW1MaxLength else PGPConst.PW3MaxLength
/-- The constant `PGPConst::DefaultPWResetCounter`. -/
def PGPConst.DefaultPWResetCounter : Nat := 0x03

/-- The enumerator `OpenPGPKeyType::Unknown`. -/
def OpenPGPKeyType.Unknown : Nat := 0x00
/-- The enumerator `OpenPGPKeyType::DigitalSignature`. -/
def OpenPGPKeyType.DigitalSignature : Nat := 0xb6
/-- The enumerator `OpenPGPKeyType::Confidentiality`. -/
def OpenPGPKeyType.Confidentiality : Nat := 0xb8
/-- The enumerator `OpenPGPKeyType::Authentication`. -/
def OpenPGPKeyType.Authentication : Nat := 0xa4

end OpenPGP

/-! ## The file system, the PW status bytes and the authentication flags

Their code (`filesystem.h`, `openpgpstruct.h`, `openpgpapplet.h`) is not among the embedded
sources; they are modelled from sections 3, 4.4, 4.5 and 6 of the specification. -/

namespace File

open Util

/-- Modelled from the spec: the namespace of a file, `File` or `Secure` (section 3). -/
inductive FileType where
  | File
  | Secure
deriving DecidableEq, Repr

/-- The identifiers whose numeric values neither the embedded sources nor the specification
give: `File::AppletID::OpenPGP`, `File::SecureFileID::PW1` and `File::SecureFileID::PW3`.
They are a parameter of every handler. -/
structure Ids where
  OpenPGP : Nat
  PW1 : Nat
  PW3 : Nat
deriving DecidableEq, Repr

/-- The address `(AppID, ObjectID, Namespace)` of a file. -/
abbrev Key := Nat × Nat × FileType

/-- Modelled from the spec: the persistent store of section 4.5, a map from
`(AppID, ObjectID, Namespace)` to byte strings.  It is kept as the list of the files written,
at most one entry for an address. -/
structure FileSystem where
  files : List (Key × List Nat)
deriving DecidableEq, Repr

/-- The bytes stored at an address; an address never written holds the empty byte string
(section 4.3 of the specification: a missing object reads as empty content). -/
def FileSystem.content (fs : FileSystem) (k : Key) : List Nat :=
  match fs.files.find? (fun e => e.1 = k) with
  | some e => e.2
  | none => []

/-- Modelled from the spec: `FileSystem::ReadFile(app, id, ns, out)` of section 4.5 leaves the
stored bytes in `out`.  The model reports no error and does not look at the capacity of
`out`, about which the specification is silent. -/
def FileSystem.ReadFile (fs : FileSystem) (app id : Nat) (ns : FileType) (data : bstr) :
    Error × bstr :=
  (Error.NoError, data.set (fs.content (app, id, ns)))

/-- Modelled from the spec: `FileSystem::WriteFile(app, id, ns, data)` of section 4.5 replaces
the bytes stored at the address by the bytes of `data`, atomically.  The model reports no
error: the per-object cap of section 3, whose values the specification does not give, is not
modelled, so every write is one within the cap. -/
def FileSystem.WriteFile (fs : FileSystem) (app id : Nat) (ns : FileType) (data : bstr) :
    Error × FileSystem :=
  (Error.NoError, ⟨((app, id, ns), data.view) :: fs.files.filter (fun e => e.1 ≠ (app, id, ns))⟩)

end File

/-! ## The crypto facade

The classes `Crypto::KeyStorage`, `Crypto::CryptoEngine` and `Crypto::CryptoLib` are external
collaborators (section 6 of the specification) whose code is not among the embedded sources.
Their operations are parameters.  They act on a state `κ`, passed explicitly, that stands for
everything the facade holds (keys, the scratch header list, the generator); `ρ` and `ε` are
the types of a full RSA key and of a full ECDSA key. -/

namespace Crypto

open Util

/-- The operations of `Crypto::KeyStorage` that the handlers call:
`PutRSAFullKey(app, key_type, key)`, `PutECDSAFullKey(app, key_type, key)`,
`GetPublicKey7F49(app, key_type, algorithm, out)` and `SetKeyExtHeader(app, data, more)`. -/
structure KeyStorage (κ ρ ε : Type) where
  PutRSAFullKey : κ → Nat → Nat → ρ → Error × κ
  PutECDSAFullKey : κ → Nat → Nat → ε → Error × κ
  GetPublicKey7F49 : κ → Nat → Nat → Nat → bstr → Error × bstr × κ
  SetKeyExtHeader : κ → Nat → bstr → Bool → Error × κ

/-- The operations of `Crypto::CryptoEngine` that the handlers call:
`RSASign(app, key_type, data, out)`, `ECDSASign(app, key_type, data, out)` and
`RSADecipher(app, key_type, data, out)`. -/
structure CryptoEngine (κ : Type) where
  RSASign : κ → Nat → Nat → bstr → bstr → Error × bstr × κ
  ECDSASign : κ → Nat → Nat → bstr → bstr → Error × bstr × κ
  RSADecipher : κ → Nat → Nat → bstr → bstr → Error × bstr × κ

/-- One call of an operation of the crypto engine, with the key type and the bytes given. -/
inductive EngineCall where
  | RSASign (key_type : Nat) (data : List Nat)
  | ECDSASign (key_type : Nat) (data : List Nat)
  | RSADecipher (key_type : Nat) (data : List Nat)
deriving DecidableEq, Repr

/-- The same crypto engine, made to record every call it receives: its state is paired with
the list of the calls made so far, oldest first. -/
def CryptoEngine.recording {κ : Type} (e : CryptoEngine κ) :
    CryptoEngine (κ × List EngineCall) where
  RSASign := fun k app key_type data out =>
    match e.RSASign k.1 app key_type data out with
    | (err, out, t) => (err, out, (t, k.2 ++ [EngineCall.RSASign key_type data.view]))
  ECDSASign := fun k app key_type data out =>
    match e.ECDSASign k.1 app key_type data out with
    | (err, out, t) => (err, out, (t, k.2 ++ [EngineCall.ECDSASign key_type data.view]))
  RSADecipher := fun k app key_type data out =>
    match e.RSADecipher k.1 app key_type data out with
    | (err, out, t) => (err, out, (t, k.2 ++ [EngineCall.RSADecipher key_type data.view]))

/-- The key generation of `Crypto::CryptoLib`: `RSAGenKey(key, nbits)` and `ECDSAGenKey(key)`;
the key they produce is part of the result. -/
structure KeyGenerator (κ ρ ε : Type) where
  RSAGenKey : κ → Nat → Error × ρ × κ
  ECDSAGenKey : κ → Error × ε × κ

end Crypto

namespace OpenPGP

open Util File

/-- Modelled from the spec: the record `PWStatusBytes` of `openpgpstruct.h`, the seven bytes of
DO `C4` (sections 3 and 6): the flag `PW1ValidSeveralCDS`, three maximum lengths and the three
remaining-tries counters of PW1, RC and PW3. -/
structure PWStatusBytes where
  PW1ValidSeveralCDS : Bool
  MaxLengthPW1 : Nat
  MaxLengthRC : Nat
  MaxLengthPW3 : Nat
  ErrorCounterPW1 : Nat
  ErrorCounterRC : Nat
  ErrorCounterPW3 : Nat
deriving DecidableEq, Repr

/-- The seven bytes of DO `C4`: flag, three maxima, three counters. -/
def PWStatusBytes.encode (ps : PWStatusBytes) : List Nat :=
  [if ps.PW1ValidSeveralCDS then 1 else 0, ps.MaxLengthPW1, ps.MaxLengthRC, ps.MaxLengthPW3,
   ps.ErrorCounterPW1, ps.ErrorCounterRC, ps.ErrorCounterPW3]

/-- The record that seven bytes of DO `C4` stand for.  Bytes that are not seven in number
give the all-zero record: the specification does not say what `Load` leaves in that case. -/
def PWStatusBytes.decode (l : List Nat) : PWStatusBytes :=
  match l with
  | [f, m1, m2, m3, c1, c2, c3] => ⟨f ≠ 0, m1, m2, m3, c1, c2, c3⟩
  | _ => ⟨false, 0, 0, 0, 0, 0, 0⟩

/-- Modelled from the spec: `PWStatusBytes::Load(filesystem)` reads DO `C4`. -/
def PWStatusBytes.Load (ids : Ids) (filesystem : FileSystem) : PWStatusBytes :=
  PWStatusBytes.decode (filesystem.content (ids.OpenPGP, 0xC4, FileType.File))

/-- Modelled from the spec: `PWStatusBytes::Save(filesystem)` writes DO `C4`. -/
def PWStatusBytes.Save (ps : PWStatusBytes) (ids : Ids) (filesystem : FileSystem) : FileSystem :=
  (filesystem.WriteFile ids.OpenPGP 0xC4 FileType.File (bstr.ofList ps.encode)).2

/-- Modelled from the spec: `PWStatusBytes::PasswdTryRemains(id)`, the remaining-tries counter
of a password; `PSOCDS` is PW1 in its use for signing and shares its counter. -/
def PWStatusBytes.PasswdTryRemains (ps : PWStatusBytes) (id : Password) : Nat :=
  match id with
  | Password.PW1 => ps.ErrorCounterPW1
  | Password.PSOCDS => ps.ErrorCounterPW1
  | Password.PW3 => ps.ErrorCounterPW3
  | Password.RC => ps.ErrorCounterRC

/-- Modelled from the spec: `PWStatusBytes::DecErrorCounter(id)` takes one try from the counter
of a password; a counter stays within `[0, 3]` (section 3), so `0` stays `0`. -/
def PWStatusBytes.DecErrorCounter (ps : PWStatusBytes) (id : Password) : PWStatusBytes :=
  match id with
  | Password.PW1 => { ps with ErrorCounterPW1 := ps.ErrorCounterPW1 - 1 }
  | Password.PSOCDS => { ps with ErrorCounterPW1 := ps.ErrorCounterPW1 - 1 }
  | Password.PW3 => { ps with ErrorCounterPW3 := ps.ErrorCounterPW3 - 1 }
  | Password.RC => { ps with ErrorCounterRC := ps.ErrorCounterRC - 1 }

/-- Modelled from the spec: `PWStatusBytes::PasswdSetRemains(id, rem)` sets the counter of a
password, clamped to `[0, DefaultPWResetCounter]` (section 3). -/
def PWStatusBytes.PasswdSetRemains (ps : PWStatusBytes) (id : Password) (rem : Nat) :
    PWStatusBytes :=
  match id with
  | Password.PW1 => { ps with ErrorCounterPW1 := min rem PGPConst.DefaultPWResetCounter }
  | Password.PSOCDS => { ps with ErrorCounterPW1 := min rem PGPConst.DefaultPWResetCounter }
  | Password.PW3 => { ps with ErrorCounterPW3 := min rem PGPConst.DefaultPWResetCounter }
  | Password.RC => { ps with ErrorCounterRC := min rem PGPConst.DefaultPWResetCounter }

/-- Modelled from the spec: the per-session authentication flags of section 4.4, one for each
`Password`, held by the OpenPGP applet.  The handlers reach them as `applet.GetAuth(..)` in
`userapdu.cpp` and as `security.GetAuth(..)` in `cryptoapdu.cpp`. -/
structure Security where
  PW1 : Bool
  PW3 : Bool
  PSOCDS : Bool
  RC : Bool
deriving DecidableEq, Repr

/-- Modelled from the spec: `GetAuth(p)`. -/
def Security.GetAuth (a : Security) (p : Password) : Bool :=
  match p with
  | Password.PW1 => a.PW1
  | Password.PW3 => a.PW3
  | Password.PSOCDS => a.PSOCDS
  | Password.RC => a.RC

/-- Modelled from the spec: `SetAuth(p)`; setting PW1 also sets PSOCDS (section 4.4). -/
def Security.SetAuth (a : Security) (p : Password) : Security :=
  match p with
  | Password.PW1 => { a with PW1 := true, PSOCDS := true }
  | Password.PW3 => { a with PW3 := true }
  | Password.PSOCDS => { a with PSOCDS := true }
  | Password.RC => { a with RC := true }

/-- Modelled from the spec: `ClearAuth(p)`; clearing PW1 also clears PSOCDS (section 4.4). -/
def Security.ClearAuth (a : Security) (p : Password) : Security :=
  match p with
  | Password.PW1 => { a with PW1 := false, PSOCDS := false }
  | Password.PW3 => { a with PW3 := false }
  | Password.PSOCDS => { a with PSOCDS := false }
  | Password.RC => { a with RC := false }

/-- What the handlers reach through `SoloFactory::GetSoloFactory()` (`solofactory.h`): the file
system and the authentication flags of the OpenPGP applet. -/
structure State where
  filesystem : FileSystem
  auth : Security
deriving DecidableEq, Repr

/-! ## `src/applets/openpgp/userapdu.cpp` -/

/-- The function `APDUVerify::Check(cla, ins, p1, p2)`. -/
def APDUVerify.Check (cla ins p1 p2 : Nat) : Error :=
  if ins ≠ Applet.APDUcommands.Verify then Error.WrongCommand
  else if cla ≠ 0x00 ∧ cla ≠ 0x0c then Error.WrongAPDUCLA
  else if (p1 ≠ 0x00 ∧ p1 ≠ 0xff) ∨ (p2 ≠ 0x81 ∧ p2 ≠ 0x82 ∧ p2 ≠ 0x83) then Error.WrongAPDUP1P2
  else Error.NoError

/-- The password a VERIFY or CHANGE REFERENCE DATA request refers to:
`Password passwd_id = Password::PW1; if (p2 == 0x83) passwd_id = Password::PW3;`. -/
def passwdId (p2 : Nat) : Password :=
  if p2 = 0x83 then Password.PW3 else Password.PW1

/-- The file of a password:
`(passwd_id == Password::PW1) ? File::SecureFileID::PW1 : File::SecureFileID::PW3`. -/
def passwdFile (ids : Ids) (passwd_id : Password) : Nat :=
  if passwd_id = Password.PW1 then ids.PW1 else ids.PW3

/-- The function `APDUVerify::Process(cla, ins, p1, p2, data, dataOut)`: the returned triple is
the error, the final `dataOut` and the state after the call. -/
def APDUVerify.Process (ids : Ids) (cla ins p1 p2 : Nat) (data : bstr) (dataOut : bstr)
    (solo : State) : Error × bstr × State :=
  let err := APDUVerify.Check cla ins p1 p2
  if err ≠ Error.NoError then (err, dataOut, solo)
  else if p1 = 0xff ∧ data.length > 0 then (Error.WrongAPDULength, dataOut, solo)
  else
    let pwstatus := PWStatusBytes.Load ids solo.filesystem
    let passwd_id := passwdId p2
    if p1 = 0xff then
      (Error.NoError, dataOut, { solo with auth := solo.auth.ClearAuth passwd_id })
    else
      let min_length := PGPConst.PWMinLength passwd_id
      let max_length := PGPConst.PWMaxLength passwd_id
      let passwd := bstr.mk3 (List.replicate max_length 0) 0 max_length
      match solo.filesystem.ReadFile ids.OpenPGP (passwdFile ids passwd_id) FileType.Secure
          passwd with
      | (file_err, passwd) =>
        if file_err ≠ Error.NoError then (file_err, dataOut, solo)
        else
          let passwd_length := passwd.length
          if passwd_length = 0 then
            if solo.auth.GetAuth passwd_id then (Error.NoError, dataOut, solo)
            else
              (Error.ErrorPutInData,
                dataOut.appendAPDUres (0x6300 + pwstatus.PasswdTryRemains passwd_id), solo)
          else if passwd_length < min_length then (Error.InternalError, dataOut, solo)
          else if pwstatus.PasswdTryRemains passwd_id = 0 then
            (Error.PasswordLocked, dataOut, solo)
          else if data.view ≠ passwd.view then
            let pwstatus := pwstatus.DecErrorCounter passwd_id
            (Error.WrongPassword, dataOut,
              { solo with filesystem := pwstatus.Save ids solo.filesystem })
          else
            let auth := solo.auth.SetAuth passwd_id
            let pwstatus := pwstatus.PasswdSetRemains passwd_id PGPConst.DefaultPWResetCounter
            (Error.NoError, dataOut,
              { filesystem := pwstatus.Save ids solo.filesystem, auth := auth })

/-- The function `APDUChangeReferenceData::Check(cla, ins, p1, p2)`. -/
def APDUChangeReferenceData.Check (cla ins p1 p2 : Nat) : Error :=
  if ins ≠ Applet.APDUcommands.ChangeReferenceData then Error.WrongCommand
  else if cla ≠ 0x00 ∧ cla ≠ 0x0c then Error.WrongAPDUCLA
  else if p1 ≠ 0x00 ∨ (p2 ≠ 0x81 ∧ p2 ≠ 0x83) then Error.WrongAPDUP1P2
  else Error.NoError

/-- The function `APDUChangeReferenceData::Process(cla, ins, p1, p2, data, dataOut)`. -/
def APDUChangeReferenceData.Process (ids : Ids) (cla ins p1 p2 : Nat) (data : bstr)
    (dataOut : bstr) (solo : State) : Error × bstr × State :=
  let err_check := APDUChangeReferenceData.Check cla ins p1 p2
  if err_check ≠ Error.NoError then (err_check, dataOut, solo)
  else
    let passwd_id := passwdId p2
    let min_length := PGPConst.PWMinLength passwd_id
    let max_length := PGPConst.PWMaxLength passwd_id
    let passwd := bstr.mk3 (List.replicate max_length 0) 0 max_length
    match solo.filesystem.ReadFile ids.OpenPGP (passwdFile ids passwd_id) FileType.Secure
        passwd with
    | (err, passwd) =>
      if err ≠ Error.NoError then (err, dataOut, solo)
      else
        let passwd_length := passwd.length
        if passwd_length < min_length then (Error.InternalError, dataOut, solo)
        else if data.length < passwd_length + min_length ∨
            data.length > passwd_length + max_length then
          (Error.WrongAPDUDataLength, dataOut, solo)
        else if data.find passwd ≠ some 0 then (Error.WrongPassword, dataOut, solo)
        else
          let passwd := passwd.clear
          let passwd := passwd.appendView (data.substr passwd_length (data.length - passwd_length))
          match solo.filesystem.WriteFile ids.OpenPGP (passwdFile ids passwd_id)
              FileType.Secure passwd with
          | (err, filesystem) =>
            if err ≠ Error.NoError then (err, dataOut, { solo with filesystem := filesystem })
            else
              let pwstatus := PWStatusBytes.Load ids filesystem
              let pwstatus := pwstatus.PasswdSetRemains passwd_id PGPConst.DefaultPWResetCounter
              (Error.NoError, dataOut, { solo with filesystem := pwstatus.Save ids filesystem })

/-- The function `APDUResetRetryCounter::Check(cla, ins, p1, p2)`. -/
def APDUResetRetryCounter.Check (cla ins p1 p2 : Nat) : Error :=
  if ins ≠ Applet.APDUcommands.ResetRetryCounter then Error.WrongCommand
  else if cla ≠ 0x00 ∧ cla ≠ 0x0c then Error.WrongAPDUCLA
  else if (p1 ≠ 0x00 ∧ p1 ≠ 0x02) ∨ p2 ≠ 0x81 then Error.WrongAPDUP1P2
  else Error.NoError

/-- The tail of `APDUResetRetryCounter::Process` that both branches reach: write `passwd` to
the PW1 file, then load the PW status bytes, reset the counter of PW1 and save them. -/
def APDUResetRetryCounter.store (ids : Ids) (passwd : bstr) (dataOut : bstr) (solo : State) :
    Error × bstr × State :=
  match solo.filesystem.WriteFile ids.OpenPGP ids.PW1 FileType.Secure passwd with
  | (err, filesystem) =>
    if err ≠ Error.NoError then (err, dataOut, { solo with filesystem := filesystem })
    else
      let pwstatus := PWStatusBytes.Load ids filesystem
      let pwstatus := pwstatus.PasswdSetRemains Password.PW1 PGPConst.DefaultPWResetCounter
      (Error.NoError, dataOut, { solo with filesystem := pwstatus.Save ids filesystem })

/-- The function `APDUResetRetryCounter::Process(cla, ins, p1, p2, data, dataOut)`. -/
def APDUResetRetryCounter.Process (ids : Ids) (cla ins p1 p2 : Nat) (data : bstr)
    (dataOut : bstr) (solo : State) : Error × bstr × State :=
  let err := APDUResetRetryCounter.Check cla ins p1 p2
  if err ≠ Error.NoError then (err, dataOut, solo)
  else
    let min_length := PGPConst.PW1MinLength
    let max_length := PGPConst.PW1MaxLength
    let max_rc_length := PGPConst.RCMaxLength
    let passwd :=
      bstr.mk3 (List.replicate (bstr.MAX max_length max_rc_length) 0) 0 max_length
    if p1 = 0x02 then
      if data.length < min_length ∨ data.length > max_length then
        (Error.WrongAPDUDataLength, dataOut, solo)
      else if ¬ solo.auth.GetAuth Password.PW3 then (Error.AccessDenied, dataOut, solo)
      else
        let passwd := passwd.appendView data
        APDUResetRetryCounter.store ids passwd dataOut solo
    else
      match solo.filesystem.ReadFile ids.OpenPGP 0xd3 FileType.File passwd with
      | (err, passwd) =>
        if err ≠ Error.NoError then (err, dataOut, solo)
        else
          let rc_length := passwd.length
          if data.length < rc_length + min_length ∨ data.length > rc_length + max_length then
            (Error.WrongAPDUDataLength, dataOut, solo)
          else if data.find passwd ≠ some 0 then (Error.WrongPassword, dataOut, solo)
          else
            let passwd := passwd.clear
            let passwd := passwd.appendView (data.substr rc_length (data.length - rc_length))
            APDUResetRetryCounter.store ids passwd dataOut solo

/-- The access policy `APDUSecurityCheck::DataObjectAccessCheck(object_id, write)` of
`apdusecuritycheck.h`, whose code and table are not among the embedded sources: a parameter.
It reads the authentication flags (section 4.4 of the specification). -/
structure APDUSecurityCheck where
  DataObjectAccessCheck : Security → Nat → Bool → Error

/-- The object id of GET DATA and PUT DATA: `uint16_t object_id = (p1 << 8) + p2`. -/
def objectId (p1 p2 : Nat) : Nat := (p1 * 256 + p2) % 65536

/-- The function `APDUGetData::Check(cla, ins, p1, p2)`. -/
def APDUGetData.Check (cla ins _p1 _p2 : Nat) : Error :=
  if ins ≠ Applet.APDUcommands.GetData ∧ ins ≠ Applet.APDUcommands.GetData2 then
    Error.WrongCommand
  else if cla ≠ 0x00 ∧ cla ≠ 0x0c then Error.WrongAPDUCLA
  else Error.NoError

/-- The function `APDUGetData::Process(cla, ins, p1, p2, data, dataOut)`; what `ReadFile`
returns is dropped, as in the source. -/
def APDUGetData.Process (security : APDUSecurityCheck) (ids : Ids) (cla ins p1 p2 : Nat)
    (_data : bstr) (dataOut : bstr) (solo : State) : Error × bstr × State :=
  let err_check := APDUGetData.Check cla ins p1 p2
  if err_check ≠ Error.NoError then (err_check, dataOut, solo)
  else
    let object_id := objectId p1 p2
    let err := security.DataObjectAccessCheck solo.auth object_id false
    if err ≠ Error.NoError then (err, dataOut, solo)
    else
      match solo.filesystem.ReadFile ids.OpenPGP object_id FileType.File dataOut with
      | (_, dataOut) => (Error.NoError, dataOut, solo)

/-- The function `APDUPutData::Check(cla, ins, p1, p2)`. -/
def APDUPutData.Check (cla ins p1 p2 : Nat) : Error :=
  if ins ≠ Applet.APDUcommands.PutData ∧ ins ≠ Applet.APDUcommands.PutData2 then
    Error.WrongCommand
  else if ins = Applet.APDUcommands.PutData2 ∧ (p1 ≠ 0x3f ∨ p2 ≠ 0xff) then Error.WrongCommand
  else if cla ≠ 0x00 ∧ cla ≠ 0x0c ∧ cla ≠ 0x10 then Error.WrongAPDUCLA
  else Error.NoError

/-- The function `APDUPutData::Process(cla, ins, p1, p2, data, dataOut)`; what `WriteFile` and
`SetKeyExtHeader` return is dropped, as in the source.  The result is the error, the final
`dataOut`, the state and the state of the crypto facade. -/
def APDUPutData.Process {κ ρ ε : Type} (security : APDUSecurityCheck)
    (key_storage : Crypto.KeyStorage κ ρ ε) (ids : Ids) (cla ins p1 p2 : Nat) (data : bstr)
    (dataOut : bstr) (solo : State) (k : κ) : Error × bstr × State × κ :=
  let dataOut := dataOut.clear
  let err_check := APDUPutData.Check cla ins p1 p2
  if err_check ≠ Error.NoError then (err_check, dataOut, solo, k)
  else if ins = Applet.APDUcommands.PutData then
    let object_id := objectId p1 p2
    let err := security.DataObjectAccessCheck solo.auth object_id true
    if err ≠ Error.NoError then (err, dataOut, solo, k)
    else
      match solo.filesystem.WriteFile ids.OpenPGP object_id FileType.File data with
      | (_, filesystem) => (Error.NoError, dataOut, { solo with filesystem := filesystem }, k)
  else
    let more_pck_follow : Bool := decide (cla &&& 0x10 ≠ 0)
    match key_storage.SetKeyExtHeader k ids.OpenPGP data more_pck_follow with
    | (_, k) => (Error.NoError, dataOut, solo, k)

/-! ## `src/applets/openpgp/cryptoapdu.cpp` -/

/-- The random generator of the crypto facade, `CryptoLib::GenerateRandom(len, out)`, whose code
is not among the embedded sources: a parameter that acts on a state `κ` passed explicitly. -/
structure CryptoLib (κ : Type) where
  GenerateRandom : κ → Nat → bstr → Error × bstr × κ

/-- The function `APDUGetChallenge::Check(cla, ins, p1, p2)`. -/
def APDUGetChallenge.Check (cla ins p1 p2 : Nat) : Error :=
  if ins ≠ Applet.APDUcommands.GetChallenge then Error.WrongCommand
  else if cla ≠ 0x00 then Error.WrongAPDUCLA
  else if p1 ≠ 0x00 ∧ p2 ≠ 0x00 then Error.WrongAPDUP1P2
  else Error.NoError

/-- The function `APDUGetChallenge::Process(cla, ins, p1, p2, data, le, dataOut)`. -/
def APDUGetChallenge.Process {κ : Type} (crypto : CryptoLib κ) (cla ins p1 p2 : Nat)
    (data : bstr) (le : Nat) (dataOut : bstr) (k : κ) : Error × bstr × κ :=
  let dataOut := dataOut.clear
  let err_check := APDUGetChallenge.Check cla ins p1 p2
  if err_check ≠ Error.NoError then (err_check, dataOut, k)
  else if data.length > 0 then (Error.WrongAPDUDataLength, dataOut, k)
  else
    let le := if le = 0 then 0xff else le
    crypto.GenerateRandom k le dataOut

/-- The function `APDUInternalAuthenticate::Check(cla, ins, p1, p2)`, which follows
`APDUGetChallenge::Check` in `cryptoapdu.cpp`. -/
def APDUInternalAuthenticate.Check (cla ins p1 p2 : Nat) : Error :=
  if ins ≠ Applet.APDUcommands.Internalauthenticate then Error.WrongCommand
  else if cla ≠ 0x00 then Error.WrongAPDUCLA
  else if p1 ≠ 0x00 ∨ p2 ≠ 0x00 then Error.WrongAPDUP1P2
  else Error.NoError

/-- Modelled from the spec: the record `AlgoritmAttr` of `openpgpstruct.h` (section 3): the
`AlgorithmID`, `0` when the attributes are not present, and for RSA the modulus size
`RSAa.NLen`. -/
structure AlgoritmAttr where
  AlgorithmID : Nat
  NLen : Nat
deriving DecidableEq, Repr

/-- What the handlers use of the algorithm attributes and is not among the embedded sources:
the enumerators `Crypto::AlgoritmID::RSA` and `Crypto::AlgoritmID::ECDSAforCDSandIntAuth`, whose
values neither the sources nor the specification give, and `AlgoritmAttr::Load(filesystem, id)`,
which reads a DO and delivers an error and the record.  A parameter. -/
structure AlgoritmAttrs where
  RSA : Nat
  ECDSAforCDSandIntAuth : Nat
  Load : FileSystem → Nat → Error × AlgoritmAttr

/-- The operation `Security::IncDSCounter()` of `security.h`, whose code is not among the
embedded sources: a parameter.  It acts on the file system, where the counter is kept
(section 4.4 of the specification: load, increment, persist). -/
structure DSCounter where
  IncDSCounter : FileSystem → Error × FileSystem

/-- The function `APDUGenerateAsymmetricKeyPair::Check(cla, ins, p1, p2)`. -/
def APDUGenerateAsymmetricKeyPair.Check (cla ins p1 p2 : Nat) : Error :=
  if ins ≠ Applet.APDUcommands.GenerateAsymmKeyPair then Error.WrongCommand
  else if cla ≠ 0x00 ∧ cla ≠ 0x0c then Error.WrongAPDUCLA
  else if (p1 ≠ 0x80 ∧ p1 ≠ 0x81) ∨ p2 ≠ 0x00 then Error.WrongAPDUP1P2
  else Error.NoError

/-- The key type of `APDUGenerateAsymmetricKeyPair::Process`: `data[0]` when it is one of the
three key types, `OpenPGPKeyType::Unknown` otherwise. -/
def APDUGenerateAsymmetricKeyPair.keyType (data : bstr) : Nat :=
  if data.byteAt 0 = OpenPGPKeyType.DigitalSignature ∨
      data.byteAt 0 = OpenPGPKeyType.Confidentiality ∨
      data.byteAt 0 = OpenPGPKeyType.Authentication then data.byteAt 0
  else OpenPGPKeyType.Unknown

/-- The `switch (key_type)` of `APDUGenerateAsymmetricKeyPair::Process`: the DO that holds the
algorithm attributes of a key type, `0` for an unknown one. -/
def APDUGenerateAsymmetricKeyPair.fileId (key_type : Nat) : Nat :=
  if key_type = OpenPGPKeyType.DigitalSignature then 0xc1
  else if key_type = OpenPGPKeyType.Confidentiality then 0xc2
  else if key_type = OpenPGPKeyType.Authentication then 0xc3
  else 0

/-- The function `APDUGenerateAsymmetricKeyPair::Process(cla, ins, p1, p2, data, le, dataOut)`.
The result is the error, the final `dataOut`, the state and the state of the crypto facade. -/
def APDUGenerateAsymmetricKeyPair.Process {κ ρ ε : Type} (attrs : AlgoritmAttrs)
    (cryptolib : Crypto.KeyGenerator κ ρ ε) (key_storage : Crypto.KeyStorage κ ρ ε)
    (ids : Ids) (cla ins p1 p2 : Nat) (data : bstr) (_le : Nat) (dataOut : bstr)
    (solo : State) (k : κ) : Error × bstr × State × κ :=
  let dataOut := dataOut.clear
  let err_check := APDUGenerateAsymmetricKeyPair.Check cla ins p1 p2
  if err_check ≠ Error.NoError then (err_check, dataOut, solo, k)
  else if data.length ≠ 2 then (Error.WrongAPDUDataLength, dataOut, solo, k)
  else
    let key_type := APDUGenerateAsymmetricKeyPair.keyType data
    let file_id := APDUGenerateAsymmetricKeyPair.fileId key_type
    if file_id = 0 then (Error.DataNotFound, dataOut, solo, k)
    else
      match attrs.Load solo.filesystem file_id with
      | (err, alg) =>
        if err ≠ Error.NoError ∨ alg.AlgorithmID = 0 then (Error.DataNotFound, dataOut, solo, k)
        else if p1 = 0x80 then
          if alg.AlgorithmID = attrs.RSA then
            match cryptolib.RSAGenKey k alg.NLen with
            | (err, rsa_key, k) =>
              if err ≠ Error.NoError then (err, dataOut, solo, k)
              else
                match key_storage.PutRSAFullKey k ids.OpenPGP key_type rsa_key with
                | (err, k) =>
                  if err ≠ Error.NoError then (err, dataOut, solo, k)
                  else
                    match key_storage.GetPublicKey7F49 k ids.OpenPGP key_type alg.AlgorithmID
                        dataOut with
                    | (err, dataOut, k) =>
                      if err ≠ Error.NoError then (err, dataOut, solo, k)
                      else (Error.NoError, dataOut, solo, k)
          else if alg.AlgorithmID = attrs.ECDSAforCDSandIntAuth then
            match cryptolib.ECDSAGenKey k with
            | (err, ecdsa_key, k) =>
              if err ≠ Error.NoError then (err, dataOut, solo, k)
              else
                match key_storage.PutECDSAFullKey k ids.OpenPGP key_type ecdsa_key with
                | (err, k) =>
                  if err ≠ Error.NoError then (err, dataOut, solo, k)
                  else
                    match key_storage.GetPublicKey7F49 k ids.OpenPGP key_type alg.AlgorithmID
                        dataOut with
                    | (err, dataOut, k) =>
                      if err ≠ Error.NoError then (err, dataOut, solo, k)
                      else (Error.NoError, dataOut, solo, k)
          else (Error.DataNotFound, dataOut, solo, k)
        else
          match key_storage.GetPublicKey7F49 k ids.OpenPGP key_type alg.AlgorithmID dataOut with
          | (err, dataOut, k) =>
            if err ≠ Error.NoError ∨ dataOut.length = 0 then (Error.DataNotFound, dataOut, solo, k)
            else (Error.NoError, dataOut, solo, k)

/-- The function `APDUPSO::Check(cla, ins, p1, p2)`. -/
def APDUPSO.Check (cla ins p1 p2 : Nat) : Error :=
  if ins ≠ Applet.APDUcommands.PSO then Error.WrongCommand
  else if cla ≠ 0x00 then Error.WrongAPDUCLA
  else if ¬ ((p1 = 0x9e ∧ p2 = 0x9a) ∨ (p1 = 0x80 ∧ p2 = 0x86) ∨ (p1 = 0x86 ∧ p2 = 0x80)) then
    Error.WrongAPDUP1P2
  else Error.NoError

/-- The block `if (p1 == 0x9e && p2 == 0x9a)` of `APDUPSO::Process`, PSO:CDS.  The left
alternative is a `return` of the function, the right one the `dataOut`, the state and the
facade with which the statements after the block go on. -/
def APDUPSO.cds {κ : Type} (attrs : AlgoritmAttrs) (crypto_e : Crypto.CryptoEngine κ)
    (security : DSCounter) (ids : Ids) (pwstatus : PWStatusBytes) (data : bstr)
    (dataOut : bstr) (solo : State) (k : κ) :
    (Error × bstr × State × κ) ⊕ (bstr × State × κ) :=
  if ¬ solo.auth.GetAuth Password.PSOCDS then Sum.inl (Error.AccessDenied, dataOut, solo, k)
  else
    match attrs.Load solo.filesystem 0xc1 with
    | (err, alg) =>
      if err ≠ Error.NoError ∨ alg.AlgorithmID = 0 then
        Sum.inl (Error.DataNotFound, dataOut, solo, k)
      else
        match (if alg.AlgorithmID = attrs.RSA then
            crypto_e.RSASign k ids.OpenPGP OpenPGPKeyType.DigitalSignature data dataOut
          else crypto_e.ECDSASign k ids.OpenPGP OpenPGPKeyType.DigitalSignature data dataOut) with
        | (err, dataOut, k) =>
          let auth :=
            if ¬ pwstatus.PW1ValidSeveralCDS then solo.auth.ClearAuth Password.PSOCDS
            else solo.auth
          match security.IncDSCounter solo.filesystem with
          | (cntrerr, filesystem) =>
            if cntrerr ≠ Error.NoError then
              Sum.inl (cntrerr, dataOut, { filesystem := filesystem, auth := auth }, k)
            else if err ≠ Error.NoError then
              Sum.inl (err, dataOut, { filesystem := filesystem, auth := auth }, k)
            else Sum.inr (dataOut, { filesystem := filesystem, auth := auth }, k)

/-- The block `if (p1 == 0x80 && p2 == 0x86)` of `APDUPSO::Process`, PSO:DECIPHER, with the
same convention as `APDUPSO.cds`.  `data[0]` is read without a test of the length, and
`data.length() - 1` is a difference of `size_t` values, of `bits` bits.  The argument
`data.substr(1, data.length() - 1)` is evaluated before `RSADecipher` is called; when
`substr` throws, the exception leaves the function: the result is `none`. -/
def APDUPSO.decipher {κ : Type} (bits : Nat) (attrs : AlgoritmAttrs)
    (crypto_e : Crypto.CryptoEngine κ) (ids : Ids) (data : bstr) (dataOut : bstr) (solo : State)
    (k : κ) : Option ((Error × bstr × State × κ) ⊕ (bstr × State × κ)) :=
  if ¬ solo.auth.GetAuth Password.PW1 then some (Sum.inl (Error.AccessDenied, dataOut, solo, k))
  else
    match attrs.Load solo.filesystem 0xc2 with
    | (err, alg) =>
      if err ≠ Error.NoError ∨ alg.AlgorithmID = 0 then
        some (Sum.inl (Error.DataNotFound, dataOut, solo, k))
      else
        match (if data.byteAt 0 = 0x00 ∧ alg.AlgorithmID = attrs.RSA then
            match data.substr? 1 (bstr.size_t_sub bits data.length 1) with
            | none => none
            | some tail =>
              some (crypto_e.RSADecipher k ids.OpenPGP OpenPGPKeyType.Confidentiality tail
                dataOut)
          else some (err, dataOut, k)) with
        | none => none
        | some (err, dataOut, k) =>
          if data.byteAt 0 = 0x02 then
            some (Sum.inl (Error.CryptoOperationError, dataOut, solo, k))
          else if data.byteAt 0 = 0xa6 then
            some (Sum.inl (Error.CryptoOperationError, dataOut, solo, k))
          else if err ≠ Error.NoError then some (Sum.inl (err, dataOut, solo, k))
          else some (Sum.inr (dataOut, solo, k))

/-- The function `APDUPSO::Process(cla, ins, p1, p2, data, le, dataOut)`: `Check`, the load of
the PW status bytes, then the three blocks in turn; the block of PSO:ENCIPHER is empty.  A
result `some` is the return of the function: the error, the final `dataOut`, the state and the
state of the crypto facade.  The result `none` is an exit by the exception of `substr` in the
block of PSO:DECIPHER.  `bits` is the width of `size_t`. -/
def APDUPSO.Process {κ : Type} (bits : Nat) (attrs : AlgoritmAttrs)
    (crypto_e : Crypto.CryptoEngine κ) (security : DSCounter) (ids : Ids)
    (cla ins p1 p2 : Nat) (data : bstr) (_le : Nat) (dataOut : bstr) (solo : State) (k : κ) :
    Option (Error × bstr × State × κ) :=
  let err_check := APDUPSO.Check cla ins p1 p2
  if err_check ≠ Error.NoError then some (err_check, dataOut, solo, k)
  else
    let pwstatus := PWStatusBytes.Load ids solo.filesystem
    match (if p1 = 0x9e ∧ p2 = 0x9a then
        APDUPSO.cds attrs crypto_e security ids pwstatus data dataOut solo k
      else Sum.inr (dataOut, solo, k)) with
    | Sum.inl ret => some ret
    | Sum.inr (dataOut, solo, k) =>
      match (if p1 = 0x80 ∧ p2 = 0x86 then
          APDUPSO.decipher bits attrs crypto_e ids data dataOut solo k
        else some (Sum.inr (dataOut, solo, k))) with
      | none => none
      | some (Sum.inl ret) => some ret
      | some (Sum.inr (dataOut, solo, k)) => some (Error.NoError, dataOut, solo, k)

end OpenPGP

/-! ## The card: applet storage, OpenPGP applet and command table

`applets/apducommand.h` and `applets/openpgp/openpgpfactory.cpp` are embedded from the source.
The applet storage and `OpenPGPApplet::APDUExchange` are not among the embedded sources; they
are modelled from section 4.2 of the specification, to have one concrete card on which the
executor can be run from end to end. -/

namespace Applet

open Util

/-- The class `APDUCommand` of `applets/apducommand.h`: the virtual `Check(cla, ins, p1, p2)`
and `Process(cla, ins, p1, p2, data, le, dataOut)`, acting on a state `σ`. -/
structure APDUCommand (σ : Type) where
  Check : Nat → Nat → Nat → Nat → Error
  Process : Nat → Nat → Nat → Nat → bstr → Nat → bstr → σ → Error × bstr × σ

/-- Everything the firmware holds: whether the OpenPGP applet is the selected applet, what its
handlers reach, and the bytes the random generator supplies next. -/
structure Card where
  selected : Bool
  solo : OpenPGP.State
  random : List Nat
deriving DecidableEq, Repr

end Applet

namespace OpenPGP

open Util File Applet

/-- The function `OpenPGPFactory::GetAPDUCommand(cla, ins, p1, p2)` of `openpgpfactory.cpp`:
the first command of the table whose `Check` returns `NoError`, or `nullptr`. -/
def OpenPGPFactory.GetAPDUCommand {σ : Type} (commands : List (APDUCommand σ))
    (cla ins p1 p2 : Nat) : Option (APDUCommand σ) :=
  commands.find? (fun cmd => cmd.Check cla ins p1 p2 = Error.NoError)

/-- Modelled from the spec: a random generator that supplies the bytes `Card.random` in order
(`GenerateRandom(len, out)` fills `out` with `len` bytes). -/
def cardCrypto : CryptoLib Card where
  GenerateRandom := fun c len out =>
    (Error.NoError, out.set (c.random.take len), { c with random := c.random.drop len })

/-- The command table of the card: the handlers `APDUGetChallenge` and `APDUVerify`. -/
def cardCommands (ids : Ids) : List (APDUCommand Card) :=
  [ { Check := APDUGetChallenge.Check
      Process := APDUGetChallenge.Process cardCrypto },
    { Check := APDUVerify.Check
      Process := fun cla ins p1 p2 data _le dataOut c =>
        match APDUVerify.Process ids cla ins p1 p2 data dataOut c.solo with
        | (err, dataOut, solo) => (err, dataOut, { c with solo := solo }) } ]

/-- Modelled from the spec: `OpenPGPApplet::APDUExchange(apdu, out)` of section 4.2.  It parses
the header as the executor does, takes LE from the byte that follows the data when there is
one, and runs `Process` of the command that `GetAPDUCommand` selects.  When no command passes
`Check`, the error is that of the first command whose INS matches, or `WrongAPDUINS`. -/
def OpenPGPApplet.APDUExchange (commands : List (APDUCommand Card)) (c : Card)
    (apdu : bstr) (result : bstr) : Error × bstr × Card :=
  let cla := apdu.byteAt 0
  let ins := apdu.byteAt 1
  let p1 := apdu.byteAt 2
  let p2 := apdu.byteAt 3
  let len := apdu.byteAt 4
  let data := bstr.ofView (apdu.substr 5 len) 0
  let le := if apdu.length = len + 6 then apdu.byteAt (len + 5) else 0
  match OpenPGPFactory.GetAPDUCommand commands cla ins p1 p2 with
  | some cmd => cmd.Process cla ins p1 p2 data le result c
  | none =>
    match commands.find? (fun cmd => cmd.Check cla ins p1 p2 ≠ Error.WrongCommand) with
    | some cmd => (cmd.Check cla ins p1 p2, result, c)
    | none => (Error.WrongAPDUINS, result, c)

/-- The AID prefix of the OpenPGP applet, `D2 76 00 01 24 01` (section 6). -/
def OpenPGPApplet.aid : List Nat := [0xD2, 0x76, 0x00, 0x01, 0x24, 0x01]

/-- Modelled from the spec: `AppletStorage::SelectApplet(aid, out)` of section 4.2 for a storage
that holds the OpenPGP applet alone.  An AID that starts with the applet's AID selects it and
clears its per-session flags; the applet writes no FCI.  Any other AID gives `AppletNotFound`
and leaves the selection as it is. -/
def cardSelectApplet (c : Card) (aid : bstr) (result : bstr) : Error × bstr × Card :=
  if aid.view.take OpenPGPApplet.aid.length = OpenPGPApplet.aid then
    (Error.NoError, result,
      { c with selected := true, solo := { c.solo with auth := ⟨false, false, false, false⟩ } })
  else (Error.AppletNotFound, result, c)

/-- The applet storage of the card, as the executor uses it. -/
def cardStorage (ids : Ids) : AppletStorage Card Unit where
  SelectApplet := cardSelectApplet
  GetSelectedApplet := fun c => if c.selected then some () else none
  APDUExchange := fun _ c apdu result => OpenPGPApplet.APDUExchange (cardCommands ids) c apdu result

/-- Identifiers for the examples: applet 1, password files `0x81` and `0x83`. -/
def exampleIds : Ids := ⟨1, 0x81, 0x83⟩

/-- The PW status bytes of the examples: three tries left for each password. -/
def examplePWStatus : PWStatusBytes := ⟨false, 0x20, 0x20, 0x20, 3, 3, 3⟩

/-- A card for the examples: OpenPGP selected, nothing authenticated, PW1 is `123456`,
PW3 is `12345678`, three tries left for each password, and random bytes `A0 .. A9`. -/
def exampleCard : Card where
  selected := true
  solo :=
    { filesystem :=
        ⟨[((1, 0x81, FileType.Secure), [0x31, 0x32, 0x33, 0x34, 0x35, 0x36]),
          ((1, 0x83, FileType.Secure), [0x31, 0x32, 0x33, 0x34, 0x35, 0x36, 0x37, 0x38]),
          ((1, 0xC4, FileType.File), examplePWStatus.encode)]⟩
      auth := ⟨false, false, false, false⟩ }
  random := [0xA0, 0xA1, 0xA2, 0xA3, 0xA4, 0xA5, 0xA6, 0xA7, 0xA8, 0xA9]

/-- The example card before any password is stored: only DO `C4` is present. -/
def exampleCardNoPassword : Card :=
  { exampleCard with
    solo :=
      { filesystem := ⟨[((1, 0xC4, FileType.File), examplePWStatus.encode)]⟩
        auth := ⟨false, false, false, false⟩ } }

/-- The state of the example card after PW1 has run out of tries: its counter is 0. -/
def exampleLockedState : State :=
  { filesystem :=
      ⟨[((1, 0x81, FileType.Secure), [0x31, 0x32, 0x33, 0x34, 0x35, 0x36]),
        ((1, 0xC4, FileType.File), [0, 0x20, 0x20, 0x20, 0, 3, 3])]⟩
    auth := ⟨false, false, false, false⟩ }

/-- A state whose PW1 file holds the three bytes `123`, fewer than the minimum of PW1. -/
def exampleShortPasswordState : State :=
  { filesystem :=
      ⟨[((1, 0x81, FileType.Secure), [0x31, 0x32, 0x33]),
        ((1, 0xC4, FileType.File), examplePWStatus.encode)]⟩
    auth := ⟨false, false, false, false⟩ }

/-- The bytes of the password file of `passwd_id`, as `ReadFile` delivers them. -/
def storedPassword (ids : Ids) (solo : State) (passwd_id : Password) : List Nat :=
  solo.filesystem.content (ids.OpenPGP, passwdFile ids passwd_id, FileType.Secure)

/-- The bytes of DO `D3`, the resetting code, as `ReadFile` delivers them. -/
def storedRC (ids : Ids) (solo : State) : List Nat :=
  solo.filesystem.content (ids.OpenPGP, 0xd3, FileType.File)

/-- The state of the example card with the resetting code `12345678` stored in DO `D3`. -/
def exampleRCState : State :=
  { filesystem :=
      ⟨[((1, 0xd3, FileType.File), [0x31, 0x32, 0x33, 0x34, 0x35, 0x36, 0x37, 0x38]),
        ((1, 0x81, FileType.Secure), [0x31, 0x32, 0x33, 0x34, 0x35, 0x36]),
        ((1, 0xC4, FileType.File), [0, 0x20, 0x20, 0x20, 0, 3, 3])]⟩
    auth := ⟨false, false, false, false⟩ }

/-- The state of the example card once PW3 has been verified. -/
def exampleAdminState : State :=
  { exampleCard.solo with auth := ⟨false, true, false, false⟩ }

/-- An access policy for the examples: every object may be read, and an object may be written
once PW3 is verified. -/
def exampleSecurity : APDUSecurityCheck where
  DataObjectAccessCheck := fun auth _ write =>
    if write = true ∧ auth.GetAuth Password.PW3 = false then Error.AccessDenied
    else Error.NoError

/-- One call of an operation of the example facade. -/
inductive FacadeCall where
  | RSAGenKey (nbits : Nat)
  | ECDSAGenKey
  | PutRSAFullKey (key_type : Nat)
  | PutECDSAFullKey (key_type : Nat)
  | GetPublicKey7F49 (key_type : Nat)
  | SetKeyExtHeader (data : List Nat) (more : Bool)
  | RSASign (key_type : Nat) (data : List Nat)
  | ECDSASign (key_type : Nat) (data : List Nat)
  | RSADecipher (key_type : Nat) (data : List Nat)
deriving DecidableEq, Repr

/-- The state of the example facade: the key bytes stored for each key type and the calls it
has received, oldest first. -/
structure Facade where
  keys : List (Nat × List Nat)
  calls : List FacadeCall
deriving DecidableEq, Repr

/-- The key of a key type in the example facade. -/
def Facade.key (k : Facade) (key_type : Nat) : Option (List Nat) :=
  (k.keys.find? (fun e => e.1 = key_type)).map (fun e => e.2)

/-- The example facade with one more call on its record. -/
def Facade.called (k : Facade) (c : FacadeCall) : Facade := { k with calls := k.calls ++ [c] }

/-- The key generator of the examples: an RSA key is the byte `52` followed by the two bytes
of its size, an ECDSA key is the byte `45`. -/
def exampleKeyGenerator : Crypto.KeyGenerator Facade (List Nat) (List Nat) where
  RSAGenKey := fun k nbits =>
    (Error.NoError, [0x52, (nbits / 256) % 256, nbits % 256], k.called (FacadeCall.RSAGenKey nbits))
  ECDSAGenKey := fun k => (Error.NoError, [0x45], k.called FacadeCall.ECDSAGenKey)

/-- The key storage of the examples: a key is stored under its key type, and the public key
template of a stored key is `7F 49` followed by the key bytes. -/
def exampleKeyStorage : Crypto.KeyStorage Facade (List Nat) (List Nat) where
  PutRSAFullKey := fun k _ key_type key =>
    (Error.NoError,
      { keys := (key_type, key) :: k.keys.filter (fun e => e.1 ≠ key_type),
        calls := k.calls ++ [FacadeCall.PutRSAFullKey key_type] })
  PutECDSAFullKey := fun k _ key_type key =>
    (Error.NoError,
      { keys := (key_type, key) :: k.keys.filter (fun e => e.1 ≠ key_type),
        calls := k.calls ++ [FacadeCall.PutECDSAFullKey key_type] })
  GetPublicKey7F49 := fun k _ key_type _ out =>
    match k.key key_type with
    | some key =>
      (Error.NoError, out.set ([0x7F, 0x49] ++ key),
        k.called (FacadeCall.GetPublicKey7F49 key_type))
    | none => (Error.DataNotFound, out, k.called (FacadeCall.GetPublicKey7F49 key_type))
  SetKeyExtHeader := fun k _ data more =>
    (Error.NoError, k.called (FacadeCall.SetKeyExtHeader data.view more))

/-- The crypto engine of the examples: a signature is the key bytes followed by the data;
an operation on a key type without a key fails with `CryptoOperationError`. -/
def exampleCryptoEngine : Crypto.CryptoEngine Facade where
  RSASign := fun k _ key_type data out =>
    match k.key key_type with
    | some key =>
      (Error.NoError, out.set (key ++ data.view),
        k.called (FacadeCall.RSASign key_type data.view))
    | none =>
      (Error.CryptoOperationError, out, k.called (FacadeCall.RSASign key_type data.view))
  ECDSASign := fun k _ key_type data out =>
    match k.key key_type with
    | some key =>
      (Error.NoError, out.set (key ++ data.view),
        k.called (FacadeCall.ECDSASign key_type data.view))
    | none =>
      (Error.CryptoOperationError, out, k.called (FacadeCall.ECDSASign key_type data.view))
  RSADecipher := fun k _ key_type data out =>
    match k.key key_type with
    | some _ =>
      (Error.NoError, out.set data.view, k.called (FacadeCall.RSADecipher key_type data.view))
    | none =>
      (Error.CryptoOperationError, out, k.called (FacadeCall.RSADecipher key_type data.view))

/-- The algorithm attributes of the examples: RSA is `1`, ECDSA is `0x13`; a DO holds the
`AlgorithmID` and then the two bytes of `NLen`, and an empty DO gives `AlgorithmID = 0`. -/
def exampleAttrs : AlgoritmAttrs where
  RSA := 1
  ECDSAforCDSandIntAuth := 0x13
  Load := fun fs id =>
    match fs.content (1, id, FileType.File) with
    | [] => (Error.NoError, ⟨0, 0⟩)
    | a :: rest => (Error.NoError, ⟨a, rest.getD 0 0 * 256 + rest.getD 1 0⟩)

/-- Modelled from the spec: `IncDSCounter()` of section 4.4 for the examples: load the three
bytes of the counter, here from DO `93`, increment with saturation at `0xFFFFFF`, persist. -/
def exampleDSCounter : DSCounter where
  IncDSCounter := fun fs =>
    let l := fs.content (1, 0x93, FileType.File)
    let n := l.getD 0 0 * 65536 + l.getD 1 0 * 256 + l.getD 2 0
    let m := if n < 0xFFFFFF then n + 1 else n
    (fs.WriteFile 1 0x93 FileType.File
      (bstr.ofList [(m / 65536) % 256, (m / 256) % 256, m % 256]))

/-- The state of the example card with RSA 2048 attributes in DO `C1`, a DS counter of 7 and
nothing authenticated. -/
def exampleKeyState : State :=
  { filesystem :=
      ⟨[((1, 0xc1, FileType.File), [0x01, 0x08, 0x00]),
        ((1, 0x93, FileType.File), [0x00, 0x00, 0x07]),
        ((1, 0x81, FileType.Secure), [0x31, 0x32, 0x33, 0x34, 0x35, 0x36]),
        ((1, 0xC4, FileType.File), examplePWStatus.encode)]⟩
    auth := ⟨false, false, false, false⟩ }

/-- The same state after a VERIFY of PW1: the flags PW1 and PSOCDS are set. -/
def exampleSigningState : State :=
  { exampleKeyState with auth := ⟨true, false, true, false⟩ }

/-- An example facade that holds a signature key and has received no call. -/
def exampleFacade : Facade := { keys := [(0xb6, [0x52, 0x08, 0x00])], calls := [] }

/-- An example facade that holds no key and has received no call. -/
def exampleEmptyFacade : Facade := { keys := [], calls := [] }

/-- The state of the example card with RSA 2048 attributes in DO `C2`, after a VERIFY of PW1
with `P2 = 0x82`: the flag PW1 is set. -/
def exampleDecipherState : State :=
  { filesystem :=
      ⟨[((1, 0xc2, FileType.File), [0x01, 0x08, 0x00]),
        ((1, 0x81, FileType.Secure), [0x31, 0x32, 0x33, 0x34, 0x35, 0x36]),
        ((1, 0xC4, FileType.File), examplePWStatus.encode)]⟩
    auth := ⟨true, false, false, false⟩ }

/-- An example facade that holds a decryption key and has received no call. -/
def exampleDecipherFacade : Facade := { keys := [(0xb8, [0x52, 0x08, 0x00])], calls := [] }

/-- The command data that `APDUExecutor::Execute` cuts out of the six bytes `apdu`, a header
with `LC = 0` and one `LE` byte: the view `apdu.substr(5, 0)`. -/
def exampleEmptyData (apdu : List Nat) : bstr := bstr.ofView ((bstr.ofList apdu).substr 5 0) 0

/-- A response buffer for the examples: 16 bytes of backing storage that still hold the four
bytes `DE AD BE EF` of an earlier response. -/
def exampleResult : bstr := ⟨[0xDE, 0xAD, 0xBE, 0xEF, 0, 0, 0, 0, 0, 0, 0, 0, 0, 0, 0, 0], 4, 16⟩

end OpenPGP

/-! ## Facts about the byte view -/

namespace bstr

theorem length_padTo (m : List Nat) (n : Nat) : n ≤ (padTo m n).length := by
  simp only [padTo, List.length_append, List.length_replicate]
  omega

theorem view_length (b : bstr) : b.view.length = b.len := by
  simp only [view, List.length_take]
  have := length_padTo b.mem b.len
  omega

theorem view_clear (b : bstr) : b.clear.view = [] := by
  simp [clear, set_length, mk3, view]

theorem view_append (b : bstr) (data : List Nat) : (b.append data).view = b.view ++ data := by
  have h := length_padTo b.mem b.len
  have h1 : ((padTo b.mem b.len).take b.len).length = b.len := by
    simp only [List.length_take]; omega
  simp only [append, set_length, mk3, view, length, write, padTo]
  simp only [padTo] at h1
  rw [List.append_assoc, List.append_assoc, List.take_append_eq_append_take, h1]
  rw [List.take_of_length_le (by rw [h1]; omega)]
  congr 1
  rw [show b.len + data.length - b.len = data.length by omega]
  rw [List.take_append_eq_append_take]
  simp

theorem view_appendAPDUres (b : bstr) (w : Nat) :
    (b.appendAPDUres w).view = b.view ++ [(w / 256) % 256, w % 256] :=
  view_append b _

theorem view_setAPDURes (b : bstr) (w : Nat) :
    (b.setAPDURes w).view = [(w / 256) % 256, w % 256] := by
  simp [setAPDURes, view_appendAPDUres, view_clear]

theorem view_set (b : bstr) (data : List Nat) : (b.set data).view = data := by
  simp [set, view_append, view_clear]

theorem view_ofList (l : List Nat) : (ofList l).view = l := by
  simp [ofList, view, padTo]

theorem length_set (b : bstr) (data : List Nat) : (b.set data).length = data.length := by
  simp [set, clear, append, set_length, mk3, length]

theorem view_getElem? (b : bstr) (i : Nat) :
    b.view[i]? = if i < b.len then some (b.mem.getD i 0) else none := by
  unfold view padTo
  rw [List.getElem?_take]
  split
  · next h =>
    by_cases hm : i < b.mem.length
    · rw [List.getElem?_append_left hm, List.getD_eq_getElem?_getD, List.getElem?_eq_getElem hm]
      rfl
    · have h0 : b.mem.getD i 0 = 0 := by
        rw [List.getD_eq_getElem?_getD, List.getElem?_eq_none (show b.mem.length ≤ i by omega)]
        rfl
      rw [List.getElem?_append_right (by omega), h0, List.getElem?_replicate]
      have h1 : i - b.mem.length < b.len - b.mem.length := by omega
      simp [h1]
  · rfl

theorem view_substr (b : bstr) (pos n : Nat) :
    (b.substr pos n).view = (b.view.drop pos).take n := by
  apply List.ext_getElem?
  intro i
  rw [view_getElem?, List.getElem?_take, List.getElem?_drop, view_getElem?]
  simp only [substr, List.getD_eq_getElem?_getD, List.getElem?_drop]
  by_cases h1 : i < n
  · by_cases h2 : pos + i < b.len
    · simp [h1, h2]; omega
    · simp [h1, h2]; omega
  · simp [h1]

theorem view_ofView (sv : bstr) (maxLength : Nat) : (ofView sv maxLength).view = sv.view := rfl

end bstr

/-! ## Facts about the executor -/

namespace Applet

open Util

theorem view_SetResultError_NoError (result : bstr) :
    (APDUExecutor.SetResultError result Error.NoError).view = result.view ++ [0x90, 0x00] := by
  simp [APDUExecutor.SetResultError, bstr.view_appendAPDUres, APDUResponse.OK]

theorem view_SetResultError_AppletNotFound (result : bstr) :
    (APDUExecutor.SetResultError result Error.AppletNotFound).view = [0x6A, 0x82] := by
  simp [APDUExecutor.SetResultError, bstr.view_setAPDURes, APDUResponse.FileNotFound]

theorem view_SetResultError_other (result : bstr) (error : Error)
    (h1 : error ≠ Error.NoError) (h2 : error ≠ Error.AppletNotFound)
    (h3 : error ≠ Error.WrongAPDUCLA) (h4 : error ≠ Error.WrongAPDUINS)
    (h5 : error ≠ Error.WrongAPDUP1P2) :
    (APDUExecutor.SetResultError result error).view = [0x6F, 0x00] := by
  cases error <;>
    first
    | contradiction
    | simp [APDUExecutor.SetResultError, bstr.view_setAPDURes, APDUResponse.InternalException]

theorem view_SetResultError_ne_WrongLength (result : bstr) (error : Error) :
    (APDUExecutor.SetResultError result error).view ≠ [0x67, 0x00] := by
  cases error <;>
    simp [APDUExecutor.SetResultError, bstr.view_setAPDURes, bstr.view_appendAPDUres,
      APDUResponse.InternalException, APDUResponse.OK, APDUResponse.FileNotFound,
      APDUResponse.CLAnotSupported, APDUResponse.INSnotSupported,
      APDUResponse.WrongParametersP1orP2]
  intro h
  have h2 := congrArg List.length h
  simp at h2
  rw [h2] at h
  simp at h

variable {σ α : Type}

theorem Execute_short (st : AppletStorage σ α) (s : σ) (apdu result : bstr)
    (h : apdu.length < 5) :
    APDUExecutor.Execute st s apdu result =
      (Error.WrongAPDUStructure, result.clear.setAPDURes APDUResponse.WrongLength, s) := by
  simp [APDUExecutor.Execute, h]

theorem Execute_badLength (st : AppletStorage σ α) (s : σ) (apdu result : bstr)
    (h5 : 5 ≤ apdu.length) (h : apdu.length ≠ apdu.byteAt 4 + 5 ∧ apdu.length ≠ apdu.byteAt 4 + 6) :
    APDUExecutor.Execute st s apdu result =
      (Error.WrongAPDULength, result.clear.setAPDURes APDUResponse.WrongLength, s) := by
  have h5n : ¬ apdu.length < 5 := by omega
  simp [APDUExecutor.Execute, h5n, h]

theorem framed_length (apdu : bstr)
    (h : apdu.length = apdu.byteAt 4 + 5 ∨ apdu.length = apdu.byteAt 4 + 6) :
    ¬ apdu.length < 5 ∧ ¬ (apdu.length ≠ apdu.byteAt 4 + 5 ∧ apdu.length ≠ apdu.byteAt 4 + 6) := by
  omega

theorem Execute_select_cla (st : AppletStorage σ α) (s : σ) (apdu result : bstr)
    (h : apdu.length = apdu.byteAt 4 + 5 ∨ apdu.length = apdu.byteAt 4 + 6)
    (hins : apdu.byteAt 1 = 0xA4) (hcla : apdu.byteAt 0 ≠ 0) :
    APDUExecutor.Execute st s apdu result =
      (Error.WrongAPDUCLA, result.clear.appendAPDUres APDUResponse.CLAnotSupported, s) := by
  obtain ⟨h1, h2⟩ := framed_length apdu h
  simp only [APDUExecutor.Execute, h1, h2, hins, APDUcommands.Select, if_false, if_true]
  simp [hcla]

theorem Execute_select_p1p2 (st : AppletStorage σ α) (s : σ) (apdu result : bstr)
    (h : apdu.length = apdu.byteAt 4 + 5 ∨ apdu.length = apdu.byteAt 4 + 6)
    (hins : apdu.byteAt 1 = 0xA4) (hcla : apdu.byteAt 0 = 0)
    (hp : apdu.byteAt 2 ≠ 0x04 ∨ apdu.byteAt 3 ≠ 0x00) :
    APDUExecutor.Execute st s apdu result =
      (Error.WrongAPDUP1P2, result.clear.appendAPDUres APDUResponse.WrongParametersP1orP2, s) := by
  obtain ⟨h1, h2⟩ := framed_length apdu h
  simp only [APDUExecutor.Execute, h1, h2, hins, APDUcommands.Select, if_false, if_true]
  simp [hcla, hp]

theorem Execute_select (st : AppletStorage σ α) (s : σ) (apdu result : bstr)
    (h : apdu.length = apdu.byteAt 4 + 5 ∨ apdu.length = apdu.byteAt 4 + 6)
    (hins : apdu.byteAt 1 = 0xA4) (hcla : apdu.byteAt 0 = 0)
    (hp1 : apdu.byteAt 2 = 0x04) (hp2 : apdu.byteAt 3 = 0x00) :
    APDUExecutor.Execute st s apdu result =
      ((st.SelectApplet s (bstr.ofView (apdu.substr 5 (apdu.byteAt 4)) 0) result.clear).1,
        APDUExecutor.SetResultError
          (st.SelectApplet s (bstr.ofView (apdu.substr 5 (apdu.byteAt 4)) 0) result.clear).2.1
          (st.SelectApplet s (bstr.ofView (apdu.substr 5 (apdu.byteAt 4)) 0) result.clear).1,
        (st.SelectApplet s (bstr.ofView (apdu.substr 5 (apdu.byteAt 4)) 0) result.clear).2.2) := by
  obtain ⟨h1, h2⟩ := framed_length apdu h
  simp only [APDUExecutor.Execute, h1, h2, hins, APDUcommands.Select, if_false, if_true]
  simp [hcla, hp1, hp2]

theorem Execute_exchange (st : AppletStorage σ α) (s : σ) (a : α) (apdu result : bstr)
    (h : apdu.length = apdu.byteAt 4 + 5 ∨ apdu.length = apdu.byteAt 4 + 6)
    (hins : apdu.byteAt 1 ≠ 0xA4) (hsel : st.GetSelectedApplet s = some a) :
    APDUExecutor.Execute st s apdu result =
      (Error.NoError,
        APDUExecutor.SetResultError (st.APDUExchange a s apdu result.clear).2.1
          (st.APDUExchange a s apdu result.clear).1,
        (st.APDUExchange a s apdu result.clear).2.2) := by
  obtain ⟨h1, h2⟩ := framed_length apdu h
  simp only [APDUExecutor.Execute, h1, h2, hins, APDUcommands.Select, if_false, hsel]

theorem view_aid (apdu : bstr)
    (h : apdu.length = apdu.byteAt 4 + 5 ∨ apdu.length = apdu.byteAt 4 + 6) :
    (bstr.ofView (apdu.substr 5 (apdu.byteAt 4)) 0).view = (apdu.view.drop 5).take (apdu.byteAt 4) ∧
    (bstr.ofView (apdu.substr 5 (apdu.byteAt 4)) 0).length = apdu.byteAt 4 := by
  refine ⟨by rw [bstr.view_ofView, bstr.view_substr], ?_⟩
  simp only [bstr.length, bstr.ofView, bstr.substr] at h ⊢
  omega

theorem Execute_select_recording (st : AppletStorage σ α) (s : σ) (log : List Call)
    (apdu result : bstr)
    (h : apdu.length = apdu.byteAt 4 + 5 ∨ apdu.length = apdu.byteAt 4 + 6)
    (hins : apdu.byteAt 1 = 0xA4) (hcla : apdu.byteAt 0 = 0)
    (hp1 : apdu.byteAt 2 = 0x04) (hp2 : apdu.byteAt 3 = 0x00) :
    (APDUExecutor.Execute st.recording (s, log) apdu result).2.2 =
      ((st.SelectApplet s (bstr.ofView (apdu.substr 5 (apdu.byteAt 4)) 0) result.clear).2.2,
        log ++ [Call.SelectApplet ((apdu.view.drop 5).take (apdu.byteAt 4))]) := by
  rw [Execute_select st.recording (s, log) apdu result h hins hcla hp1 hp2]
  simp only [AppletStorage.recording, (view_aid apdu h).1]

end Applet

/-! ## The claims about the executor -/

namespace Spec

open Util Applet OpenPGP File

/-- C1: framing of `APDUExecutor::Execute`.  For every APDU of fewer than 5 bytes `Execute`
returns `WrongAPDUStructure`, and for every APDU of at least 5 bytes whose length is neither
`LC + 5` nor `LC + 6` (`LC` is byte 4) it returns `WrongAPDULength`.  In both cases the
response shows exactly the two bytes `67 00`, whatever the buffer held before, the state of
the collaborators is unchanged, and collaborators that record their calls have recorded
none: neither `SelectApplet` nor an applet is invoked. -/
theorem C1_execute_rejects_bad_frame {σ α : Type} (st : AppletStorage σ α) (s : σ)
    (log : List Call) (apdu result : bstr)
    (h : apdu.length < 5 ∨ (apdu.length ≠ apdu.byteAt 4 + 5 ∧ apdu.length ≠ apdu.byteAt 4 + 6)) :
    (result.clear.setAPDURes APDUResponse.WrongLength).view = [0x67, 0x00] ∧
    APDUExecutor.Execute st s apdu result =
      (if apdu.length < 5 then Error.WrongAPDUStructure else Error.WrongAPDULength,
        result.clear.setAPDURes APDUResponse.WrongLength, s) ∧
    APDUExecutor.Execute st.recording (s, log) apdu result =
      (if apdu.length < 5 then Error.WrongAPDUStructure else Error.WrongAPDULength,
        result.clear.setAPDURes APDUResponse.WrongLength, (s, log)) := by
  refine ⟨by simp [bstr.view_setAPDURes, APDUResponse.WrongLength], ?_, ?_⟩
  · by_cases h5 : apdu.length < 5
    · rw [if_pos h5, Execute_short st s apdu result h5]
    · rw [if_neg h5]
      exact Execute_badLength st s apdu result (by omega) (h.resolve_left h5)
  · by_cases h5 : apdu.length < 5
    · rw [if_pos h5, Execute_short st.recording (s, log) apdu result h5]
    · rw [if_neg h5]
      exact Execute_badLength st.recording (s, log) apdu result (by omega) (h.resolve_left h5)

/-- Witness for C1, at a 3-byte APDU and at the 7-byte APDU
`00 20 00 81 06 31 32` (`LC = 6`, so 11 or 12 bytes are expected), on the example card whose
response buffer still holds `DE AD BE EF`. -/
theorem C1_execute_rejects_bad_frame_witness :
    ((bstr.ofList [0x00, 0x20, 0x00]).length < 5 ∧
      (APDUExecutor.Execute (cardStorage exampleIds) exampleCard
        (bstr.ofList [0x00, 0x20, 0x00]) exampleResult).1 = Error.WrongAPDUStructure ∧
      (APDUExecutor.Execute (cardStorage exampleIds) exampleCard
        (bstr.ofList [0x00, 0x20, 0x00]) exampleResult).2.1.view = [0x67, 0x00]) ∧
    (((bstr.ofList [0x00, 0x20, 0x00, 0x81, 0x06, 0x31, 0x32]).length ≠ 6 + 5 ∧
      (bstr.ofList [0x00, 0x20, 0x00, 0x81, 0x06, 0x31, 0x32]).length ≠ 6 + 6) ∧
      (APDUExecutor.Execute (cardStorage exampleIds) exampleCard
        (bstr.ofList [0x00, 0x20, 0x00, 0x81, 0x06, 0x31, 0x32]) exampleResult).1
          = Error.WrongAPDULength ∧
      (APDUExecutor.Execute (cardStorage exampleIds) exampleCard
        (bstr.ofList [0x00, 0x20, 0x00, 0x81, 0x06, 0x31, 0x32]) exampleResult).2.1.view
          = [0x67, 0x00]) := by
  have h1 := C1_execute_rejects_bad_frame (cardStorage exampleIds) exampleCard []
    (bstr.ofList [0x00, 0x20, 0x00]) exampleResult (Or.inl (by decide))
  have h2 := C1_execute_rejects_bad_frame (cardStorage exampleIds) exampleCard []
    (bstr.ofList [0x00, 0x20, 0x00, 0x81, 0x06, 0x31, 0x32]) exampleResult
    (Or.inr (by decide))
  refine ⟨⟨by decide, ?_, ?_⟩, ⟨by decide, ?_, ?_⟩⟩
  · rw [h1.2.1]; rfl
  · rw [h1.2.1]; exact h1.1
  · rw [h2.2.1]; rfl
  · rw [h2.2.1]; exact h2.1

/-- C2: the table of `APDUExecutor::SetResultError`, for every prior content of the buffer.
`NoError` keeps the bytes the buffer shows and adds `90 00`; `AppletNotFound` leaves exactly
`6A 82`, `WrongAPDUCLA` exactly `6E 00`, `WrongAPDUINS` exactly `6D 00`, `WrongAPDUP1P2`
exactly `6A 86`, and every other error kind exactly `6F 00`.  The status word is written
high byte first. -/
theorem C2_SetResultError_table (result : bstr) (error : Error) :
    (APDUExecutor.SetResultError result error).view =
      match error with
      | Error.NoError => result.view ++ [0x90, 0x00]
      | Error.AppletNotFound => [0x6A, 0x82]
      | Error.WrongAPDUCLA => [0x6E, 0x00]
      | Error.WrongAPDUINS => [0x6D, 0x00]
      | Error.WrongAPDUP1P2 => [0x6A, 0x86]
      | Error.WrongAPDUStructure => [0x6F, 0x00]
      | Error.WrongAPDULength => [0x6F, 0x00]
      | Error.WrongAPDUDataLength => [0x6F, 0x00]
      | Error.WrongCommand => [0x6F, 0x00]
      | Error.DataNotFound => [0x6F, 0x00]
      | Error.AccessDenied => [0x6F, 0x00]
      | Error.WrongPassword => [0x6F, 0x00]
      | Error.PasswordLocked => [0x6F, 0x00]
      | Error.CryptoOperationError => [0x6F, 0x00]
      | Error.InternalError => [0x6F, 0x00]
      | Error.ErrorPutInData => [0x6F, 0x00] := by
  cases error <;>
    simp [APDUExecutor.SetResultError, bstr.view_setAPDURes, bstr.view_appendAPDUres,
      APDUResponse.InternalException, APDUResponse.OK, APDUResponse.FileNotFound,
      APDUResponse.CLAnotSupported, APDUResponse.INSnotSupported,
      APDUResponse.WrongParametersP1orP2]

/-- C3: the code overwrites what the handler stamped.  On the card that stores no PW1 yet,
VERIFY `00 20 00 81 00` reaches `APDUVerify::Process`, which appends its status word
`0x6300 + 3`, the bytes `63 03`, to the response and returns `ErrorPutInData`;
`APDUExecutor::Execute` then hands that error to `SetResultError`, whose `default` branch
replaces the buffer: the response is `6F 00` and the handler's status word is lost. -/
theorem C3_execute_overwrites_handler_status :
    (OpenPGPApplet.APDUExchange (cardCommands exampleIds) exampleCardNoPassword
        (bstr.ofList [0x00, 0x20, 0x00, 0x81, 0x00]) exampleResult.clear).1
      = Error.ErrorPutInData ∧
    (OpenPGPApplet.APDUExchange (cardCommands exampleIds) exampleCardNoPassword
        (bstr.ofList [0x00, 0x20, 0x00, 0x81, 0x00]) exampleResult.clear).2.1.view
      = [0x63, 0x03] ∧
    (APDUExecutor.Execute (cardStorage exampleIds) exampleCardNoPassword
        (bstr.ofList [0x00, 0x20, 0x00, 0x81, 0x00]) exampleResult).2.1.view
      = [0x6F, 0x00] := by
  decide

/-- C4, as stated, fails: on the example card (PW1 is `123456`) the VERIFY request
`00 20 00 81 06 31 32 33 35 36 37` makes the applet return `WrongPassword`, and the response
of `APDUExecutor::Execute` is `6F 00`, not `69 82`. -/
theorem C4_wrong_password_is_not_6982 :
    (OpenPGPApplet.APDUExchange (cardCommands exampleIds) exampleCard
        (bstr.ofList [0x00, 0x20, 0x00, 0x81, 0x06, 0x31, 0x32, 0x33, 0x35, 0x36, 0x37])
        exampleResult.clear).1 = Error.WrongPassword ∧
    (APDUExecutor.Execute (cardStorage exampleIds) exampleCard
        (bstr.ofList [0x00, 0x20, 0x00, 0x81, 0x06, 0x31, 0x32, 0x33, 0x35, 0x36, 0x37])
        exampleResult).2.1.view = [0x6F, 0x00] ∧
    (APDUExecutor.Execute (cardStorage exampleIds) exampleCard
        (bstr.ofList [0x00, 0x20, 0x00, 0x81, 0x06, 0x31, 0x32, 0x33, 0x35, 0x36, 0x37])
        exampleResult).2.1.view ≠ [0x69, 0x82] := by
  decide

/-- C4, amended: for every well-framed non-SELECT APDU for which the selected applet returns
`WrongPassword` or `AccessDenied`, `APDUExecutor::Execute` returns `NoError` and its response
is exactly the two bytes `6F 00` (the `default` branch of `SetResultError`), whatever the
applet left in the buffer. -/
theorem C4_denied_gives_6F00 {σ α : Type} (st : AppletStorage σ α) (s : σ) (a : α)
    (apdu result : bstr)
    (hframe : apdu.length = apdu.byteAt 4 + 5 ∨ apdu.length = apdu.byteAt 4 + 6)
    (hins : apdu.byteAt 1 ≠ 0xA4)
    (hsel : st.GetSelectedApplet s = some a)
    (herr : (st.APDUExchange a s apdu result.clear).1 = Error.WrongPassword ∨
      (st.APDUExchange a s apdu result.clear).1 = Error.AccessDenied) :
    (APDUExecutor.Execute st s apdu result).1 = Error.NoError ∧
    (APDUExecutor.Execute st s apdu result).2.1.view = [0x6F, 0x00] ∧
    (APDUExecutor.Execute st s apdu result).2.2 = (st.APDUExchange a s apdu result.clear).2.2 := by
  rw [Execute_exchange st s a apdu result hframe hins hsel]
  refine ⟨rfl, ?_, rfl⟩
  rcases herr with h | h <;>
    exact view_SetResultError_other _ _ (by rw [h]; decide) (by rw [h]; decide)
      (by rw [h]; decide) (by rw [h]; decide) (by rw [h]; decide)

/-- Witness for the amended C4, at the VERIFY request with the wrong password
`123567` on the example card. -/
theorem C4_denied_gives_6F00_witness :
    (APDUExecutor.Execute (cardStorage exampleIds) exampleCard
        (bstr.ofList [0x00, 0x20, 0x00, 0x81, 0x06, 0x31, 0x32, 0x33, 0x35, 0x36, 0x37])
        exampleResult).1 = Error.NoError ∧
    (APDUExecutor.Execute (cardStorage exampleIds) exampleCard
        (bstr.ofList [0x00, 0x20, 0x00, 0x81, 0x06, 0x31, 0x32, 0x33, 0x35, 0x36, 0x37])
        exampleResult).2.1.view = [0x6F, 0x00] ∧
    (APDUExecutor.Execute (cardStorage exampleIds) exampleCard
        (bstr.ofList [0x00, 0x20, 0x00, 0x81, 0x06, 0x31, 0x32, 0x33, 0x35, 0x36, 0x37])
        exampleResult).2.2 =
      ((cardStorage exampleIds).APDUExchange () exampleCard
        (bstr.ofList [0x00, 0x20, 0x00, 0x81, 0x06, 0x31, 0x32, 0x33, 0x35, 0x36, 0x37])
        exampleResult.clear).2.2 :=
  C4_denied_gives_6F00 (cardStorage exampleIds) exampleCard ()
    (bstr.ofList [0x00, 0x20, 0x00, 0x81, 0x06, 0x31, 0x32, 0x33, 0x35, 0x36, 0x37])
    exampleResult (by decide) (by decide) (by decide) (Or.inl (by decide))

/-- C5, as stated, fails: with the OpenPGP applet selected, `APDUExecutor::Execute` on the
5-byte APDU `00 84 00 00 08` reads byte 4 as `LC = 8`, returns `WrongAPDULength` and leaves
the two bytes `67 00`; the response is not 10 bytes long and no random byte is drawn. -/
theorem C5_get_challenge_5_bytes_rejected :
    exampleCard.selected = true ∧
    (APDUExecutor.Execute (cardStorage exampleIds) exampleCard
        (bstr.ofList [0x00, 0x84, 0x00, 0x00, 0x08]) exampleResult).1 = Error.WrongAPDULength ∧
    (APDUExecutor.Execute (cardStorage exampleIds) exampleCard
        (bstr.ofList [0x00, 0x84, 0x00, 0x00, 0x08]) exampleResult).2.1.view = [0x67, 0x00] ∧
    (APDUExecutor.Execute (cardStorage exampleIds) exampleCard
        (bstr.ofList [0x00, 0x84, 0x00, 0x00, 0x08]) exampleResult).2.1.view.length ≠ 10 ∧
    (APDUExecutor.Execute (cardStorage exampleIds) exampleCard
        (bstr.ofList [0x00, 0x84, 0x00, 0x00, 0x08]) exampleResult).2.2 = exampleCard := by
  decide

/-- C5, amended.  `APDUExecutor::Execute` on the 5-byte APDU `00 84 00 00 08` returns
`WrongAPDULength` with response `67 00` and does not reach the applet, because byte 4 is
read as `LC`.  In the framing that `Execute` accepts, GET CHALLENGE for 8 bytes is the 6-byte
APDU `00 84 00 00 00 08` (`LC = 0`, `LE = 8`): when the selected applet passes the header,
the empty data and `LE = 8` to `APDUGetChallenge::Process` and the random generator, asked
for 8 bytes, succeeds and leaves the 8 bytes `rnd` in the buffer, the response is the 10
bytes `rnd` followed by `90 00`. -/
theorem C5_get_challenge_framing {σ α : Type} (st : AppletStorage σ α) (crypto : CryptoLib σ)
    (s t : σ) (a : α) (result out : bstr) (rnd : List Nat)
    (hsel : st.GetSelectedApplet s = some a)
    (hex : ∀ r : bstr, st.APDUExchange a s (bstr.ofList [0x00, 0x84, 0x00, 0x00, 0x00, 0x08]) r =
      APDUGetChallenge.Process crypto 0x00 0x84 0x00 0x00
        (bstr.ofView ((bstr.ofList [0x00, 0x84, 0x00, 0x00, 0x00, 0x08]).substr 5 0) 0) 0x08 r s)
    (hrnd : crypto.GenerateRandom s 8 result.clear.clear = (Error.NoError, out, t))
    (hout : out.view = rnd) (hlen : rnd.length = 8) :
    (APDUExecutor.Execute st s (bstr.ofList [0x00, 0x84, 0x00, 0x00, 0x08]) result =
        (Error.WrongAPDULength, result.clear.setAPDURes APDUResponse.WrongLength, s) ∧
      (result.clear.setAPDURes APDUResponse.WrongLength).view = [0x67, 0x00]) ∧
    ((APDUExecutor.Execute st s (bstr.ofList [0x00, 0x84, 0x00, 0x00, 0x00, 0x08]) result).1
        = Error.NoError ∧
      (APDUExecutor.Execute st s (bstr.ofList [0x00, 0x84, 0x00, 0x00, 0x00, 0x08]) result).2.1.view
        = rnd ++ [0x90, 0x00] ∧
      (APDUExecutor.Execute st s
        (bstr.ofList [0x00, 0x84, 0x00, 0x00, 0x00, 0x08]) result).2.1.view.length = 10 ∧
      (APDUExecutor.Execute st s (bstr.ofList [0x00, 0x84, 0x00, 0x00, 0x00, 0x08]) result).2.2
        = t) := by
  have hp : APDUGetChallenge.Process crypto 0x00 0x84 0x00 0x00
      (bstr.ofView ((bstr.ofList [0x00, 0x84, 0x00, 0x00, 0x00, 0x08]).substr 5 0) 0) 0x08
      result.clear s = (Error.NoError, out, t) := by
    simp [APDUGetChallenge.Process, APDUGetChallenge.Check, APDUcommands.GetChallenge,
      bstr.length, bstr.ofView, bstr.substr, hrnd]
  constructor
  · refine ⟨Execute_badLength st s _ result (by decide) (by decide), ?_⟩
    simp [bstr.view_setAPDURes, APDUResponse.WrongLength]
  · rw [Execute_exchange st s a _ result (by decide) (by decide) hsel, hex, hp]
    refine ⟨rfl, ?_, ?_, rfl⟩
    · rw [view_SetResultError_NoError, hout]
    · rw [view_SetResultError_NoError, hout]
      simp [hlen]

/-- Witness for the amended C5, on the example card, whose random generator
supplies `A0 A1 .. A7` next. -/
theorem C5_get_challenge_framing_witness :
    (APDUExecutor.Execute (cardStorage exampleIds) exampleCard
        (bstr.ofList [0x00, 0x84, 0x00, 0x00, 0x08]) exampleResult).2.1.view = [0x67, 0x00] ∧
    (APDUExecutor.Execute (cardStorage exampleIds) exampleCard
        (bstr.ofList [0x00, 0x84, 0x00, 0x00, 0x00, 0x08]) exampleResult).2.1.view
      = [0xA0, 0xA1, 0xA2, 0xA3, 0xA4, 0xA5, 0xA6, 0xA7] ++ [0x90, 0x00] := by
  have h := C5_get_challenge_framing (cardStorage exampleIds) cardCrypto exampleCard
    { exampleCard with random := [0xA8, 0xA9] } () exampleResult
    (exampleResult.clear.clear.set [0xA0, 0xA1, 0xA2, 0xA3, 0xA4, 0xA5, 0xA6, 0xA7])
    [0xA0, 0xA1, 0xA2, 0xA3, 0xA4, 0xA5, 0xA6, 0xA7]
    (by decide) (fun _ => rfl) (by decide) (by decide) (by decide)
  refine ⟨?_, h.2.2.1⟩
  rw [h.1.1]
  exact h.1.2

/-- C6, as stated, fails: on the example card the 11-byte input
`00 A4 04 00 06 D2 76 00 01 24 01` is not rejected; `Execute` returns `NoError` and the
response is `90 00`, not `67 00`. -/
theorem C6_select_11_bytes_not_rejected :
    (bstr.ofList [0x00, 0xA4, 0x04, 0x00, 0x06, 0xD2, 0x76, 0x00, 0x01, 0x24, 0x01]).length
      = 11 ∧
    (APDUExecutor.Execute (cardStorage exampleIds) exampleCard
        (bstr.ofList [0x00, 0xA4, 0x04, 0x00, 0x06, 0xD2, 0x76, 0x00, 0x01, 0x24, 0x01])
        exampleResult).1 = Error.NoError ∧
    (APDUExecutor.Execute (cardStorage exampleIds) exampleCard
        (bstr.ofList [0x00, 0xA4, 0x04, 0x00, 0x06, 0xD2, 0x76, 0x00, 0x01, 0x24, 0x01])
        exampleResult).2.1.view = [0x90, 0x00] ∧
    (APDUExecutor.Execute (cardStorage exampleIds) exampleCard
        (bstr.ofList [0x00, 0xA4, 0x04, 0x00, 0x06, 0xD2, 0x76, 0x00, 0x01, 0x24, 0x01])
        exampleResult).2.1.view ≠ [0x67, 0x00] := by
  decide

/-- C6, amended: the 11-byte input `00 A4 04 00 06 D2 76 00 01 24 01` is a well-framed
SELECT (`11 = LC + 5` for `LC = 6`).  `APDUExecutor::Execute` calls `SelectApplet` once, with
the AID `D2 76 00 01 24 01` and the cleared response buffer, and returns its error; the
response is what `SelectApplet` left followed by `90 00` on `NoError`, exactly `6A 82` on
`AppletNotFound`, and in no case `67 00`. -/
theorem C6_select_11_bytes_accepted {σ α : Type} (st : AppletStorage σ α) (s : σ)
    (log : List Call) (result : bstr) :
    ∃ aid cleared : bstr,
      aid.view = [0xD2, 0x76, 0x00, 0x01, 0x24, 0x01] ∧ cleared.view = [] ∧
      (APDUExecutor.Execute st s
        (bstr.ofList [0x00, 0xA4, 0x04, 0x00, 0x06, 0xD2, 0x76, 0x00, 0x01, 0x24, 0x01])
        result).1 = (st.SelectApplet s aid cleared).1 ∧
      (APDUExecutor.Execute st s
        (bstr.ofList [0x00, 0xA4, 0x04, 0x00, 0x06, 0xD2, 0x76, 0x00, 0x01, 0x24, 0x01])
        result).2.2 = (st.SelectApplet s aid cleared).2.2 ∧
      ((st.SelectApplet s aid cleared).1 = Error.NoError →
        (APDUExecutor.Execute st s
          (bstr.ofList [0x00, 0xA4, 0x04, 0x00, 0x06, 0xD2, 0x76, 0x00, 0x01, 0x24, 0x01])
          result).2.1.view = (st.SelectApplet s aid cleared).2.1.view ++ [0x90, 0x00]) ∧
      ((st.SelectApplet s aid cleared).1 = Error.AppletNotFound →
        (APDUExecutor.Execute st s
          (bstr.ofList [0x00, 0xA4, 0x04, 0x00, 0x06, 0xD2, 0x76, 0x00, 0x01, 0x24, 0x01])
          result).2.1.view = [0x6A, 0x82]) ∧
      (APDUExecutor.Execute st s
        (bstr.ofList [0x00, 0xA4, 0x04, 0x00, 0x06, 0xD2, 0x76, 0x00, 0x01, 0x24, 0x01])
        result).2.1.view ≠ [0x67, 0x00] ∧
      (APDUExecutor.Execute st.recording (s, log)
        (bstr.ofList [0x00, 0xA4, 0x04, 0x00, 0x06, 0xD2, 0x76, 0x00, 0x01, 0x24, 0x01])
        result).2.2.2 = log ++ [Call.SelectApplet [0xD2, 0x76, 0x00, 0x01, 0x24, 0x01]] := by
  refine ⟨bstr.ofView ((bstr.ofList
    [0x00, 0xA4, 0x04, 0x00, 0x06, 0xD2, 0x76, 0x00, 0x01, 0x24, 0x01]).substr 5 6) 0,
    result.clear, by decide, bstr.view_clear result, ?_⟩
  have hb : (bstr.ofList
      [0x00, 0xA4, 0x04, 0x00, 0x06, 0xD2, 0x76, 0x00, 0x01, 0x24, 0x01]).byteAt 4 = 6 := by
    decide
  have hr := Execute_select_recording st s log (bstr.ofList
    [0x00, 0xA4, 0x04, 0x00, 0x06, 0xD2, 0x76, 0x00, 0x01, 0x24, 0x01]) result
    (by decide) (by decide) (by decide) (by decide) (by decide)
  have he := Execute_select st s (bstr.ofList
    [0x00, 0xA4, 0x04, 0x00, 0x06, 0xD2, 0x76, 0x00, 0x01, 0x24, 0x01]) result
    (by decide) (by decide) (by decide) (by decide) (by decide)
  rw [hb] at hr he
  rw [hr, he]
  refine ⟨rfl, rfl, ?_, ?_, view_SetResultError_ne_WrongLength _ _, rfl⟩
  · intro h
    simp only
    rw [h, view_SetResultError_NoError]
  · intro h
    simp only
    rw [h, view_SetResultError_AppletNotFound]

/-- C7: SELECT in `APDUExecutor::Execute`, for every well-framed APDU with `INS = A4`.
If `CLA` is not `00`, `Execute` returns `WrongAPDUCLA` with response exactly `6E 00`;
otherwise, if `(P1, P2)` is not `(04, 00)`, it returns `WrongAPDUP1P2` with response exactly
`6A 86`; in both cases the state is unchanged and no call is recorded.  Otherwise
`SelectApplet` is called once, with exactly the `LC` bytes at offsets `5 .. 5 + LC - 1` (a
trailing LE byte is left out) and the cleared response buffer; `Execute` returns its error
and its state, and the response is what `SelectApplet` wrote followed by `90 00` on
`NoError`, exactly `6A 82` on `AppletNotFound`. -/
theorem C7_execute_select {σ α : Type} (st : AppletStorage σ α) (s : σ) (log : List Call)
    (apdu result : bstr)
    (hframe : apdu.length = apdu.byteAt 4 + 5 ∨ apdu.length = apdu.byteAt 4 + 6)
    (hins : apdu.byteAt 1 = 0xA4) :
    (apdu.byteAt 0 ≠ 0x00 →
      ∃ r : bstr, r.view = [0x6E, 0x00] ∧
        APDUExecutor.Execute st s apdu result = (Error.WrongAPDUCLA, r, s) ∧
        APDUExecutor.Execute st.recording (s, log) apdu result
          = (Error.WrongAPDUCLA, r, (s, log))) ∧
    (apdu.byteAt 0 = 0x00 → (apdu.byteAt 2 ≠ 0x04 ∨ apdu.byteAt 3 ≠ 0x00) →
      ∃ r : bstr, r.view = [0x6A, 0x86] ∧
        APDUExecutor.Execute st s apdu result = (Error.WrongAPDUP1P2, r, s) ∧
        APDUExecutor.Execute st.recording (s, log) apdu result
          = (Error.WrongAPDUP1P2, r, (s, log))) ∧
    (apdu.byteAt 0 = 0x00 → apdu.byteAt 2 = 0x04 → apdu.byteAt 3 = 0x00 →
      ∃ aid cleared : bstr,
        aid.view = (apdu.view.drop 5).take (apdu.byteAt 4) ∧
        aid.length = apdu.byteAt 4 ∧ cleared.view = [] ∧
        (APDUExecutor.Execute st s apdu result).1 = (st.SelectApplet s aid cleared).1 ∧
        (APDUExecutor.Execute st s apdu result).2.2 = (st.SelectApplet s aid cleared).2.2 ∧
        ((st.SelectApplet s aid cleared).1 = Error.NoError →
          (APDUExecutor.Execute st s apdu result).2.1.view
            = (st.SelectApplet s aid cleared).2.1.view ++ [0x90, 0x00]) ∧
        ((st.SelectApplet s aid cleared).1 = Error.AppletNotFound →
          (APDUExecutor.Execute st s apdu result).2.1.view = [0x6A, 0x82]) ∧
        (APDUExecutor.Execute st.recording (s, log) apdu result).2.2.2
          = log ++ [Call.SelectApplet ((apdu.view.drop 5).take (apdu.byteAt 4))]) := by
  refine ⟨?_, ?_, ?_⟩
  · intro hcla
    refine ⟨result.clear.appendAPDUres APDUResponse.CLAnotSupported, ?_,
      Execute_select_cla st s apdu result hframe hins hcla,
      Execute_select_cla st.recording (s, log) apdu result hframe hins hcla⟩
    simp [bstr.view_appendAPDUres, bstr.view_clear, APDUResponse.CLAnotSupported]
  · intro hcla hp
    refine ⟨result.clear.appendAPDUres APDUResponse.WrongParametersP1orP2, ?_,
      Execute_select_p1p2 st s apdu result hframe hins hcla hp,
      Execute_select_p1p2 st.recording (s, log) apdu result hframe hins hcla hp⟩
    simp [bstr.view_appendAPDUres, bstr.view_clear, APDUResponse.WrongParametersP1orP2]
  · intro hcla hp1 hp2
    refine ⟨bstr.ofView (apdu.substr 5 (apdu.byteAt 4)) 0, result.clear,
      (view_aid apdu hframe).1, (view_aid apdu hframe).2, bstr.view_clear result, ?_⟩
    rw [Execute_select_recording st s log apdu result hframe hins hcla hp1 hp2]
    rw [Execute_select st s apdu result hframe hins hcla hp1 hp2]
    refine ⟨rfl, rfl, ?_, ?_, rfl⟩
    · intro h
      simp only
      rw [h, view_SetResultError_NoError]
    · intro h
      simp only
      rw [h, view_SetResultError_AppletNotFound]

/-- Witness for C7, on the example card, at the SELECT of the OpenPGP AID
followed by an LE byte, `00 A4 04 00 06 D2 76 00 01 24 01 00`: the AID handed to
`SelectApplet` is `D2 76 00 01 24 01`, without the LE byte. -/
theorem C7_execute_select_witness :
    ((bstr.ofList [0x00, 0xA4, 0x04, 0x00, 0x06, 0xD2, 0x76, 0x00, 0x01, 0x24, 0x01, 0x00]).length
        = 6 + 6 ∧
      (bstr.ofList [0x00, 0xA4, 0x04, 0x00, 0x06, 0xD2, 0x76, 0x00, 0x01, 0x24, 0x01, 0x00]).byteAt 1
        = 0xA4) ∧
    (APDUExecutor.Execute (cardStorage exampleIds).recording (exampleCard, [])
        (bstr.ofList [0x00, 0xA4, 0x04, 0x00, 0x06, 0xD2, 0x76, 0x00, 0x01, 0x24, 0x01, 0x00])
        exampleResult).2.2.2 = [Call.SelectApplet [0xD2, 0x76, 0x00, 0x01, 0x24, 0x01]] := by
  obtain ⟨_, _, _, _, _, _, _, _, _, hlog⟩ :=
    (C7_execute_select (cardStorage exampleIds) exampleCard []
      (bstr.ofList [0x00, 0xA4, 0x04, 0x00, 0x06, 0xD2, 0x76, 0x00, 0x01, 0x24, 0x01, 0x00])
      exampleResult (Or.inr (by decide)) (by decide)).2.2 (by decide) (by decide) (by decide)
  exact ⟨by decide, hlog⟩

end Spec

/-! ## Facts about the file system and the PW status bytes -/

namespace File

theorem find?_filter_of_imp {β : Type} (p q : β → Bool) (l : List β)
    (h : ∀ x, p x = true → q x = true) : (l.filter q).find? p = l.find? p := by
  induction l with
  | nil => rfl
  | cons x xs ih =>
    by_cases hq : q x = true
    · rw [List.filter_cons_of_pos hq, List.find?_cons, List.find?_cons, ih]
    · have hp : p x = false := by
        cases hpx : p x
        · rfl
        · exact absurd (h x hpx) hq
      rw [List.filter_cons_of_neg hq, List.find?_cons, hp, ih]

theorem content_WriteFile (fs : FileSystem) (app id : Nat) (ns : FileType) (data : bstr)
    (k : Key) :
    (fs.WriteFile app id ns data).2.content k =
      if k = (app, id, ns) then data.view else fs.content k := by
  by_cases hk : k = (app, id, ns)
  · subst hk
    simp [FileSystem.WriteFile, FileSystem.content]
  · have hk2 : ¬ (app, id, ns) = k := fun h => hk h.symm
    simp only [FileSystem.WriteFile, FileSystem.content, List.find?_cons, hk, if_false,
      decide_eq_false hk2]
    rw [find?_filter_of_imp]
    intro x hx
    have hx1 : x.1 = k := of_decide_eq_true hx
    exact decide_eq_true (by rw [hx1]; exact hk)

end File

namespace OpenPGP

open Util File

theorem decode_encode (ps : PWStatusBytes) : PWStatusBytes.decode ps.encode = ps := by
  cases ps with
  | mk f m1 m2 m3 c1 c2 c3 => cases f <;> simp [PWStatusBytes.encode, PWStatusBytes.decode]

theorem Load_Save (ps : PWStatusBytes) (ids : Ids) (fs : FileSystem) :
    PWStatusBytes.Load ids (ps.Save ids fs) = ps := by
  simp only [PWStatusBytes.Load, PWStatusBytes.Save, content_WriteFile, if_true,
    bstr.view_ofList, decode_encode]

theorem content_Save (ps : PWStatusBytes) (ids : Ids) (fs : FileSystem) (k : Key)
    (hk : k ≠ (ids.OpenPGP, 0xC4, FileType.File)) :
    (ps.Save ids fs).content k = fs.content k := by
  simp only [PWStatusBytes.Save, content_WriteFile, hk, if_false]

theorem six_le_PWMinLength (p : Password) : 6 ≤ PGPConst.PWMinLength p := by
  unfold PGPConst.PWMinLength
  split <;> decide

/-- VERIFY with `P1 = 00` against a stored password that is long enough: what is left of
`APDUVerify::Process` is the test of the counter and the comparison. -/
theorem Verify_Process_stored (ids : Ids) (cla ins p2 : Nat) (data dataOut : bstr)
    (solo : State)
    (hcheck : APDUVerify.Check cla ins 0x00 p2 = Error.NoError)
    (hstored : PGPConst.PWMinLength (passwdId p2) ≤
      (solo.filesystem.content
        (ids.OpenPGP, passwdFile ids (passwdId p2), FileType.Secure)).length) :
    APDUVerify.Process ids cla ins 0x00 p2 data dataOut solo =
      if (PWStatusBytes.Load ids solo.filesystem).PasswdTryRemains (passwdId p2) = 0 then
        (Error.PasswordLocked, dataOut, solo)
      else if data.view ≠ solo.filesystem.content
          (ids.OpenPGP, passwdFile ids (passwdId p2), FileType.Secure) then
        (Error.WrongPassword, dataOut,
          { solo with filesystem :=
              (((PWStatusBytes.Load ids solo.filesystem).DecErrorCounter (passwdId p2)).Save ids
                solo.filesystem) })
      else
        (Error.NoError, dataOut,
          { filesystem :=
              (((PWStatusBytes.Load ids solo.filesystem).PasswdSetRemains (passwdId p2)
                PGPConst.DefaultPWResetCounter).Save ids solo.filesystem),
            auth := solo.auth.SetAuth (passwdId p2) }) := by
  have h6 := six_le_PWMinLength (passwdId p2)
  have hne : ¬ (solo.filesystem.content
      (ids.OpenPGP, passwdFile ids (passwdId p2), FileType.Secure)).length = 0 := by omega
  have hlt : ¬ (solo.filesystem.content
      (ids.OpenPGP, passwdFile ids (passwdId p2), FileType.Secure)).length
        < PGPConst.PWMinLength (passwdId p2) := by omega
  simp only [APDUVerify.Process, hcheck, FileSystem.ReadFile, bstr.length_set, bstr.view_set,
    ne_eq, not_true_eq_false, if_false, hne, hlt]
  simp

end OpenPGP

/-! ## The claims about VERIFY -/

namespace Spec

open Util Applet OpenPGP File

/-- C8: VERIFY lock-out.  For every VERIFY request with `P1 = 00` whose referenced password
(PW3 if `P2 = 83`, otherwise PW1) is stored with at least its minimum length and whose
remaining-tries counter is 0, `APDUVerify::Process` returns `PasswordLocked` for every
candidate, the stored password itself included, and the state after the call is the state
before it: the authentication flags, the PW status bytes and the password file are
unchanged (and so is the output buffer). -/
theorem C8_verify_locked (ids : Ids) (cla ins p2 : Nat) (data dataOut : bstr) (solo : State)
    (hcheck : APDUVerify.Check cla ins 0x00 p2 = Error.NoError)
    (hstored : PGPConst.PWMinLength (passwdId p2) ≤
      (solo.filesystem.content
        (ids.OpenPGP, passwdFile ids (passwdId p2), FileType.Secure)).length)
    (hzero : (PWStatusBytes.Load ids solo.filesystem).PasswdTryRemains (passwdId p2) = 0) :
    APDUVerify.Process ids cla ins 0x00 p2 data dataOut solo
      = (Error.PasswordLocked, dataOut, solo) ∧
    APDUVerify.Process ids cla ins 0x00 p2
        (bstr.ofList (solo.filesystem.content
          (ids.OpenPGP, passwdFile ids (passwdId p2), FileType.Secure))) dataOut solo
      = (Error.PasswordLocked, dataOut, solo) := by
  constructor
  · rw [Verify_Process_stored ids cla ins p2 data dataOut solo hcheck hstored, if_pos hzero]
  · rw [Verify_Process_stored ids cla ins p2 _ dataOut solo hcheck hstored, if_pos hzero]

/-- Witness for C8, on the locked example state (PW1 is `123456`, no try
left), at the VERIFY header `00 20 00 81` with the correct password as the candidate. -/
theorem C8_verify_locked_witness :
    APDUVerify.Check 0x00 0x20 0x00 0x81 = Error.NoError ∧
    (PWStatusBytes.Load exampleIds exampleLockedState.filesystem).PasswdTryRemains
      Password.PW1 = 0 ∧
    APDUVerify.Process exampleIds 0x00 0x20 0x00 0x81
        (bstr.ofList [0x31, 0x32, 0x33, 0x34, 0x35, 0x36]) exampleResult exampleLockedState
      = (Error.PasswordLocked, exampleResult, exampleLockedState) :=
  ⟨by decide, by decide,
    (C8_verify_locked exampleIds 0x00 0x20 0x81
      (bstr.ofList [0x31, 0x32, 0x33, 0x34, 0x35, 0x36]) exampleResult exampleLockedState
      (by decide) (by decide) (by decide)).1⟩

/-- C9: VERIFY mismatch.  For every VERIFY request with `P1 = 00`, stored password of at
least its minimum length, remaining tries above 0 and candidate bytes different from the
stored password (in length or in content), `APDUVerify::Process` returns `WrongPassword`,
leaves the authentication flags and the output as they were, and saves PW status bytes in
which the counter of the referenced password is one less than before and every other field
is as before; every file other than DO `C4` keeps its content. -/
theorem C9_verify_mismatch (ids : Ids) (cla ins p2 : Nat) (data dataOut : bstr) (solo : State)
    (hcheck : APDUVerify.Check cla ins 0x00 p2 = Error.NoError)
    (hstored : PGPConst.PWMinLength (passwdId p2) ≤
      (solo.filesystem.content
        (ids.OpenPGP, passwdFile ids (passwdId p2), FileType.Secure)).length)
    (htries : 0 < (PWStatusBytes.Load ids solo.filesystem).PasswdTryRemains (passwdId p2))
    (hne : data.view ≠ solo.filesystem.content
      (ids.OpenPGP, passwdFile ids (passwdId p2), FileType.Secure)) :
    ∃ fs : FileSystem,
      APDUVerify.Process ids cla ins 0x00 p2 data dataOut solo
        = (Error.WrongPassword, dataOut, { filesystem := fs, auth := solo.auth }) ∧
      (PWStatusBytes.Load ids fs).PasswdTryRemains (passwdId p2) + 1
        = (PWStatusBytes.Load ids solo.filesystem).PasswdTryRemains (passwdId p2) ∧
      (PWStatusBytes.Load ids fs).PW1ValidSeveralCDS
        = (PWStatusBytes.Load ids solo.filesystem).PW1ValidSeveralCDS ∧
      (PWStatusBytes.Load ids fs).MaxLengthPW1
        = (PWStatusBytes.Load ids solo.filesystem).MaxLengthPW1 ∧
      (PWStatusBytes.Load ids fs).MaxLengthRC
        = (PWStatusBytes.Load ids solo.filesystem).MaxLengthRC ∧
      (PWStatusBytes.Load ids fs).MaxLengthPW3
        = (PWStatusBytes.Load ids solo.filesystem).MaxLengthPW3 ∧
      (PWStatusBytes.Load ids fs).ErrorCounterRC
        = (PWStatusBytes.Load ids solo.filesystem).ErrorCounterRC ∧
      (p2 = 0x83 → (PWStatusBytes.Load ids fs).ErrorCounterPW1
        = (PWStatusBytes.Load ids solo.filesystem).ErrorCounterPW1) ∧
      (p2 ≠ 0x83 → (PWStatusBytes.Load ids fs).ErrorCounterPW3
        = (PWStatusBytes.Load ids solo.filesystem).ErrorCounterPW3) ∧
      (∀ k : Key, k ≠ (ids.OpenPGP, 0xC4, FileType.File) →
        fs.content k = solo.filesystem.content k) := by
  refine ⟨((PWStatusBytes.Load ids solo.filesystem).DecErrorCounter (passwdId p2)).Save ids
    solo.filesystem, ?_, ?_⟩
  · rw [Verify_Process_stored ids cla ins p2 data dataOut solo hcheck hstored,
      if_neg (by omega), if_pos hne]
  · rw [Load_Save]
    refine ⟨?_, ?_, ?_, ?_, ?_, ?_, ?_, ?_, fun k hk => content_Save _ ids _ k hk⟩
    · by_cases h83 : p2 = 0x83
      · simp only [passwdId, h83, if_true, PWStatusBytes.DecErrorCounter,
          PWStatusBytes.PasswdTryRemains] at htries ⊢
        omega
      · simp only [passwdId, h83, if_false, PWStatusBytes.DecErrorCounter,
          PWStatusBytes.PasswdTryRemains] at htries ⊢
        omega
    all_goals
      by_cases h83 : p2 = 0x83
      · simp [passwdId, h83, PWStatusBytes.DecErrorCounter]
      · simp [passwdId, h83, PWStatusBytes.DecErrorCounter]

/-- Witness for C9, on the example card (PW1 is `123456`, 3 tries left),
at the candidate `123567`: the saved counter of PW1 is 2. -/
theorem C9_verify_mismatch_witness :
    ∃ fs : FileSystem,
      APDUVerify.Process exampleIds 0x00 0x20 0x00 0x81
          (bstr.ofList [0x31, 0x32, 0x33, 0x35, 0x36, 0x37]) exampleResult exampleCard.solo
        = (Error.WrongPassword, exampleResult,
            { filesystem := fs, auth := exampleCard.solo.auth }) ∧
      (PWStatusBytes.Load exampleIds fs).PasswdTryRemains Password.PW1 + 1 = 3 := by
  obtain ⟨fs, h1, h2, _⟩ := C9_verify_mismatch exampleIds 0x00 0x20 0x81
    (bstr.ofList [0x31, 0x32, 0x33, 0x35, 0x36, 0x37]) exampleResult exampleCard.solo
    (by decide) (by decide) (by decide) (by decide)
  exact ⟨fs, h1, h2⟩

/-- C10: VERIFY match.  For every VERIFY request with `P1 = 00`, stored password of at least
its minimum length, remaining tries above 0 and candidate bytes equal to the stored
password, `APDUVerify::Process` returns `NoError`, sets the authentication flag of the
referenced password (PW3 when `P2 = 83`, PW1 when `P2` is `81` or `82`), and saves PW status
bytes in which the counter of that password is `DefaultPWResetCounter = 3`; every file other
than DO `C4`, the password file among them, keeps its content. -/
theorem C10_verify_match (ids : Ids) (cla ins p2 : Nat) (data dataOut : bstr) (solo : State)
    (hcheck : APDUVerify.Check cla ins 0x00 p2 = Error.NoError)
    (hstored : PGPConst.PWMinLength (passwdId p2) ≤
      (solo.filesystem.content
        (ids.OpenPGP, passwdFile ids (passwdId p2), FileType.Secure)).length)
    (htries : 0 < (PWStatusBytes.Load ids solo.filesystem).PasswdTryRemains (passwdId p2))
    (heq : data.view = solo.filesystem.content
      (ids.OpenPGP, passwdFile ids (passwdId p2), FileType.Secure)) :
    ∃ (fs : FileSystem) (auth : Security),
      APDUVerify.Process ids cla ins 0x00 p2 data dataOut solo
        = (Error.NoError, dataOut, { filesystem := fs, auth := auth }) ∧
      auth.GetAuth (passwdId p2) = true ∧
      (p2 = 0x83 → auth.PW3 = true) ∧
      (p2 = 0x81 ∨ p2 = 0x82 → auth.PW1 = true) ∧
      (PWStatusBytes.Load ids fs).PasswdTryRemains (passwdId p2) = 3 ∧
      PGPConst.DefaultPWResetCounter = 3 ∧
      fs.content (ids.OpenPGP, passwdFile ids (passwdId p2), FileType.Secure)
        = solo.filesystem.content (ids.OpenPGP, passwdFile ids (passwdId p2), FileType.Secure) ∧
      (∀ k : Key, k ≠ (ids.OpenPGP, 0xC4, FileType.File) →
        fs.content k = solo.filesystem.content k) := by
  refine ⟨((PWStatusBytes.Load ids solo.filesystem).PasswdSetRemains (passwdId p2)
    PGPConst.DefaultPWResetCounter).Save ids solo.filesystem, solo.auth.SetAuth (passwdId p2),
    ?_, ?_, ?_, ?_, ?_, rfl, ?_, fun k hk => content_Save _ ids _ k hk⟩
  · rw [Verify_Process_stored ids cla ins p2 data dataOut solo hcheck hstored,
      if_neg (by omega), if_neg (by simp [heq])]
  · unfold passwdId
    split <;> rfl
  · intro h
    simp [passwdId, h, Security.SetAuth]
  · intro h
    rcases h with h | h <;> simp [passwdId, h, Security.SetAuth]
  · rw [Load_Save]
    unfold passwdId
    split <;> rfl
  · exact content_Save _ ids _ _ (by simp)

/-- Witness for C10, on the example card (PW1 is `123456`), at the candidate
`123456`: PW1 is authenticated afterwards and its saved counter is 3. -/
theorem C10_verify_match_witness :
    ∃ (fs : FileSystem) (auth : Security),
      APDUVerify.Process exampleIds 0x00 0x20 0x00 0x81
          (bstr.ofList [0x31, 0x32, 0x33, 0x34, 0x35, 0x36]) exampleResult exampleCard.solo
        = (Error.NoError, exampleResult, { filesystem := fs, auth := auth }) ∧
      auth.PW1 = true ∧
      (PWStatusBytes.Load exampleIds fs).PasswdTryRemains Password.PW1 = 3 ∧
      fs.content (1, 0x81, FileType.Secure) = [0x31, 0x32, 0x33, 0x34, 0x35, 0x36] := by
  obtain ⟨fs, auth, h1, _, _, h4, h5, _, h7, _⟩ := C10_verify_match exampleIds 0x00 0x20 0x81
    (bstr.ofList [0x31, 0x32, 0x33, 0x34, 0x35, 0x36]) exampleResult exampleCard.solo
    (by decide) (by decide) (by decide) (by decide)
  exact ⟨fs, auth, h1, h4 (Or.inl rfl), h5, h7⟩

end Spec

/-! ## The claims about VERIFY: lengths and status -/

namespace OpenPGP

open Util File

/-- VERIFY with `P1 = 00` up to the tests on the length of the stored password. -/
theorem Verify_Process_length (ids : Ids) (cla ins p2 : Nat) (data dataOut : bstr)
    (solo : State) (hcheck : APDUVerify.Check cla ins 0x00 p2 = Error.NoError)
    (hshort : (solo.filesystem.content
        (ids.OpenPGP, passwdFile ids (passwdId p2), FileType.Secure)).length
      < PGPConst.PWMinLength (passwdId p2)) :
    APDUVerify.Process ids cla ins 0x00 p2 data dataOut solo =
      if (solo.filesystem.content
          (ids.OpenPGP, passwdFile ids (passwdId p2), FileType.Secure)).length = 0 then
        if solo.auth.GetAuth (passwdId p2) = true then (Error.NoError, dataOut, solo)
        else
          (Error.ErrorPutInData,
            dataOut.appendAPDUres
              (0x6300 + (PWStatusBytes.Load ids solo.filesystem).PasswdTryRemains (passwdId p2)),
            solo)
      else (Error.InternalError, dataOut, solo) := by
  simp only [APDUVerify.Process, hcheck, FileSystem.ReadFile, bstr.length_set, ne_eq,
    not_true_eq_false, if_false, hshort, if_true]
  simp

end OpenPGP

namespace Spec

open Util Applet OpenPGP File

/-- C11, as stated, fails: on the example card (PW1 is `123456`, 3 tries left) the VERIFY
request with the 3-byte candidate `123`, shorter than the minimum 6, does not return
`InternalError`; the candidate is compared, `APDUVerify::Process` returns `WrongPassword`
and the saved counter of PW1 is 2. -/
theorem C11_short_candidate_is_a_mismatch :
    (bstr.ofList [0x31, 0x32, 0x33]).length < PGPConst.PWMinLength Password.PW1 ∧
    (APDUVerify.Process exampleIds 0x00 0x20 0x00 0x81 (bstr.ofList [0x31, 0x32, 0x33])
      exampleResult exampleCard.solo).1 = Error.WrongPassword ∧
    (APDUVerify.Process exampleIds 0x00 0x20 0x00 0x81 (bstr.ofList [0x31, 0x32, 0x33])
      exampleResult exampleCard.solo).1 ≠ Error.InternalError ∧
    (PWStatusBytes.Load exampleIds exampleCard.solo.filesystem).PasswdTryRemains Password.PW1
      = 3 ∧
    (PWStatusBytes.Load exampleIds
      (APDUVerify.Process exampleIds 0x00 0x20 0x00 0x81 (bstr.ofList [0x31, 0x32, 0x33])
        exampleResult exampleCard.solo).2.2.filesystem).PasswdTryRemains Password.PW1 = 2 := by
  decide

/-- C11, amended: the length that `APDUVerify::Process` tests against the minimum (6 for PW1,
8 for PW3) is that of the stored password.  For every VERIFY request with `P1 = 00` whose
stored password is not empty and shorter than the minimum of the referenced password,
`Process` returns `InternalError` for every candidate and returns the state it was given:
nothing is compared and no counter changes.  A candidate shorter than the minimum, presented
against a stored password of at least the minimum length with tries left, is a mismatch:
`Process` returns `WrongPassword`. -/
theorem C11_verify_short_stored_password (ids : Ids) (cla ins p2 : Nat)
    (data dataOut : bstr) (solo : State)
    (hcheck : APDUVerify.Check cla ins 0x00 p2 = Error.NoError) :
    PGPConst.PWMinLength Password.PW1 = 6 ∧ PGPConst.PWMinLength Password.PW3 = 8 ∧
    (0 < (solo.filesystem.content
        (ids.OpenPGP, passwdFile ids (passwdId p2), FileType.Secure)).length →
      (solo.filesystem.content
        (ids.OpenPGP, passwdFile ids (passwdId p2), FileType.Secure)).length
          < PGPConst.PWMinLength (passwdId p2) →
      APDUVerify.Process ids cla ins 0x00 p2 data dataOut solo
        = (Error.InternalError, dataOut, solo)) ∧
    (PGPConst.PWMinLength (passwdId p2) ≤ (solo.filesystem.content
        (ids.OpenPGP, passwdFile ids (passwdId p2), FileType.Secure)).length →
      0 < (PWStatusBytes.Load ids solo.filesystem).PasswdTryRemains (passwdId p2) →
      data.length < PGPConst.PWMinLength (passwdId p2) →
      (APDUVerify.Process ids cla ins 0x00 p2 data dataOut solo).1 = Error.WrongPassword) := by
  refine ⟨by decide, by decide, ?_, ?_⟩
  · intro hpos hshort
    rw [Verify_Process_length ids cla ins p2 data dataOut solo hcheck hshort,
      if_neg (by omega)]
  · intro hstored htries hdata
    have hne : data.view ≠ solo.filesystem.content
        (ids.OpenPGP, passwdFile ids (passwdId p2), FileType.Secure) := by
      intro h
      have h2 := congrArg List.length h
      rw [bstr.view_length] at h2
      simp only [bstr.length] at hdata
      omega
    rw [Verify_Process_stored ids cla ins p2 data dataOut solo hcheck hstored,
      if_neg (by omega), if_pos hne]

/-- Witness for the amended C11: the stored PW1 is `123`; the correct-length candidate
`123456` gets `InternalError` and the state is unchanged. -/
theorem C11_verify_short_stored_password_witness :
    APDUVerify.Check 0x00 0x20 0x00 0x81 = Error.NoError ∧
    APDUVerify.Process exampleIds 0x00 0x20 0x00 0x81
        (bstr.ofList [0x31, 0x32, 0x33, 0x34, 0x35, 0x36]) exampleResult
        exampleShortPasswordState
      = (Error.InternalError, exampleResult, exampleShortPasswordState) :=
  ⟨by decide,
    (C11_verify_short_stored_password exampleIds 0x00 0x20 0x81
      (bstr.ofList [0x31, 0x32, 0x33, 0x34, 0x35, 0x36]) exampleResult
      exampleShortPasswordState (by decide)).2.2.1 (by decide) (by decide)⟩

/-- C12, as stated, fails twice.  On the example card (PW1 is `123456`, not authenticated,
3 tries left) VERIFY with empty data is handled as a wrong candidate: `Process` returns
`WrongPassword`, writes nothing and saves the counter 2.  On the card that stores no PW1,
where `Process` does return `ErrorPutInData`, the bytes written are `63 03`, not `63 C3`. -/
theorem C12_empty_data_is_not_a_status_query :
    (bstr.ofList []).length = 0 ∧
    exampleCard.solo.auth.GetAuth Password.PW1 = false ∧
    APDUVerify.Check 0x00 0x20 0x00 0x81 = Error.NoError ∧
    (APDUVerify.Process exampleIds 0x00 0x20 0x00 0x81 (bstr.ofList [])
      exampleResult.clear exampleCard.solo).1 = Error.WrongPassword ∧
    (APDUVerify.Process exampleIds 0x00 0x20 0x00 0x81 (bstr.ofList [])
      exampleResult.clear exampleCard.solo).2.1.view = [] ∧
    (PWStatusBytes.Load exampleIds
      (APDUVerify.Process exampleIds 0x00 0x20 0x00 0x81 (bstr.ofList [])
        exampleResult.clear exampleCard.solo).2.2.filesystem).PasswdTryRemains Password.PW1
      = 2 ∧
    (APDUVerify.Process exampleIds 0x00 0x20 0x00 0x81 (bstr.ofList [])
      exampleResult.clear exampleCardNoPassword.solo).1 = Error.ErrorPutInData ∧
    (APDUVerify.Process exampleIds 0x00 0x20 0x00 0x81 (bstr.ofList [])
      exampleResult.clear exampleCardNoPassword.solo).2.1.view = [0x63, 0x03] ∧
    (APDUVerify.Process exampleIds 0x00 0x20 0x00 0x81 (bstr.ofList [])
      exampleResult.clear exampleCardNoPassword.solo).2.1.view ≠ [0x63, 0xC3] := by
  decide

/-- C12, amended: the status branch of `APDUVerify::Process` is taken when the stored password
is empty, whatever the data.  For every VERIFY request with `P1 = 00` whose referenced
password reads back empty and is not authenticated, `Process` appends to the output the two
bytes of the status word `0x6300 + n`, that is `63` and `n` for the remaining tries `n` of
that password, returns `ErrorPutInData` and returns the state it was given, so the counter
is unchanged. -/
theorem C12_verify_status (ids : Ids) (cla ins p2 : Nat) (data dataOut : bstr) (solo : State)
    (hcheck : APDUVerify.Check cla ins 0x00 p2 = Error.NoError)
    (hempty : solo.filesystem.content
      (ids.OpenPGP, passwdFile ids (passwdId p2), FileType.Secure) = [])
    (hauth : solo.auth.GetAuth (passwdId p2) = false) :
    ∃ out : bstr,
      APDUVerify.Process ids cla ins 0x00 p2 data dataOut solo
        = (Error.ErrorPutInData, out, solo) ∧
      out = dataOut.appendAPDUres
        (0x6300 + (PWStatusBytes.Load ids solo.filesystem).PasswdTryRemains (passwdId p2)) ∧
      ((PWStatusBytes.Load ids solo.filesystem).PasswdTryRemains (passwdId p2) < 256 →
        out.view = dataOut.view ++
          [0x63, (PWStatusBytes.Load ids solo.filesystem).PasswdTryRemains (passwdId p2)]) := by
  have h6 := six_le_PWMinLength (passwdId p2)
  refine ⟨_, ?_, rfl, ?_⟩
  · rw [Verify_Process_length ids cla ins p2 data dataOut solo hcheck
      (by rw [hempty]; simp; omega)]
    simp [hempty, hauth]
  · intro hn
    rw [bstr.view_appendAPDUres]
    congr 2
    · omega
    · congr 1
      omega

/-- Witness for the amended C12: the card that stores no PW1, 3 tries left, with a 6-byte
candidate as data; the output is `63 03`. -/
theorem C12_verify_status_witness :
    ∃ out : bstr,
      APDUVerify.Process exampleIds 0x00 0x20 0x00 0x81
          (bstr.ofList [0x31, 0x32, 0x33, 0x34, 0x35, 0x36]) exampleResult.clear
          exampleCardNoPassword.solo
        = (Error.ErrorPutInData, out, exampleCardNoPassword.solo) ∧
      out.view = exampleResult.clear.view ++ [0x63, 3] := by
  obtain ⟨out, h1, _, h3⟩ := C12_verify_status exampleIds 0x00 0x20 0x81
    (bstr.ofList [0x31, 0x32, 0x33, 0x34, 0x35, 0x36]) exampleResult.clear
    exampleCardNoPassword.solo (by decide) (by decide) (by decide)
  exact ⟨out, h1, h3 (by decide)⟩

end Spec

/-! ## Facts about `find` and about the password handlers -/

namespace bstr

theorem findAt_ge (needle : List Nat) (hay : List Nat) (pos r : Nat)
    (h : findAt needle pos hay = some r) : pos ≤ r := by
  induction hay generalizing pos with
  | nil =>
    simp only [findAt] at h
    split at h
    · simp at h; omega
    · simp at h
  | cons x t ih =>
    simp only [findAt] at h
    split at h
    · simp at h; omega
    · have := ih (pos + 1) h
      omega

theorem findAt_zero_iff (needle hay : List Nat) :
    findAt needle 0 hay = some 0 ↔ hay.take needle.length = needle := by
  cases hay with
  | nil =>
    simp only [findAt, List.take_nil]
    constructor
    · intro h
      split at h
      · next hn => exact hn.symm
      · simp at h
    · intro h
      simp [h.symm]
  | cons x t =>
    simp only [findAt]
    constructor
    · intro h
      split at h
      · next hn => exact hn
      · have := findAt_ge needle t 1 0 h
        omega
    · intro h
      simp [h]

theorem find_eq_zero_iff (b sv : bstr) :
    b.find sv = some 0 ↔ b.view.take sv.view.length = sv.view :=
  findAt_zero_iff sv.view b.view

theorem view_appendView (b sv : bstr) : (b.appendView sv).view = b.view ++ sv.view :=
  view_append b sv.view

theorem view_mk3_zero (str : List Nat) (maxLength : Nat) : (mk3 str 0 maxLength).view = [] := by
  simp [mk3, view]

theorem view_substr_tail (b : bstr) (pos : Nat) :
    (b.substr pos (b.length - pos)).view = b.view.drop pos := by
  rw [view_substr]
  apply List.take_of_length_le
  rw [List.length_drop, view_length]
  rfl

end bstr

namespace OpenPGP

open Util File

/-- What `APDUChangeReferenceData::Process` does once `Check` has passed, in terms of the
stored password. -/
theorem ChangeReferenceData_Process_eq (ids : Ids) (cla ins p1 p2 : Nat)
    (data dataOut : bstr) (solo : State)
    (hcheck : APDUChangeReferenceData.Check cla ins p1 p2 = Error.NoError) :
    APDUChangeReferenceData.Process ids cla ins p1 p2 data dataOut solo =
      if (storedPassword ids solo (passwdId p2)).length < PGPConst.PWMinLength (passwdId p2) then
        (Error.InternalError, dataOut, solo)
      else if data.length
            < (storedPassword ids solo (passwdId p2)).length + PGPConst.PWMinLength (passwdId p2) ∨
          data.length
            > (storedPassword ids solo (passwdId p2)).length + PGPConst.PWMaxLength (passwdId p2)
          then
        (Error.WrongAPDUDataLength, dataOut, solo)
      else if data.view.take (storedPassword ids solo (passwdId p2)).length
          ≠ storedPassword ids solo (passwdId p2) then
        (Error.WrongPassword, dataOut, solo)
      else
        (Error.NoError, dataOut,
          { solo with filesystem :=
              (((PWStatusBytes.Load ids
                  (solo.filesystem.WriteFile ids.OpenPGP (passwdFile ids (passwdId p2))
                    FileType.Secure
                    (bstr.ofList
                      (data.view.drop (storedPassword ids solo (passwdId p2)).length))).2
                ).PasswdSetRemains (passwdId p2) PGPConst.DefaultPWResetCounter).Save ids
                (solo.filesystem.WriteFile ids.OpenPGP (passwdFile ids (passwdId p2))
                  FileType.Secure
                  (bstr.ofList
                    (data.view.drop (storedPassword ids solo (passwdId p2)).length))).2) }) := by
  simp only [APDUChangeReferenceData.Process, hcheck, FileSystem.ReadFile, bstr.length_set,
    bstr.view_set, ne_eq, not_true_eq_false, if_false, bstr.find_eq_zero_iff,
    FileSystem.WriteFile, bstr.view_appendView, bstr.view_clear, List.nil_append,
    bstr.view_substr_tail, bstr.view_ofList, storedPassword]

theorem secure_ne_C4 (ids : Ids) (id : Nat) :
    ((ids.OpenPGP, id, FileType.Secure) : Key) ≠ (ids.OpenPGP, 0xC4, FileType.File) := by
  intro h
  have h2 := congrArg (fun k : Key => k.2.2) h
  simp at h2

end OpenPGP

namespace Spec

open Util Applet OpenPGP File

end Spec

namespace OpenPGP

open Util File

/-- The tail of RESET RETRY COUNTER: the PW1 file receives the bytes of `passwd` and the
counter of PW1 is reset. -/
theorem ResetRetryCounter_store (ids : Ids) (passwd dataOut : bstr) (solo : State) :
    ∃ st : State,
      APDUResetRetryCounter.store ids passwd dataOut solo = (Error.NoError, dataOut, st) ∧
      st.auth = solo.auth ∧
      storedPassword ids st Password.PW1 = passwd.view ∧
      (PWStatusBytes.Load ids st.filesystem).PasswdTryRemains Password.PW1 = 3 := by
  have hs : APDUResetRetryCounter.store ids passwd dataOut solo =
      (Error.NoError, dataOut,
        { solo with filesystem :=
            (((PWStatusBytes.Load ids
                (solo.filesystem.WriteFile ids.OpenPGP ids.PW1 FileType.Secure passwd).2
              ).PasswdSetRemains Password.PW1 PGPConst.DefaultPWResetCounter).Save ids
              (solo.filesystem.WriteFile ids.OpenPGP ids.PW1 FileType.Secure passwd).2) }) := by
    simp [APDUResetRetryCounter.store, FileSystem.WriteFile]
  refine ⟨_, hs, rfl, ?_, ?_⟩
  · simp only [storedPassword, passwdFile, if_true]
    rw [content_Save _ ids _ _ (secure_ne_C4 ids _), content_WriteFile, if_pos rfl]
  · simp only
    rw [Load_Save]
    rfl

/-- RESET RETRY COUNTER with `P1 = 00`, once `Check` has passed. -/
theorem ResetRetryCounter_Process_rc (ids : Ids) (cla ins p2 : Nat) (data dataOut : bstr)
    (solo : State) (hcheck : APDUResetRetryCounter.Check cla ins 0x00 p2 = Error.NoError) :
    APDUResetRetryCounter.Process ids cla ins 0x00 p2 data dataOut solo =
      if data.length < (storedRC ids solo).length + PGPConst.PW1MinLength ∨
          data.length > (storedRC ids solo).length + PGPConst.PW1MaxLength then
        (Error.WrongAPDUDataLength, dataOut, solo)
      else if data.view.take (storedRC ids solo).length ≠ storedRC ids solo then
        (Error.WrongPassword, dataOut, solo)
      else
        APDUResetRetryCounter.store ids
          (((bstr.mk3 (List.replicate (bstr.MAX PGPConst.PW1MaxLength PGPConst.RCMaxLength) 0) 0
              PGPConst.PW1MaxLength).set (storedRC ids solo)).clear.appendView
            (data.substr (storedRC ids solo).length (data.length - (storedRC ids solo).length)))
          dataOut solo := by
  simp only [APDUResetRetryCounter.Process, hcheck, FileSystem.ReadFile, bstr.length_set,
    bstr.view_set, ne_eq, not_true_eq_false, if_false, bstr.find_eq_zero_iff, storedRC]
  simp

/-- RESET RETRY COUNTER with `P1 = 02`, once `Check` has passed. -/
theorem ResetRetryCounter_Process_pw3 (ids : Ids) (cla ins p2 : Nat) (data dataOut : bstr)
    (solo : State) (hcheck : APDUResetRetryCounter.Check cla ins 0x02 p2 = Error.NoError) :
    APDUResetRetryCounter.Process ids cla ins 0x02 p2 data dataOut solo =
      if data.length < PGPConst.PW1MinLength ∨ data.length > PGPConst.PW1MaxLength then
        (Error.WrongAPDUDataLength, dataOut, solo)
      else if solo.auth.GetAuth Password.PW3 = false then (Error.AccessDenied, dataOut, solo)
      else
        APDUResetRetryCounter.store ids
          ((bstr.mk3 (List.replicate (bstr.MAX PGPConst.PW1MaxLength PGPConst.RCMaxLength) 0) 0
              PGPConst.PW1MaxLength).appendView data)
          dataOut solo := by
  simp only [APDUResetRetryCounter.Process, hcheck, ne_eq, not_true_eq_false, if_false]
  simp

end OpenPGP

/-! ## The claims about RESET RETRY COUNTER -/

namespace Spec

open Util Applet OpenPGP File

/-- C14, as stated, fails: with the resetting code `12345678` stored in DO `D3`, RESET RETRY
COUNTER `00 2C 00 81` with the two bytes `99` as data, which do not begin with the
resetting code, does not return `WrongPassword`: the length test comes first and
`APDUResetRetryCounter::Process` returns `WrongAPDUDataLength`. -/
theorem C14_short_data_is_a_length_error :
    storedRC exampleIds exampleRCState = [0x31, 0x32, 0x33, 0x34, 0x35, 0x36, 0x37, 0x38] ∧
    (bstr.ofList [0x39, 0x39]).view.take 8 ≠ storedRC exampleIds exampleRCState ∧
    APDUResetRetryCounter.Check 0x00 0x2C 0x00 0x81 = Error.NoError ∧
    (APDUResetRetryCounter.Process exampleIds 0x00 0x2C 0x00 0x81 (bstr.ofList [0x39, 0x39])
      exampleResult exampleRCState).1 = Error.WrongAPDUDataLength ∧
    (APDUResetRetryCounter.Process exampleIds 0x00 0x2C 0x00 0x81 (bstr.ofList [0x39, 0x39])
      exampleResult exampleRCState).1 ≠ Error.WrongPassword := by
  decide

/-- C14, amended: RESET RETRY COUNTER with `P1 = 00`.  For every data that does not begin
with the resetting code stored in DO `D3`, `APDUResetRetryCounter::Process` returns
`WrongAPDUDataLength` when the length of the data is outside `|RC| + 6 .. |RC| + 32`
and `WrongPassword` otherwise; in both cases it returns the state it was given, so the PW1
file and the PW status bytes are unchanged, and it leaves the output as it was. -/
theorem C14_reset_without_resetting_code (ids : Ids) (cla ins p2 : Nat)
    (data dataOut : bstr) (solo : State)
    (hcheck : APDUResetRetryCounter.Check cla ins 0x00 p2 = Error.NoError)
    (hrc : data.view.take (storedRC ids solo).length ≠ storedRC ids solo) :
    APDUResetRetryCounter.Process ids cla ins 0x00 p2 data dataOut solo =
      (if data.length < (storedRC ids solo).length + 6 ∨
          data.length > (storedRC ids solo).length + 32 then Error.WrongAPDUDataLength
        else Error.WrongPassword, dataOut, solo) ∧
    (APDUResetRetryCounter.Process ids cla ins 0x00 p2 data dataOut solo).1 ≠ Error.NoError ∧
    storedPassword ids
      (APDUResetRetryCounter.Process ids cla ins 0x00 p2 data dataOut solo).2.2 Password.PW1
      = storedPassword ids solo Password.PW1 ∧
    PWStatusBytes.Load ids
      (APDUResetRetryCounter.Process ids cla ins 0x00 p2 data dataOut solo).2.2.filesystem
      = PWStatusBytes.Load ids solo.filesystem := by
  have h := ResetRetryCounter_Process_rc ids cla ins p2 data dataOut solo hcheck
  simp only [PGPConst.PW1MinLength, PGPConst.PW1MaxLength] at h
  by_cases hlen : data.length < (storedRC ids solo).length + 6 ∨
      data.length > (storedRC ids solo).length + 32
  · rw [if_pos hlen] at h
    rw [h, if_pos hlen]
    exact ⟨rfl, by simp, rfl, rfl⟩
  · rw [if_neg hlen, if_pos hrc] at h
    rw [h, if_neg hlen]
    exact ⟨rfl, by simp, rfl, rfl⟩

/-- Witness for the amended C14: with the resetting code `12345678` stored, the 14 bytes
`87654321` followed by `123456` have an accepted length but the wrong code: the result is
`WrongPassword` and the state is unchanged. -/
theorem C14_reset_without_resetting_code_witness :
    APDUResetRetryCounter.Process exampleIds 0x00 0x2C 0x00 0x81
        (bstr.ofList [0x38, 0x37, 0x36, 0x35, 0x34, 0x33, 0x32, 0x31,
          0x31, 0x32, 0x33, 0x34, 0x35, 0x36]) exampleResult exampleRCState
      = (Error.WrongPassword, exampleResult, exampleRCState) := by
  have h := (C14_reset_without_resetting_code exampleIds 0x00 0x2C 0x81
    (bstr.ofList [0x38, 0x37, 0x36, 0x35, 0x34, 0x33, 0x32, 0x31,
      0x31, 0x32, 0x33, 0x34, 0x35, 0x36]) exampleResult exampleRCState
    (by decide) (by decide)).1
  rw [h]
  rfl

/-- C15: RESET RETRY COUNTER with `P1 = 02`.  While PW3 is not authenticated,
`APDUResetRetryCounter::Process` never returns `NoError` and returns the state it was given
(PW1 file and PW status bytes unchanged), for every data.  When PW3 is authenticated and
`6 <= |data| <= 32`, it returns `NoError`, the PW1 file afterwards holds exactly the data and
the remaining-tries counter of PW1 is 3.  When `|data|` is outside `6 .. 32` it returns
`WrongAPDUDataLength` and the state it was given. -/
theorem C15_reset_after_PW3 (ids : Ids) (cla ins p2 : Nat) (data dataOut : bstr) (solo : State)
    (hcheck : APDUResetRetryCounter.Check cla ins 0x02 p2 = Error.NoError) :
    (solo.auth.GetAuth Password.PW3 = false →
      (APDUResetRetryCounter.Process ids cla ins 0x02 p2 data dataOut solo).1 ≠ Error.NoError ∧
      (APDUResetRetryCounter.Process ids cla ins 0x02 p2 data dataOut solo).2.1 = dataOut ∧
      (APDUResetRetryCounter.Process ids cla ins 0x02 p2 data dataOut solo).2.2 = solo) ∧
    (solo.auth.GetAuth Password.PW3 = true → 6 ≤ data.length → data.length ≤ 32 →
      (APDUResetRetryCounter.Process ids cla ins 0x02 p2 data dataOut solo).1 = Error.NoError ∧
      storedPassword ids
        (APDUResetRetryCounter.Process ids cla ins 0x02 p2 data dataOut solo).2.2 Password.PW1
        = data.view ∧
      (PWStatusBytes.Load ids
        (APDUResetRetryCounter.Process ids cla ins 0x02 p2 data dataOut solo).2.2.filesystem
        ).PasswdTryRemains Password.PW1 = 3) ∧
    (data.length < 6 ∨ 32 < data.length →
      APDUResetRetryCounter.Process ids cla ins 0x02 p2 data dataOut solo
        = (Error.WrongAPDUDataLength, dataOut, solo)) := by
  have h := ResetRetryCounter_Process_pw3 ids cla ins p2 data dataOut solo hcheck
  simp only [PGPConst.PW1MinLength, PGPConst.PW1MaxLength] at h
  refine ⟨?_, ?_, ?_⟩
  · intro hauth
    by_cases hlen : data.length < 6 ∨ data.length > 32
    · rw [if_pos hlen] at h
      rw [h]
      exact ⟨by simp, rfl, rfl⟩
    · rw [if_neg hlen, if_pos hauth] at h
      rw [h]
      exact ⟨by simp, rfl, rfl⟩
  · intro hauth h6 h32
    rw [if_neg (by omega), if_neg (by simp [hauth])] at h
    obtain ⟨st, hs, _, hpw, hcnt⟩ := ResetRetryCounter_store ids
      ((bstr.mk3 (List.replicate (bstr.MAX 32 PGPConst.RCMaxLength) 0) 0 32).appendView data)
      dataOut solo
    rw [h, hs]
    refine ⟨rfl, ?_, hcnt⟩
    rw [hpw, bstr.view_appendView, bstr.view_mk3_zero, List.nil_append]
  · intro hlen
    rw [if_pos (by omega)] at h
    exact h

/-- Witness for C15: with PW3 verified on the example card, RESET RETRY COUNTER
`00 2C 02 81` with the data `654321` returns `NoError` and PW1 is `654321` afterwards. -/
theorem C15_reset_after_PW3_witness :
    APDUResetRetryCounter.Check 0x00 0x2C 0x02 0x81 = Error.NoError ∧
    (APDUResetRetryCounter.Process exampleIds 0x00 0x2C 0x02 0x81
      (bstr.ofList [0x36, 0x35, 0x34, 0x33, 0x32, 0x31]) exampleResult exampleAdminState).1
      = Error.NoError ∧
    storedPassword exampleIds
      (APDUResetRetryCounter.Process exampleIds 0x00 0x2C 0x02 0x81
        (bstr.ofList [0x36, 0x35, 0x34, 0x33, 0x32, 0x31]) exampleResult exampleAdminState).2.2
      Password.PW1 = (bstr.ofList [0x36, 0x35, 0x34, 0x33, 0x32, 0x31]).view := by
  have h := (C15_reset_after_PW3 exampleIds 0x00 0x2C 0x81
    (bstr.ofList [0x36, 0x35, 0x34, 0x33, 0x32, 0x31]) exampleResult exampleAdminState
    (by decide)).2.1 (by decide) (by decide) (by decide)
  exact ⟨by decide, h.1, h.2.1⟩

end Spec

/-! ## The claims about GET DATA and PUT DATA -/

namespace OpenPGP

open Util File

/-- GET DATA once `Check` and the read access check have passed: the bytes of the object are
left in the output, whatever `ReadFile` returned. -/
theorem GetData_Process_read (security : APDUSecurityCheck) (ids : Ids) (cla ins p1 p2 : Nat)
    (data dataOut : bstr) (solo : State)
    (hcheck : APDUGetData.Check cla ins p1 p2 = Error.NoError)
    (hread : security.DataObjectAccessCheck solo.auth (objectId p1 p2) false = Error.NoError) :
    APDUGetData.Process security ids cla ins p1 p2 data dataOut solo =
      (Error.NoError,
        dataOut.set (solo.filesystem.content (ids.OpenPGP, objectId p1 p2, FileType.File)),
        solo) := by
  simp [APDUGetData.Process, hcheck, hread, FileSystem.ReadFile]

theorem GetData_Process_state (security : APDUSecurityCheck) (ids : Ids) (cla ins p1 p2 : Nat)
    (data dataOut : bstr) (solo : State) :
    (APDUGetData.Process security ids cla ins p1 p2 data dataOut solo).2.2 = solo := by
  unfold APDUGetData.Process
  simp only
  split
  · rfl
  · split <;> rfl

theorem content_of_find_none (fs : FileSystem) (k : Key)
    (h : fs.files.find? (fun e => e.1 = k) = none) : fs.content k = [] := by
  simp [FileSystem.content, h]

end OpenPGP

namespace Spec

open Util Applet OpenPGP File

/-- C17: GET DATA is read-only and idempotent.  For every header and state,
`APDUGetData::Process` returns the state it was given (file system, authentication flags and
PW status bytes unchanged), so a second GET DATA on the same `(P1, P2)` from the same output
buffer returns the same error and the same output.  Whenever `Check` and the read access
check pass it returns `NoError` and the output shows the bytes of the object; for an object
that is missing from the file system that is still `NoError`, with an empty output: what
`ReadFile` returns is not looked at. -/
theorem C17_get_data_read_only (security : APDUSecurityCheck) (ids : Ids) (cla ins p1 p2 : Nat)
    (data dataOut : bstr) (solo : State) :
    (APDUGetData.Process security ids cla ins p1 p2 data dataOut solo).2.2 = solo ∧
    APDUGetData.Process security ids cla ins p1 p2 data dataOut
        (APDUGetData.Process security ids cla ins p1 p2 data dataOut solo).2.2
      = APDUGetData.Process security ids cla ins p1 p2 data dataOut solo ∧
    (APDUGetData.Check cla ins p1 p2 = Error.NoError →
      security.DataObjectAccessCheck solo.auth (objectId p1 p2) false = Error.NoError →
      (APDUGetData.Process security ids cla ins p1 p2 data dataOut solo).1 = Error.NoError ∧
      (APDUGetData.Process security ids cla ins p1 p2 data dataOut solo).2.1.view
        = solo.filesystem.content (ids.OpenPGP, objectId p1 p2, FileType.File) ∧
      (solo.filesystem.files.find? (fun e => e.1 = (ids.OpenPGP, objectId p1 p2, FileType.File))
          = none →
        (APDUGetData.Process security ids cla ins p1 p2 data dataOut solo).2.1.view = [])) := by
  refine ⟨GetData_Process_state security ids cla ins p1 p2 data dataOut solo, ?_, ?_⟩
  · rw [GetData_Process_state security ids cla ins p1 p2 data dataOut solo]
  · intro hcheck hread
    rw [GetData_Process_read security ids cla ins p1 p2 data dataOut solo hcheck hread]
    refine ⟨rfl, bstr.view_set _ _, fun hnone => ?_⟩
    simp only
    rw [bstr.view_set, content_of_find_none _ _ hnone]

end Spec

/-! ## The claims about PSO:CDS -/

namespace OpenPGP

open Util File

/-- PSO with `P1 P2 = 9E 9A` while the flag PSOCDS is not set. -/
theorem PSO_Process_denied {κ : Type} (bits : Nat) (attrs : AlgoritmAttrs)
    (crypto_e : Crypto.CryptoEngine κ) (security : DSCounter) (ids : Ids) (cla ins : Nat)
    (data : bstr) (le : Nat) (dataOut : bstr) (solo : State) (k : κ)
    (hcheck : APDUPSO.Check cla ins 0x9e 0x9a = Error.NoError)
    (hauth : solo.auth.GetAuth Password.PSOCDS = false) :
    APDUPSO.Process bits attrs crypto_e security ids cla ins 0x9e 0x9a data le dataOut solo k
      = some (Error.AccessDenied, dataOut, solo, k) := by
  simp [APDUPSO.Process, APDUPSO.cds, hcheck, hauth]

/-- PSO with `P1 P2 = 9E 9A` once the flag, the attributes and `Check` have passed: the
signature, the flag, the counter, and then the two tests of the errors. -/
theorem PSO_Process_cds {κ : Type} (bits : Nat) (attrs : AlgoritmAttrs)
    (crypto_e : Crypto.CryptoEngine κ) (security : DSCounter) (ids : Ids) (cla ins : Nat)
    (data : bstr) (le : Nat) (dataOut : bstr) (solo : State) (k : κ) (alg : AlgoritmAttr)
    (sign : Error × bstr × κ)
    (hcheck : APDUPSO.Check cla ins 0x9e 0x9a = Error.NoError)
    (hauth : solo.auth.GetAuth Password.PSOCDS = true)
    (hload : attrs.Load solo.filesystem 0xc1 = (Error.NoError, alg))
    (halg : alg.AlgorithmID ≠ 0)
    (hsign : sign = if alg.AlgorithmID = attrs.RSA then
        crypto_e.RSASign k ids.OpenPGP OpenPGPKeyType.DigitalSignature data dataOut
      else crypto_e.ECDSASign k ids.OpenPGP OpenPGPKeyType.DigitalSignature data dataOut) :
    APDUPSO.Process bits attrs crypto_e security ids cla ins 0x9e 0x9a data le dataOut solo k =
      some (if (security.IncDSCounter solo.filesystem).1 ≠ Error.NoError then
          (security.IncDSCounter solo.filesystem).1
        else sign.1,
        sign.2.1,
        { filesystem := (security.IncDSCounter solo.filesystem).2,
          auth :=
            if (PWStatusBytes.Load ids solo.filesystem).PW1ValidSeveralCDS = false then
              solo.auth.ClearAuth Password.PSOCDS
            else solo.auth },
        sign.2.2) := by
  simp only [APDUPSO.Process, APDUPSO.cds, hcheck, hauth, hload, halg, ← hsign, ne_eq,
    not_true_eq_false, if_false, and_self, if_true, or_self, Bool.not_eq_true]
  by_cases hc : (security.IncDSCounter solo.filesystem).1 = Error.NoError
  · by_cases he : sign.1 = Error.NoError
    · simp [hc, he]
    · simp [hc, he]
  · simp [hc]

end OpenPGP

namespace Spec

open Util Applet OpenPGP File

/-- C18: the state effect of PSO:CDS.  For every PSO request with `P1 P2 = 9E 9A` where the
flag PSOCDS is set and the attributes of DO `C1` load with `AlgorithmID != 0`, `sign` being
what `RSASign` (for RSA) or `ECDSASign` (otherwise) returns on the data: `APDUPSO::Process`
returns, with a result `r`; the file system of `r` is the result of one `IncDSCounter` on the
file system before the call, whether or not `sign` succeeded; the flags afterwards are the
flags before with PSOCDS cleared if and only if `PW1ValidSeveralCDS` is false; the output and
the facade are those of `sign`; and when the counter update succeeds `Process` returns the
error of `sign`, `NoError` on success.  This holds for every width `bits` of `size_t`. -/
theorem C18_pso_cds_effect {κ : Type} (bits : Nat) (attrs : AlgoritmAttrs)
    (crypto_e : Crypto.CryptoEngine κ) (security : DSCounter) (ids : Ids) (cla ins : Nat)
    (data : bstr) (le : Nat) (dataOut : bstr) (solo : State) (k : κ) (alg : AlgoritmAttr)
    (hcheck : APDUPSO.Check cla ins 0x9e 0x9a = Error.NoError)
    (hauth : solo.auth.GetAuth Password.PSOCDS = true)
    (hload : attrs.Load solo.filesystem 0xc1 = (Error.NoError, alg))
    (halg : alg.AlgorithmID ≠ 0) :
    ∃ (sign : Error × bstr × κ) (r : Error × bstr × State × κ),
      sign = (if alg.AlgorithmID = attrs.RSA then
          crypto_e.RSASign k ids.OpenPGP OpenPGPKeyType.DigitalSignature data dataOut
        else crypto_e.ECDSASign k ids.OpenPGP OpenPGPKeyType.DigitalSignature data dataOut) ∧
      APDUPSO.Process bits attrs crypto_e security ids cla ins 0x9e 0x9a data le dataOut solo k
        = some r ∧
      r.2.2.1.filesystem = (security.IncDSCounter solo.filesystem).2 ∧
      r.2.2.1.auth =
          (if (PWStatusBytes.Load ids solo.filesystem).PW1ValidSeveralCDS = false then
            solo.auth.ClearAuth Password.PSOCDS
          else solo.auth) ∧
      (r.2.2.1.auth.GetAuth Password.PSOCDS = false ↔
        (PWStatusBytes.Load ids solo.filesystem).PW1ValidSeveralCDS = false) ∧
      r.2.1 = sign.2.1 ∧
      r.2.2.2 = sign.2.2 ∧
      ((security.IncDSCounter solo.filesystem).1 = Error.NoError → r.1 = sign.1) ∧
      ((security.IncDSCounter solo.filesystem).1 ≠ Error.NoError →
        r.1 = (security.IncDSCounter solo.filesystem).1) := by
  refine ⟨_, _, rfl, PSO_Process_cds bits attrs crypto_e security ids cla ins data le dataOut
    solo k alg _ hcheck hauth hload halg rfl, rfl, rfl, ?_, rfl, rfl, ?_, ?_⟩
  · cases hs : (PWStatusBytes.Load ids solo.filesystem).PW1ValidSeveralCDS
    · simp [Security.GetAuth, Security.ClearAuth]
    · simp [hauth]
  · intro hc
    simp [hc]
  · intro hc
    simp [hc]

/-- Witness for C18: on the example signing state (PSOCDS set, RSA attributes in DO `C1`,
`PW1ValidSeveralCDS` false, DS counter 7) with a facade that holds no signature key, the
signature fails with `CryptoOperationError`; `Process` returns that error, the DS counter is
8 and PSOCDS is cleared. -/
theorem C18_pso_cds_effect_witness :
    ∃ r : Error × bstr × State × Facade,
      APDUPSO.Process 32 exampleAttrs exampleCryptoEngine exampleDSCounter exampleIds 0x00 0x2A
        0x9e 0x9a (bstr.ofList [0x01, 0x02, 0x03]) 0 exampleResult.clear exampleSigningState
        exampleEmptyFacade = some r ∧
      r.1 = Error.CryptoOperationError ∧
      r.2.2.1.filesystem.content (1, 0x93, FileType.File) = [0, 0, 8] ∧
      r.2.2.1.auth.GetAuth Password.PSOCDS = false := by
  obtain ⟨sign, r, hs, hr, hfs, _, hflag, _, _, herr, _⟩ := C18_pso_cds_effect 32 exampleAttrs
    exampleCryptoEngine exampleDSCounter exampleIds 0x00 0x2A (bstr.ofList [0x01, 0x02, 0x03]) 0
    exampleResult.clear exampleSigningState exampleEmptyFacade ⟨1, 2048⟩
    (by decide) (by decide) (by decide) (by decide)
  refine ⟨r, hr, ?_, ?_, hflag.mpr (by decide)⟩
  · rw [herr (by decide), hs]
    decide
  · rw [hfs]
    decide

/-- C19: PSO:CDS without authorisation.  For every PSO request with `P1 P2 = 9E 9A` while
the flag PSOCDS is not set, `APDUPSO::Process` returns `AccessDenied` and hands back the
output buffer, the state (file system with the DS counter, authentication flags) and the
crypto facade exactly as it received them; a crypto engine that records its calls has
recorded none, so neither `RSASign` nor `ECDSASign` is invoked.  This holds for every width
`bits` of `size_t`. -/
theorem C19_pso_cds_denied {κ : Type} (bits : Nat) (attrs : AlgoritmAttrs)
    (crypto_e : Crypto.CryptoEngine κ) (security : DSCounter) (ids : Ids) (cla ins : Nat)
    (data : bstr) (le : Nat) (dataOut : bstr) (solo : State) (k : κ)
    (log : List Crypto.EngineCall)
    (hcheck : APDUPSO.Check cla ins 0x9e 0x9a = Error.NoError)
    (hauth : solo.auth.GetAuth Password.PSOCDS = false) :
    APDUPSO.Process bits attrs crypto_e security ids cla ins 0x9e 0x9a data le dataOut solo k
      = some (Error.AccessDenied, dataOut, solo, k) ∧
    APDUPSO.Process bits attrs crypto_e.recording security ids cla ins 0x9e 0x9a data le
        dataOut solo (k, log)
      = some (Error.AccessDenied, dataOut, solo, (k, log)) :=
  ⟨PSO_Process_denied bits attrs crypto_e security ids cla ins data le dataOut solo k hcheck
      hauth,
    PSO_Process_denied bits attrs crypto_e.recording security ids cla ins data le dataOut solo
      (k, log) hcheck hauth⟩

/-- Witness for C19: on the example state with nothing authenticated, PSO:CDS leaves the
facade that holds a signature key without any call. -/
theorem C19_pso_cds_denied_witness :
    APDUPSO.Check 0x00 0x2A 0x9e 0x9a = Error.NoError ∧
    exampleKeyState.auth.GetAuth Password.PSOCDS = false ∧
    APDUPSO.Process 32 exampleAttrs exampleCryptoEngine exampleDSCounter exampleIds 0x00 0x2A
        0x9e 0x9a (bstr.ofList [0x01, 0x02, 0x03]) 0 exampleResult exampleKeyState
        exampleFacade
      = some (Error.AccessDenied, exampleResult, exampleKeyState, exampleFacade) :=
  ⟨by decide, by decide,
    (C19_pso_cds_denied 32 exampleAttrs exampleCryptoEngine exampleDSCounter exampleIds 0x00
      0x2A (bstr.ofList [0x01, 0x02, 0x03]) 0 exampleResult exampleKeyState exampleFacade []
      (by decide) (by decide)).1⟩

end Spec

/-! ## The claims about GENERATE ASYMMETRIC KEY PAIR -/

namespace OpenPGP

open Util File

/-- The authentication flags have no part in `APDUGenerateAsymmetricKeyPair::Process`: the
error, the output and the facade are the same from two states with the same file system. -/
theorem GenerateAsymmetricKeyPair_auth {κ ρ ε : Type} (attrs : AlgoritmAttrs)
    (cryptolib : Crypto.KeyGenerator κ ρ ε) (key_storage : Crypto.KeyStorage κ ρ ε)
    (ids : Ids) (cla ins p1 p2 : Nat) (data : bstr) (le : Nat) (dataOut : bstr)
    (fs : FileSystem) (a1 a2 : Security) (k : κ) :
    (APDUGenerateAsymmetricKeyPair.Process attrs cryptolib key_storage ids cla ins p1 p2 data le
        dataOut { filesystem := fs, auth := a1 } k).1
      = (APDUGenerateAsymmetricKeyPair.Process attrs cryptolib key_storage ids cla ins p1 p2 data
        le dataOut { filesystem := fs, auth := a2 } k).1 ∧
    (APDUGenerateAsymmetricKeyPair.Process attrs cryptolib key_storage ids cla ins p1 p2 data le
        dataOut { filesystem := fs, auth := a1 } k).2.1
      = (APDUGenerateAsymmetricKeyPair.Process attrs cryptolib key_storage ids cla ins p1 p2 data
        le dataOut { filesystem := fs, auth := a2 } k).2.1 ∧
    (APDUGenerateAsymmetricKeyPair.Process attrs cryptolib key_storage ids cla ins p1 p2 data le
        dataOut { filesystem := fs, auth := a1 } k).2.2.2
      = (APDUGenerateAsymmetricKeyPair.Process attrs cryptolib key_storage ids cla ins p1 p2 data
        le dataOut { filesystem := fs, auth := a2 } k).2.2.2 := by
  rcases hL : attrs.Load fs
    (APDUGenerateAsymmetricKeyPair.fileId (APDUGenerateAsymmetricKeyPair.keyType data))
    with ⟨err, alg⟩
  rcases hG : cryptolib.RSAGenKey k alg.NLen with ⟨e1, rk, k1⟩
  rcases hH : cryptolib.ECDSAGenKey k with ⟨e2, ek, k2⟩
  rcases hP : key_storage.PutRSAFullKey k1 ids.OpenPGP
    (APDUGenerateAsymmetricKeyPair.keyType data) rk with ⟨e3, k3⟩
  rcases hQ : key_storage.PutECDSAFullKey k2 ids.OpenPGP
    (APDUGenerateAsymmetricKeyPair.keyType data) ek with ⟨e4, k4⟩
  rcases hR : key_storage.GetPublicKey7F49 k3 ids.OpenPGP
    (APDUGenerateAsymmetricKeyPair.keyType data) alg.AlgorithmID dataOut.clear with ⟨e5, o5, k5⟩
  rcases hS : key_storage.GetPublicKey7F49 k4 ids.OpenPGP
    (APDUGenerateAsymmetricKeyPair.keyType data) alg.AlgorithmID dataOut.clear with ⟨e6, o6, k6⟩
  rcases hT : key_storage.GetPublicKey7F49 k ids.OpenPGP
    (APDUGenerateAsymmetricKeyPair.keyType data) alg.AlgorithmID dataOut.clear with ⟨e7, o7, k7⟩
  simp only [APDUGenerateAsymmetricKeyPair.Process, hL, hG, hH, hP, hQ, hR, hS, hT]
  simp only [apply_ite Prod.snd, apply_ite Prod.fst, and_self]

/-- Generation of an RSA key by `APDUGenerateAsymmetricKeyPair::Process` when every step
succeeds, from any authentication flags. -/
theorem GenerateAsymmetricKeyPair_RSA {κ ρ ε : Type} (attrs : AlgoritmAttrs)
    (cryptolib : Crypto.KeyGenerator κ ρ ε) (key_storage : Crypto.KeyStorage κ ρ ε)
    (ids : Ids) (cla ins p2 : Nat) (data : bstr) (le : Nat) (dataOut out : bstr)
    (solo : State) (k k1 k2 k3 : κ) (alg : AlgoritmAttr) (key : ρ)
    (hcheck : APDUGenerateAsymmetricKeyPair.Check cla ins 0x80 p2 = Error.NoError)
    (hlen : data.length = 2)
    (hfile : APDUGenerateAsymmetricKeyPair.fileId (APDUGenerateAsymmetricKeyPair.keyType data)
      ≠ 0)
    (hload : attrs.Load solo.filesystem
      (APDUGenerateAsymmetricKeyPair.fileId (APDUGenerateAsymmetricKeyPair.keyType data))
      = (Error.NoError, alg))
    (hrsa : alg.AlgorithmID = attrs.RSA) (halg : alg.AlgorithmID ≠ 0)
    (hgen : cryptolib.RSAGenKey k alg.NLen = (Error.NoError, key, k1))
    (hput : key_storage.PutRSAFullKey k1 ids.OpenPGP
      (APDUGenerateAsymmetricKeyPair.keyType data) key = (Error.NoError, k2))
    (hpub : key_storage.GetPublicKey7F49 k2 ids.OpenPGP
      (APDUGenerateAsymmetricKeyPair.keyType data) alg.AlgorithmID dataOut.clear
      = (Error.NoError, out, k3)) :
    APDUGenerateAsymmetricKeyPair.Process attrs cryptolib key_storage ids cla ins 0x80 p2 data le
      dataOut solo k = (Error.NoError, out, solo, k3) := by
  simp only [APDUGenerateAsymmetricKeyPair.Process, hcheck, hlen, hfile, hload, hgen, hput,
    hpub, ne_eq, not_true_eq_false, if_false, halg, or_self, if_true, ← hrsa]

end OpenPGP

namespace Spec

open Util Applet OpenPGP File

/-- C20, as stated, fails: on the example state, where PW3 is not authenticated, the request
`00 47 80 00` with the data `B6 00` makes `APDUGenerateAsymmetricKeyPair::Process` call
`RSAGenKey`, `PutRSAFullKey` and `GetPublicKey7F49` and return `NoError`; a key for the
signature key type is stored afterwards. -/
theorem C20_key_generated_without_PW3 :
    exampleKeyState.auth.GetAuth Password.PW3 = false ∧
    (APDUGenerateAsymmetricKeyPair.Process exampleAttrs exampleKeyGenerator exampleKeyStorage
      exampleIds 0x00 0x47 0x80 0x00 (bstr.ofList [0xb6, 0x00]) 0 exampleResult exampleKeyState
      exampleEmptyFacade).1 = Error.NoError ∧
    (APDUGenerateAsymmetricKeyPair.Process exampleAttrs exampleKeyGenerator exampleKeyStorage
      exampleIds 0x00 0x47 0x80 0x00 (bstr.ofList [0xb6, 0x00]) 0 exampleResult exampleKeyState
      exampleEmptyFacade).2.2.2.calls
      = [FacadeCall.RSAGenKey 2048, FacadeCall.PutRSAFullKey 0xb6,
          FacadeCall.GetPublicKey7F49 0xb6] ∧
    exampleEmptyFacade.key 0xb6 = none ∧
    (APDUGenerateAsymmetricKeyPair.Process exampleAttrs exampleKeyGenerator exampleKeyStorage
      exampleIds 0x00 0x47 0x80 0x00 (bstr.ofList [0xb6, 0x00]) 0 exampleResult exampleKeyState
      exampleEmptyFacade).2.2.2.key 0xb6 = some [0x52, 0x08, 0x00] := by
  decide

/-- C20, amended: `APDUGenerateAsymmetricKeyPair::Process` does not consult the
authentication flags.  From two states that differ only in the flags it returns the same
error, the same output and the same facade, and it hands the state back unchanged.  So also
while PW3 is not authenticated: a request with `P1 = 80` and 2-byte data that names a key
type whose attributes load as RSA has a key generated by `RSAGenKey`, stores it with
`PutRSAFullKey` and returns `NoError` with the output of `GetPublicKey7F49`, whenever those
three operations succeed.  A PW3 requirement is not enforced inside `Process`. -/
theorem C20_generate_ignores_flags {κ ρ ε : Type} (attrs : AlgoritmAttrs)
    (cryptolib : Crypto.KeyGenerator κ ρ ε) (key_storage : Crypto.KeyStorage κ ρ ε)
    (ids : Ids) (cla ins p1 p2 : Nat) (data : bstr) (le : Nat) (dataOut : bstr)
    (fs : FileSystem) (a1 a2 : Security) (k : κ) :
    ((APDUGenerateAsymmetricKeyPair.Process attrs cryptolib key_storage ids cla ins p1 p2 data le
        dataOut { filesystem := fs, auth := a1 } k).1
      = (APDUGenerateAsymmetricKeyPair.Process attrs cryptolib key_storage ids cla ins p1 p2 data
        le dataOut { filesystem := fs, auth := a2 } k).1 ∧
    (APDUGenerateAsymmetricKeyPair.Process attrs cryptolib key_storage ids cla ins p1 p2 data le
        dataOut { filesystem := fs, auth := a1 } k).2.1
      = (APDUGenerateAsymmetricKeyPair.Process attrs cryptolib key_storage ids cla ins p1 p2 data
        le dataOut { filesystem := fs, auth := a2 } k).2.1 ∧
    (APDUGenerateAsymmetricKeyPair.Process attrs cryptolib key_storage ids cla ins p1 p2 data le
        dataOut { filesystem := fs, auth := a1 } k).2.2.2
      = (APDUGenerateAsymmetricKeyPair.Process attrs cryptolib key_storage ids cla ins p1 p2 data
        le dataOut { filesystem := fs, auth := a2 } k).2.2.2) ∧
    (∀ (alg : AlgoritmAttr) (key : ρ) (k1 k2 k3 : κ) (out : bstr),
      a1.GetAuth Password.PW3 = false →
      APDUGenerateAsymmetricKeyPair.Check cla ins 0x80 p2 = Error.NoError →
      data.length = 2 →
      APDUGenerateAsymmetricKeyPair.fileId (APDUGenerateAsymmetricKeyPair.keyType data) ≠ 0 →
      attrs.Load fs
        (APDUGenerateAsymmetricKeyPair.fileId (APDUGenerateAsymmetricKeyPair.keyType data))
        = (Error.NoError, alg) →
      alg.AlgorithmID = attrs.RSA → alg.AlgorithmID ≠ 0 →
      cryptolib.RSAGenKey k alg.NLen = (Error.NoError, key, k1) →
      key_storage.PutRSAFullKey k1 ids.OpenPGP (APDUGenerateAsymmetricKeyPair.keyType data) key
        = (Error.NoError, k2) →
      key_storage.GetPublicKey7F49 k2 ids.OpenPGP (APDUGenerateAsymmetricKeyPair.keyType data)
        alg.AlgorithmID dataOut.clear = (Error.NoError, out, k3) →
      APDUGenerateAsymmetricKeyPair.Process attrs cryptolib key_storage ids cla ins 0x80 p2 data
        le dataOut { filesystem := fs, auth := a1 } k
        = (Error.NoError, out, { filesystem := fs, auth := a1 }, k3)) := by
  refine ⟨GenerateAsymmetricKeyPair_auth attrs cryptolib key_storage ids cla ins p1 p2 data le
    dataOut fs a1 a2 k, ?_⟩
  intro alg key k1 k2 k3 out _ hcheck hlen hfile hload hrsa halg hgen hput hpub
  exact GenerateAsymmetricKeyPair_RSA attrs cryptolib key_storage ids cla ins p2 data le dataOut
    out { filesystem := fs, auth := a1 } k k1 k2 k3 alg key hcheck hlen hfile hload hrsa halg
    hgen hput hpub

/-- Witness for the amended C20: on the example state, with no flag set, the request
`00 47 80 00` with the data `B6 00` returns `NoError` and the output is the public key
template `7F 49 52 08 00`. -/
theorem C20_generate_ignores_flags_witness :
    ∃ k3 : Facade,
      APDUGenerateAsymmetricKeyPair.Process exampleAttrs exampleKeyGenerator exampleKeyStorage
        exampleIds 0x00 0x47 0x80 0x00 (bstr.ofList [0xb6, 0x00]) 0 exampleResult
        { filesystem := exampleKeyState.filesystem, auth := ⟨false, false, false, false⟩ }
        exampleEmptyFacade
      = (Error.NoError, exampleResult.clear.set [0x7F, 0x49, 0x52, 0x08, 0x00],
          { filesystem := exampleKeyState.filesystem, auth := ⟨false, false, false, false⟩ },
          k3) :=
  ⟨_, (C20_generate_ignores_flags exampleAttrs exampleKeyGenerator exampleKeyStorage exampleIds
    0x00 0x47 0x80 0x00 (bstr.ofList [0xb6, 0x00]) 0 exampleResult exampleKeyState.filesystem
    ⟨false, false, false, false⟩ ⟨true, true, true, true⟩ exampleEmptyFacade).2
    ⟨1, 2048⟩ [0x52, 0x08, 0x00]
    (exampleEmptyFacade.called (FacadeCall.RSAGenKey 2048))
    { keys := [(0xb6, [0x52, 0x08, 0x00])],
      calls := [FacadeCall.RSAGenKey 2048, FacadeCall.PutRSAFullKey 0xb6] }
    { keys := [(0xb6, [0x52, 0x08, 0x00])],
      calls := [FacadeCall.RSAGenKey 2048, FacadeCall.PutRSAFullKey 0xb6,
        FacadeCall.GetPublicKey7F49 0xb6] }
    (exampleResult.clear.set [0x7F, 0x49, 0x52, 0x08, 0x00])
    (by decide) (by decide) (by decide) (by decide) (by decide) (by decide) (by decide)
    (by decide) (by decide) (by decide)⟩

end Spec

/-! ## The claims about GET CHALLENGE, key import and PSO:DECIPHER -/

namespace Spec

open Util Applet OpenPGP File

/-- C22, at the failing input: the GET CHALLENGE header `00 84 00 01`, with `P2 = 0x01`, is
accepted: `APDUGetChallenge::Check` returns `NoError` where the claim asks for
`WrongAPDUP1P2`, and so does `00 84 01 00`.  With `INS = 0x84` and `CLA = 0x00` the check
returns `NoError` exactly when `P1` or `P2` is zero, and `WrongAPDUP1P2` only when both are
non-zero.  `APDUInternalAuthenticate::Check`, the next function of the same file, rejects
the pair `(0x00, 0x01)` and accepts only `P1 = P2 = 0x00`. -/
theorem C22_get_challenge_accepts_nonzero_p2 :
    APDUGetChallenge.Check 0x00 0x84 0x00 0x01 = Error.NoError ∧
    APDUGetChallenge.Check 0x00 0x84 0x01 0x00 = Error.NoError ∧
    (∀ p1 p2 : Nat,
      APDUGetChallenge.Check 0x00 0x84 p1 p2 = Error.NoError ↔ (p1 = 0x00 ∨ p2 = 0x00)) ∧
    (∀ p1 p2 : Nat,
      APDUGetChallenge.Check 0x00 0x84 p1 p2 = Error.WrongAPDUP1P2 ↔ (p1 ≠ 0x00 ∧ p2 ≠ 0x00)) ∧
    APDUInternalAuthenticate.Check 0x00 0x88 0x00 0x01 = Error.WrongAPDUP1P2 ∧
    (∀ p1 p2 : Nat,
      APDUInternalAuthenticate.Check 0x00 0x88 p1 p2 = Error.NoError ↔
        (p1 = 0x00 ∧ p2 = 0x00)) := by
  refine ⟨by decide, by decide, ?_, ?_, by decide, ?_⟩
  · intro p1 p2
    simp only [APDUGetChallenge.Check, APDUcommands.GetChallenge, ne_eq, not_true_eq_false,
      if_false]
    by_cases h1 : p1 = 0 <;> by_cases h2 : p2 = 0 <;> simp [h1, h2]
  · intro p1 p2
    simp only [APDUGetChallenge.Check, APDUcommands.GetChallenge, ne_eq, not_true_eq_false,
      if_false]
    by_cases h1 : p1 = 0 <;> by_cases h2 : p2 = 0 <;> simp [h1, h2]
  · intro p1 p2
    simp only [APDUInternalAuthenticate.Check, APDUcommands.Internalauthenticate, ne_eq,
      not_true_eq_false, if_false]
    by_cases h1 : p1 = 0 <;> by_cases h2 : p2 = 0 <;> simp [h1, h2]

/-- C26: key import is independent of the authentication state.  For every PUT DATA request
with `INS = 0xDB`, `P1P2 = 0x3FFF` and `CLA` one of `0x00`, `0x0C`, `0x10`,
`APDUPutData::Process` returns `NoError` with the output cleared and the state as it was,
whatever `SetKeyExtHeader` returns; the facade is the one `SetKeyExtHeader` leaves when it is
called with the data and the more-chunks flag, which is true exactly when `CLA = 0x10`.  The
access policy does not occur in the result, so `DataObjectAccessCheck` has no part in it: the
same holds for any other policy and any other auth flags, with the same call. -/
theorem C26_key_import_ignores_auth {κ ρ ε : Type} (security security2 : APDUSecurityCheck)
    (key_storage : Crypto.KeyStorage κ ρ ε) (ids : Ids) (cla : Nat) (data dataOut : bstr)
    (fs : FileSystem) (a1 a2 : Security) (k : κ)
    (hcla : cla = 0x00 ∨ cla = 0x0c ∨ cla = 0x10) :
    APDUPutData.Process security key_storage ids cla 0xDB 0x3f 0xff data dataOut
        { filesystem := fs, auth := a1 } k
      = (Error.NoError, dataOut.clear, { filesystem := fs, auth := a1 },
          (key_storage.SetKeyExtHeader k ids.OpenPGP data (decide (cla = 0x10))).2) ∧
    APDUPutData.Process security2 key_storage ids cla 0xDB 0x3f 0xff data dataOut
        { filesystem := fs, auth := a2 } k
      = (Error.NoError, dataOut.clear, { filesystem := fs, auth := a2 },
          (key_storage.SetKeyExtHeader k ids.OpenPGP data (decide (cla = 0x10))).2) := by
  have key : ∀ (sec : APDUSecurityCheck) (a : Security),
      APDUPutData.Process sec key_storage ids cla 0xDB 0x3f 0xff data dataOut
        { filesystem := fs, auth := a } k
      = (Error.NoError, dataOut.clear, { filesystem := fs, auth := a },
          (key_storage.SetKeyExtHeader k ids.OpenPGP data (decide (cla = 0x10))).2) := by
    intro sec a
    have hb : ((12 : Nat) &&& 16) = 0 := by decide
    rcases hcla with h | h | h <;> subst h <;>
      simp [APDUPutData.Process, APDUPutData.Check, APDUcommands.PutData,
        APDUcommands.PutData2, hb]
  exact ⟨key security a1, key security2 a2⟩

/-- Witness for C26: on the example card with nothing authenticated, under a policy that lets
nobody write without PW3, the request `10 DB 3F FF` with the data `01 02 03` returns
`NoError`, and the example key storage has received `SetKeyExtHeader` with these bytes and
the more-chunks flag set. -/
theorem C26_key_import_ignores_auth_witness :
    APDUPutData.Process exampleSecurity exampleKeyStorage exampleIds 0x10 0xDB 0x3f 0xff
        (bstr.ofList [0x01, 0x02, 0x03]) exampleResult
        { filesystem := exampleCard.solo.filesystem, auth := ⟨false, false, false, false⟩ }
        exampleEmptyFacade
      = (Error.NoError, exampleResult.clear,
          { filesystem := exampleCard.solo.filesystem, auth := ⟨false, false, false, false⟩ },
          { keys := [], calls := [FacadeCall.SetKeyExtHeader [0x01, 0x02, 0x03] true] }) :=
  (C26_key_import_ignores_auth exampleSecurity exampleSecurity exampleKeyStorage exampleIds 0x10
    (bstr.ofList [0x01, 0x02, 0x03]) exampleResult exampleCard.solo.filesystem
    ⟨false, false, false, false⟩ ⟨true, true, true, true⟩ exampleEmptyFacade
    (by decide)).1

/-- C27, at the failing input: the PSO:DECIPHER request `00 2A 80 86` with `LC = 0` and one
`LE` byte, on a card with PW1 verified and RSA attributes in DO `C2`.  The command data is
empty, and `APDUPSO::Process` still reads `data[0]`: it finds the `LE` byte that follows the
data in the APDU.  With `LE = 02` it returns `CryptoOperationError`, with `LE = 00` it
evaluates `data.substr(1, data.length() - 1)`: the length is `0 - 1` on `size_t`, the largest
value of the type, the position 1 lies past the end of the empty view, `substr` throws, and
`Process` does not return.  The two requests carry the same empty command data.  In general,
for every crypto engine, empty data with a zero byte behind it makes `Process` leave by the
exception once the PW1 check and the load of RSA attributes have passed. -/
theorem C27_decipher_indexes_empty_data :
    (exampleEmptyData [0x00, 0x2A, 0x80, 0x86, 0x00, 0x00]).length = 0 ∧
    (exampleEmptyData [0x00, 0x2A, 0x80, 0x86, 0x00, 0x00]).view = [] ∧
    (exampleEmptyData [0x00, 0x2A, 0x80, 0x86, 0x00, 0x02]).view = [] ∧
    exampleDecipherState.auth.GetAuth Password.PW1 = true ∧
    exampleAttrs.Load exampleDecipherState.filesystem 0xc2 = (Error.NoError, ⟨1, 2048⟩) ∧
    (∀ bits : Nat, APDUPSO.Process bits exampleAttrs exampleCryptoEngine exampleDSCounter
      exampleIds 0x00 0x2A 0x80 0x86 (exampleEmptyData [0x00, 0x2A, 0x80, 0x86, 0x00, 0x02]) 0
      exampleResult exampleDecipherState exampleDecipherFacade
      = some (Error.CryptoOperationError, exampleResult, exampleDecipherState,
          exampleDecipherFacade)) ∧
    (∀ bits : Nat, 0 < bits →
      bstr.size_t_sub bits (exampleEmptyData [0x00, 0x2A, 0x80, 0x86, 0x00, 0x00]).length 1
        = 2 ^ bits - 1) ∧
    (∀ bits : Nat, APDUPSO.Process bits exampleAttrs exampleCryptoEngine exampleDSCounter
      exampleIds 0x00 0x2A 0x80 0x86 (exampleEmptyData [0x00, 0x2A, 0x80, 0x86, 0x00, 0x00]) 0
      exampleResult exampleDecipherState exampleDecipherFacade = none) ∧
    (∀ (κ : Type) (bits : Nat) (attrs : AlgoritmAttrs) (crypto_e : Crypto.CryptoEngine κ)
        (security : DSCounter) (ids : Ids) (data : bstr) (le : Nat) (dataOut : bstr)
        (solo : State) (k : κ) (alg : AlgoritmAttr),
      data.length = 0 → data.byteAt 0 = 0x00 →
      solo.auth.GetAuth Password.PW1 = true →
      attrs.Load solo.filesystem 0xc2 = (Error.NoError, alg) →
      alg.AlgorithmID = attrs.RSA → alg.AlgorithmID ≠ 0 →
      APDUPSO.Process bits attrs crypto_e security ids 0x00 0x2A 0x80 0x86 data le dataOut
        solo k = none) := by
  refine ⟨by decide, by decide, by decide, by decide, by decide, ?_, ?_, ?_, ?_⟩
  · intro bits
    rfl
  · intro bits hbits
    have h1 : 1 < 2 ^ bits := Nat.one_lt_two_pow (by omega)
    show (0 + 2 ^ bits - 1 % 2 ^ bits) % 2 ^ bits = 2 ^ bits - 1
    rw [Nat.mod_eq_of_lt h1, Nat.zero_add, Nat.mod_eq_of_lt (by omega)]
  · intro bits
    rfl
  · intro κ bits attrs crypto_e security ids data le dataOut solo k alg hlen hb hauth hload
      hrsa halg
    have hrsa2 : attrs.RSA ≠ 0 := hrsa ▸ halg
    simp [APDUPSO.Process, APDUPSO.Check, APDUcommands.PSO, APDUPSO.decipher, hauth, hload,
      hb, hrsa, hrsa2, bstr.substr?, hlen]

end Spec

/-! ## The claims about an empty resetting code and about failed password changes -/

namespace Spec

open Util Applet OpenPGP File

/-- C24: RESET RETRY COUNTER with `P1 = 00` when no resetting code is stored, that is when DO
`D3` reads back empty.  For every data with `6 <= |data| <= 32` the prefix test against the
empty code passes, `APDUResetRetryCounter::Process` returns `NoError` and leaves the output
and the auth flags as they were; afterwards the PW1 file holds exactly the data and the
remaining-tries counter of PW1 is 3.  The state is arbitrary: no flag needs to be set. -/
theorem C24_reset_with_empty_resetting_code (ids : Ids) (cla ins p2 : Nat)
    (data dataOut : bstr) (solo : State)
    (hcheck : APDUResetRetryCounter.Check cla ins 0x00 p2 = Error.NoError)
    (hrc : storedRC ids solo = [])
    (h6 : 6 ≤ data.length) (h32 : data.length ≤ 32) :
    data.view.take (storedRC ids solo).length = storedRC ids solo ∧
    (APDUResetRetryCounter.Process ids cla ins 0x00 p2 data dataOut solo).1 = Error.NoError ∧
    (APDUResetRetryCounter.Process ids cla ins 0x00 p2 data dataOut solo).2.1 = dataOut ∧
    (APDUResetRetryCounter.Process ids cla ins 0x00 p2 data dataOut solo).2.2.auth = solo.auth ∧
    storedPassword ids
      (APDUResetRetryCounter.Process ids cla ins 0x00 p2 data dataOut solo).2.2 Password.PW1
      = data.view ∧
    (PWStatusBytes.Load ids
      (APDUResetRetryCounter.Process ids cla ins 0x00 p2 data dataOut solo).2.2.filesystem
      ).PasswdTryRemains Password.PW1 = 3 := by
  have h := ResetRetryCounter_Process_rc ids cla ins p2 data dataOut solo hcheck
  simp only [PGPConst.PW1MinLength, PGPConst.PW1MaxLength, hrc, List.length_nil, Nat.zero_add,
    List.take_zero, ne_eq, not_true_eq_false, if_false, Nat.sub_zero] at h
  rw [if_neg (by omega)] at h
  obtain ⟨st, hs, hauth, hpw, hcnt⟩ := ResetRetryCounter_store ids
    (((bstr.mk3 (List.replicate (bstr.MAX 32 PGPConst.RCMaxLength) 0) 0 32).set []).clear.appendView
      (data.substr 0 data.length))
    dataOut solo
  rw [h, hs]
  refine ⟨by simp [hrc], rfl, rfl, hauth, ?_, hcnt⟩
  rw [hpw, bstr.view_appendView, bstr.view_clear, List.nil_append]
  have ht := bstr.view_substr_tail data 0
  simp only [Nat.sub_zero, List.drop_zero] at ht
  exact ht

/-- Witness for C24: the state of the example card whose PW1 has run out of tries holds no
resetting code and has no flag set; RESET RETRY COUNTER `00 2C 00 81` with the data `999999`
returns `NoError`, and PW1 is `999999` afterwards with three tries. -/
theorem C24_reset_with_empty_resetting_code_witness :
    storedRC exampleIds exampleLockedState = [] ∧
    (PWStatusBytes.Load exampleIds exampleLockedState.filesystem).PasswdTryRemains Password.PW1
      = 0 ∧
    (APDUResetRetryCounter.Process exampleIds 0x00 0x2C 0x00 0x81
      (bstr.ofList [0x39, 0x39, 0x39, 0x39, 0x39, 0x39]) exampleResult exampleLockedState).1
      = Error.NoError ∧
    storedPassword exampleIds
      (APDUResetRetryCounter.Process exampleIds 0x00 0x2C 0x00 0x81
        (bstr.ofList [0x39, 0x39, 0x39, 0x39, 0x39, 0x39]) exampleResult exampleLockedState).2.2
      Password.PW1 = (bstr.ofList [0x39, 0x39, 0x39, 0x39, 0x39, 0x39]).view ∧
    (PWStatusBytes.Load exampleIds
      (APDUResetRetryCounter.Process exampleIds 0x00 0x2C 0x00 0x81
        (bstr.ofList [0x39, 0x39, 0x39, 0x39, 0x39, 0x39]) exampleResult
        exampleLockedState).2.2.filesystem).PasswdTryRemains Password.PW1 = 3 := by
  have h := C24_reset_with_empty_resetting_code exampleIds 0x00 0x2C 0x81
    (bstr.ofList [0x39, 0x39, 0x39, 0x39, 0x39, 0x39]) exampleResult exampleLockedState
    (by decide) (by decide) (by decide) (by decide)
  exact ⟨by decide, by decide, h.2.1, h.2.2.2.2.1, h.2.2.2.2.2⟩

/-- C25: CHANGE REFERENCE DATA neither consumes nor consults the retry counter.  Whenever
`APDUChangeReferenceData::Process` returns an error, it returns the output and the state it
was given, so the password file and the PW status bytes are unchanged; this covers
`WrongPassword` for a wrong old-password prefix.  The error and the output are the same from
any other state in which the password file reads the same, whatever its PW status bytes and
auth flags are: a remaining-tries counter of 0 changes nothing. -/
theorem C25_change_reference_data_ignores_counter (ids : Ids) (cla ins p1 p2 : Nat)
    (data dataOut : bstr) (solo solo2 : State)
    (hpw : storedPassword ids solo2 (passwdId p2) = storedPassword ids solo (passwdId p2)) :
    ((APDUChangeReferenceData.Process ids cla ins p1 p2 data dataOut solo).1 ≠ Error.NoError →
      (APDUChangeReferenceData.Process ids cla ins p1 p2 data dataOut solo).2.1 = dataOut ∧
      (APDUChangeReferenceData.Process ids cla ins p1 p2 data dataOut solo).2.2 = solo ∧
      storedPassword ids
        (APDUChangeReferenceData.Process ids cla ins p1 p2 data dataOut solo).2.2 (passwdId p2)
        = storedPassword ids solo (passwdId p2) ∧
      PWStatusBytes.Load ids
        (APDUChangeReferenceData.Process ids cla ins p1 p2 data dataOut solo).2.2.filesystem
        = PWStatusBytes.Load ids solo.filesystem) ∧
    (APDUChangeReferenceData.Process ids cla ins p1 p2 data dataOut solo2).1
      = (APDUChangeReferenceData.Process ids cla ins p1 p2 data dataOut solo).1 ∧
    (APDUChangeReferenceData.Process ids cla ins p1 p2 data dataOut solo2).2.1
      = (APDUChangeReferenceData.Process ids cla ins p1 p2 data dataOut solo).2.1 := by
  by_cases hcheck : APDUChangeReferenceData.Check cla ins p1 p2 = Error.NoError
  · have e1 := ChangeReferenceData_Process_eq ids cla ins p1 p2 data dataOut solo hcheck
    have e2 := ChangeReferenceData_Process_eq ids cla ins p1 p2 data dataOut solo2 hcheck
    rw [hpw] at e2
    rw [e1, e2]
    refine ⟨?_, ?_, ?_⟩
    · intro herr
      split_ifs at herr ⊢
      · exact ⟨rfl, rfl, rfl, rfl⟩
      · exact ⟨rfl, rfl, rfl, rfl⟩
      · exact ⟨rfl, rfl, rfl, rfl⟩
      · exact absurd rfl herr
    · split_ifs <;> rfl
    · split_ifs <;> rfl
  · have e : ∀ st : State, APDUChangeReferenceData.Process ids cla ins p1 p2 data dataOut st
        = (APDUChangeReferenceData.Check cla ins p1 p2, dataOut, st) := by
      intro st
      simp only [APDUChangeReferenceData.Process, ne_eq, hcheck, not_false_eq_true, if_true]
    rw [e solo, e solo2]
    exact ⟨fun _ => ⟨rfl, rfl, rfl, rfl⟩, rfl, rfl⟩

/-- Witness for C25: on the example card PW1 is `123456` with three tries left, and in the
state where PW1 has run out of tries it is `123456` with none left.  CHANGE REFERENCE DATA
`00 24 00 81` with the data `999999` followed by `654321` returns `WrongPassword` from
both and leaves the state of the example card as it was. -/
theorem C25_change_reference_data_ignores_counter_witness :
    (PWStatusBytes.Load exampleIds exampleCard.solo.filesystem).PasswdTryRemains Password.PW1
      = 3 ∧
    (PWStatusBytes.Load exampleIds exampleLockedState.filesystem).PasswdTryRemains Password.PW1
      = 0 ∧
    (APDUChangeReferenceData.Process exampleIds 0x00 0x24 0x00 0x81
      (bstr.ofList [0x39, 0x39, 0x39, 0x39, 0x39, 0x39, 0x36, 0x35, 0x34, 0x33, 0x32, 0x31])
      exampleResult exampleCard.solo).1 = Error.WrongPassword ∧
    (APDUChangeReferenceData.Process exampleIds 0x00 0x24 0x00 0x81
      (bstr.ofList [0x39, 0x39, 0x39, 0x39, 0x39, 0x39, 0x36, 0x35, 0x34, 0x33, 0x32, 0x31])
      exampleResult exampleLockedState).1
      = (APDUChangeReferenceData.Process exampleIds 0x00 0x24 0x00 0x81
        (bstr.ofList [0x39, 0x39, 0x39, 0x39, 0x39, 0x39, 0x36, 0x35, 0x34, 0x33, 0x32, 0x31])
        exampleResult exampleCard.solo).1 ∧
    (APDUChangeReferenceData.Process exampleIds 0x00 0x24 0x00 0x81
      (bstr.ofList [0x39, 0x39, 0x39, 0x39, 0x39, 0x39, 0x36, 0x35, 0x34, 0x33, 0x32, 0x31])
      exampleResult exampleCard.solo).2.2 = exampleCard.solo := by
  have h := C25_change_reference_data_ignores_counter exampleIds 0x00 0x24 0x00 0x81
    (bstr.ofList [0x39, 0x39, 0x39, 0x39, 0x39, 0x39, 0x36, 0x35, 0x34, 0x33, 0x32, 0x31])
    exampleResult exampleCard.solo exampleLockedState (by decide)
  exact ⟨by decide, by decide, by decide, h.2.1, (h.1 (by decide)).2.1⟩

end Spec

/-! ## The claim about the data of GENERATE ASYMMETRIC KEY PAIR -/

namespace Spec

open Util Applet OpenPGP File

/-- C21, as stated, fails: on the example card with RSA attributes in DO `C1`, the request
`00 47 80 00` with the two bytes `B6 FF`, whose byte 1 is not `00`, returns `NoError`, and
the whole result is the one of the data `B6 00`: byte 1 is never looked at. -/
theorem C21_second_byte_is_not_checked :
    (bstr.ofList [0xb6, 0xff]).length = 2 ∧
    (bstr.ofList [0xb6, 0xff]).byteAt 1 ≠ 0x00 ∧
    (APDUGenerateAsymmetricKeyPair.Process exampleAttrs exampleKeyGenerator exampleKeyStorage
      exampleIds 0x00 0x47 0x80 0x00 (bstr.ofList [0xb6, 0xff]) 0 exampleResult exampleKeyState
      exampleEmptyFacade).1 = Error.NoError ∧
    APDUGenerateAsymmetricKeyPair.Process exampleAttrs exampleKeyGenerator exampleKeyStorage
      exampleIds 0x00 0x47 0x80 0x00 (bstr.ofList [0xb6, 0xff]) 0 exampleResult exampleKeyState
      exampleEmptyFacade
      = APDUGenerateAsymmetricKeyPair.Process exampleAttrs exampleKeyGenerator exampleKeyStorage
        exampleIds 0x00 0x47 0x80 0x00 (bstr.ofList [0xb6, 0x00]) 0 exampleResult
        exampleKeyState exampleEmptyFacade := by
  decide

/-- C21, amended: the data of GENERATE ASYMMETRIC KEY PAIR.  For a request whose header passes
`Check`, `APDUGenerateAsymmetricKeyPair::Process` returns `WrongAPDUDataLength` for every
data whose length is not 2; it returns `NoError` only if the data has two bytes and byte 0 is
one of `0xB6`, `0xB8`, `0xA4`; two-byte data with any other byte 0 yields `DataNotFound`.
The algorithm attributes are loaded from DO `0xC1` for `0xB6`, `0xC2` for `0xB8` and `0xC3`
for `0xA4`: the result is the same for any attribute loader that agrees on that one DO.
Byte 1 is not examined: the result is the same for any data of the same length and the same
byte 0. -/
theorem C21_generate_data_validation {κ ρ ε : Type} (attrs attrs2 : AlgoritmAttrs)
    (cryptolib : Crypto.KeyGenerator κ ρ ε) (key_storage : Crypto.KeyStorage κ ρ ε)
    (ids : Ids) (cla ins p1 p2 : Nat) (data data2 : bstr) (le : Nat) (dataOut : bstr)
    (solo : State) (k : κ)
    (hcheck : APDUGenerateAsymmetricKeyPair.Check cla ins p1 p2 = Error.NoError) :
    (data.length ≠ 2 →
      APDUGenerateAsymmetricKeyPair.Process attrs cryptolib key_storage ids cla ins p1 p2 data
        le dataOut solo k = (Error.WrongAPDUDataLength, dataOut.clear, solo, k)) ∧
    ((APDUGenerateAsymmetricKeyPair.Process attrs cryptolib key_storage ids cla ins p1 p2 data
        le dataOut solo k).1 = Error.NoError →
      data.length = 2 ∧
      (data.byteAt 0 = 0xB6 ∨ data.byteAt 0 = 0xB8 ∨ data.byteAt 0 = 0xA4)) ∧
    (data.length = 2 → data.byteAt 0 ≠ 0xB6 → data.byteAt 0 ≠ 0xB8 → data.byteAt 0 ≠ 0xA4 →
      APDUGenerateAsymmetricKeyPair.Process attrs cryptolib key_storage ids cla ins p1 p2 data
        le dataOut solo k = (Error.DataNotFound, dataOut.clear, solo, k)) ∧
    ((data.byteAt 0 = 0xB6 →
        APDUGenerateAsymmetricKeyPair.fileId (APDUGenerateAsymmetricKeyPair.keyType data)
          = 0xC1) ∧
      (data.byteAt 0 = 0xB8 →
        APDUGenerateAsymmetricKeyPair.fileId (APDUGenerateAsymmetricKeyPair.keyType data)
          = 0xC2) ∧
      (data.byteAt 0 = 0xA4 →
        APDUGenerateAsymmetricKeyPair.fileId (APDUGenerateAsymmetricKeyPair.keyType data)
          = 0xC3)) ∧
    (attrs2.RSA = attrs.RSA → attrs2.ECDSAforCDSandIntAuth = attrs.ECDSAforCDSandIntAuth →
      attrs2.Load solo.filesystem
          (APDUGenerateAsymmetricKeyPair.fileId (APDUGenerateAsymmetricKeyPair.keyType data))
        = attrs.Load solo.filesystem
          (APDUGenerateAsymmetricKeyPair.fileId (APDUGenerateAsymmetricKeyPair.keyType data)) →
      APDUGenerateAsymmetricKeyPair.Process attrs2 cryptolib key_storage ids cla ins p1 p2 data
        le dataOut solo k
        = APDUGenerateAsymmetricKeyPair.Process attrs cryptolib key_storage ids cla ins p1 p2
          data le dataOut solo k) ∧
    (data2.length = data.length → data2.byteAt 0 = data.byteAt 0 →
      APDUGenerateAsymmetricKeyPair.Process attrs cryptolib key_storage ids cla ins p1 p2 data2
        le dataOut solo k
        = APDUGenerateAsymmetricKeyPair.Process attrs cryptolib key_storage ids cla ins p1 p2
          data le dataOut solo k) := by
  have hlenbad : data.length ≠ 2 →
      APDUGenerateAsymmetricKeyPair.Process attrs cryptolib key_storage ids cla ins p1 p2 data
        le dataOut solo k = (Error.WrongAPDUDataLength, dataOut.clear, solo, k) := by
    intro hlen
    simp only [APDUGenerateAsymmetricKeyPair.Process, hcheck, ne_eq, not_true_eq_false,
      if_false, hlen, not_false_eq_true, if_true]
  have htagbad : data.length = 2 → data.byteAt 0 ≠ 0xB6 → data.byteAt 0 ≠ 0xB8 →
      data.byteAt 0 ≠ 0xA4 →
      APDUGenerateAsymmetricKeyPair.Process attrs cryptolib key_storage ids cla ins p1 p2 data
        le dataOut solo k = (Error.DataNotFound, dataOut.clear, solo, k) := by
    intro hlen h6 h8 h4
    simp [APDUGenerateAsymmetricKeyPair.Process, hcheck, hlen,
      APDUGenerateAsymmetricKeyPair.keyType, APDUGenerateAsymmetricKeyPair.fileId,
      OpenPGPKeyType.DigitalSignature, OpenPGPKeyType.Confidentiality,
      OpenPGPKeyType.Authentication, OpenPGPKeyType.Unknown, h6, h8, h4]
  refine ⟨hlenbad, ?_, htagbad, ⟨?_, ?_, ?_⟩, ?_, ?_⟩
  · intro hok
    by_cases hlen : data.length = 2
    · refine ⟨hlen, ?_⟩
      by_contra hno
      simp only [not_or] at hno
      rw [htagbad hlen hno.1 hno.2.1 hno.2.2] at hok
      simp at hok
    · rw [hlenbad hlen] at hok
      simp at hok
  · intro h
    simp [APDUGenerateAsymmetricKeyPair.keyType, APDUGenerateAsymmetricKeyPair.fileId,
      OpenPGPKeyType.DigitalSignature, OpenPGPKeyType.Confidentiality,
      OpenPGPKeyType.Authentication, h]
  · intro h
    simp [APDUGenerateAsymmetricKeyPair.keyType, APDUGenerateAsymmetricKeyPair.fileId,
      OpenPGPKeyType.DigitalSignature, OpenPGPKeyType.Confidentiality,
      OpenPGPKeyType.Authentication, h]
  · intro h
    simp [APDUGenerateAsymmetricKeyPair.keyType, APDUGenerateAsymmetricKeyPair.fileId,
      OpenPGPKeyType.DigitalSignature, OpenPGPKeyType.Confidentiality,
      OpenPGPKeyType.Authentication, h]
  · intro h1 h2 h3
    simp only [APDUGenerateAsymmetricKeyPair.Process, h1, h2, h3]
  · intro h1 h2
    simp only [APDUGenerateAsymmetricKeyPair.Process, APDUGenerateAsymmetricKeyPair.keyType,
      h1, h2]

/-- Witness for the amended C21: on the example card the request `00 47 80 00` with the
three bytes `B6 00 00` returns `WrongAPDUDataLength`, with the output cleared. -/
theorem C21_generate_data_validation_witness :
    APDUGenerateAsymmetricKeyPair.Process exampleAttrs exampleKeyGenerator exampleKeyStorage
      exampleIds 0x00 0x47 0x80 0x00 (bstr.ofList [0xb6, 0x00, 0x00]) 0 exampleResult
      exampleKeyState exampleEmptyFacade
      = (Error.WrongAPDUDataLength, exampleResult.clear, exampleKeyState, exampleEmptyFacade) :=
  (C21_generate_data_validation exampleAttrs exampleAttrs exampleKeyGenerator exampleKeyStorage
    exampleIds 0x00 0x47 0x80 0x00 (bstr.ofList [0xb6, 0x00, 0x00]) (bstr.ofList [0xb6, 0x00])
    0 exampleResult exampleKeyState exampleEmptyFacade (by decide)).1 (by decide)

end Spec

/-! ## The claim about the bound of the buffer -/

namespace bstr

end bstr

namespace Spec

open Util Applet OpenPGP File

end Spec
